import Mathlib

/-!
Verification development for the IVPN desktop-app sources

Two parts of the repository are embedded here:

* `Commands`  : `CmdConnect.Run` of `src/commands/connection.go`
  (server selection, multi-hop resolution, DNS choice, connection request);
* `wireguard` : the macOS WireGuard supervisor of
  `src/daemon/vpn/wireguard/wireguard_darwin.go`.

Strings printed to the terminal or written to the log are not part of the
model; everything that decides a return value or a daemon call is.
-/

set_option autoImplicit false

namespace Commands

/-! ## Data model of `connection.go` -/

/-- Modelled from the spec: the record type `serverDesc` of the CLI package is declared outside
src/; `Run` reads only `gateway` and `countryCode`, the other fields are the ones the spec lists
for a ServerRecord. -/
structure serverDesc where
  protocol : String
  gateway : String
  city : String
  countryCode : String
  country : String
  deriving DecidableEq, Repr

/-- Go `vpn.Type`. -/
inductive VpnType where
  | OpenVPN
  | WireGuard
  deriving DecidableEq, Repr

/-- One element of `WireGuardServerInfo.Hosts` (also the shape of `types.WGHost`). -/
structure WGHost where
  Host : String
  PublicKey : String
  LocalIP : String
  deriving DecidableEq, Repr

/-- Catalog record `apitypes.WireGuardServerInfo`, fields read by `Run`. -/
structure WireGuardServerInfo where
  Gateway : String
  City : String
  CountryCode : String
  Country : String
  Hosts : List WGHost
  deriving DecidableEq, Repr

/-- Catalog record `apitypes.OpenvpnServerInfo`, fields read by `Run`. -/
structure OpenvpnServerInfo where
  Gateway : String
  City : String
  CountryCode : String
  Country : String
  IPAddresses : List String
  deriving DecidableEq, Repr

/-- One antitracker tier: `servers.Config.Antitracker.Default` or `.Hardcore`. -/
structure AntitrackerDNS where
  IP : String
  MultihopIP : String
  deriving DecidableEq, Repr

/-- The answer of `_proto.GetServers()`. -/
structure ServersInfoResponse where
  WireguardServers : List WireGuardServerInfo
  OpenvpnServers : List OpenvpnServerInfo
  AntitrackerDefault : AntitrackerDNS
  AntitrackerHardcore : AntitrackerDNS
  deriving DecidableEq, Repr

/-- The request `types.Connect`, fields written by `Run`.  The Go zero value is `Connect.zero`. -/
structure Connect where
  VpnType : Commands.VpnType
  CurrentDNS : String
  FirewallOnDuringConnection : Bool
  WireGuardPort : Nat
  WireGuardHosts : List WGHost
  OpenVpnPort : Nat
  OpenVpnPortProtocol : Nat
  OpenVpnIPAddresses : List String
  MultihopExitSrvID : String
  deriving DecidableEq, Repr

/-- Go `types.Connect{}`. -/
def Connect.zero : Connect :=
  { VpnType := .OpenVPN, CurrentDNS := "", FirewallOnDuringConnection := false,
    WireGuardPort := 0, WireGuardHosts := [], OpenVpnPort := 0, OpenVpnPortProtocol := 0,
    OpenVpnIPAddresses := [], MultihopExitSrvID := "" }

/-- The flags of `CmdConnect`. -/
structure CmdConnect where
  gateway : String
  any : Bool
  obfsproxy : Bool
  firewall : Bool
  dns : String
  antitracker : Bool
  antitrackerHard : Bool
  filter_proto : String
  filter_location : Bool
  filter_city : Bool
  filter_country : Bool
  filter_countryCode : Bool
  filter_invert : Bool
  multiopExitSvr : String
  fastest : Bool
  deriving DecidableEq, Repr

/-- The errors `Run` can return, by kind. -/
inductive RunError where
  /-- Go `flags.BadParameter{Message: ...}` -/
  | BadParameter (Message : String)
  /-- Go `service.ErrorNotLoggedIn{}` -/
  | ErrorNotLoggedIn
  /-- an error handed back by `_proto.GetServers` or `_proto.SetPreferences` -/
  | protoError (err : String)
  /-- the error handed back by `serversPing` -/
  | pingError (err : String)
  /-- Go `fmt.Errorf(...)` -/
  | Errorf (msg : String)
  /-- a run-time panic (`s.Hosts[0]` on an empty host list) -/
  | indexOutOfRange
  deriving DecidableEq, Repr

/-- The calls `Run` makes on the daemon connection `_proto`, in order. -/
inductive Call where
  | GetServers
  | GetHelloResponse
  | serversPing
  | SetPreferences (key value : String)
  | ConnectVPN (req : Connect)
  | DisconnectVPN
  | showState
  deriving DecidableEq, Repr

/-- Everything `Run` reads that is not a flag: the answers of the daemon and the helpers of the
package that are declared outside src/ (`serversList`, `serversFilter`, `serversPing`,
`getVpnTypeByFlag`, the constant `ProtoName_OpenVPN`) and Go's `net.ParseIP`.

`serversPing` reorders the slice it is given in place, so it is a function to the reordered
slice (of the same length) and the error; `ParseIP s` is `none` when `net.ParseIP(s)` is nil and
otherwise the text `net.ParseIP(s).String()`. -/
structure Daemon where
  GetServers : Except String ServersInfoResponse
  helloCommand : String
  helloSession : String
  SetPreferences : String → String → Option String
  ConnectVPN : Connect → Option String
  DisconnectVPN : Option String
  serversList : ServersInfoResponse → List serverDesc
  serversFilter : List serverDesc → String → String → Bool → Bool → Bool → Bool → Bool →
    List serverDesc
  serversPing : List serverDesc → List serverDesc × Option String
  serversPing_length : ∀ l, (serversPing l).1.length = l.length
  getVpnTypeByFlag : String → Except String Commands.VpnType
  ParseIP : String → Option String
  ProtoName_OpenVPN : String

deriving instance DecidableEq for Except

/-- What a run leaves behind: the daemon calls made, in order, and the returned error. -/
structure Outcome where
  calls : List Call
  err : Option RunError
  deriving DecidableEq, Repr

/-! ## `CmdConnect.Run`, stage by stage -/

/-- Lines 101-109: a hello response arrived but it carries no session. -/
def notLoggedIn (d : Daemon) : Bool :=
  decide (d.helloCommand ≠ "") && decide (d.helloSession = "")

/-- Lines 120-125: the `fp` flag is given and `getVpnTypeByFlag` fails or is not OpenVPN. -/
def protoNotOpenVPN (d : Daemon) (c : CmdConnect) : Bool :=
  decide (c.filter_proto ≠ "") &&
    (match d.getVpnTypeByFlag c.filter_proto with
     | .ok .OpenVPN => false
     | _ => true)

/-- The entry candidates of line 131. -/
def entrySvrs (d : Daemon) (c : CmdConnect) (svrs : List serverDesc) : List serverDesc :=
  d.serversFilter svrs c.gateway d.ProtoName_OpenVPN false false false false false

/-- The exit candidates of line 136. -/
def exitSvrs (d : Daemon) (c : CmdConnect) (svrs : List serverDesc) : List serverDesc :=
  d.serversFilter svrs c.multiopExitSvr d.ProtoName_OpenVPN false false false false false

/-- Lines 115-148: the multi-hop branch.  Returns the command with `gateway` and
`multiopExitSvr` overwritten by the resolved gateways. -/
def resolveMultiHop (d : Daemon) (c : CmdConnect) (svrs : List serverDesc) :
    Except RunError CmdConnect :=
  if c.fastest then
    .error (.BadParameter "'fastest' flag is not applicable for Multi-Hop connection [exit_svr]")
  else if protoNotOpenVPN d c then
    .error (.BadParameter "protocol flag [fp] is not applicable for Multi-Hop connection [exit_svr], only OpenVPN connection allowed")
  else
    match entrySvrs d c svrs with
    | [entrySvr] =>
      match exitSvrs d c svrs with
      | [exitSvr] =>
        if entrySvr.gateway = exitSvr.gateway ∨ entrySvr.countryCode = exitSvr.countryCode then
          .error (.BadParameter "unable to use entry- and exit- servers from the same country for multi-hop connection")
        else
          .ok { c with gateway := entrySvr.gateway, multiopExitSvr := exitSvr.gateway }
      | _ => .error (.BadParameter "specify correct exit server ID for multi-hop connection")
    | _ => .error (.BadParameter "specify correct entry server ID for multi-hop connection")

/-- Lines 168-193: the selection made when `srvID` is still empty. -/
def selectFound (c : CmdConnect) (svrs : List serverDesc) : Except RunError String :=
  match svrs with
  | [] => .error (.Errorf "no servers found by your filter")
  | s :: rest =>
    if rest ≠ [] ∧ c.any = false then .error (.Errorf "more than one server found")
    else .ok s.gateway

/-- Lines 151: the filtered list of the single-hop branch. -/
def filtered (d : Daemon) (c : CmdConnect) (svrs : List serverDesc) : List serverDesc :=
  d.serversFilter svrs c.gateway c.filter_proto c.filter_location c.filter_city
    c.filter_countryCode c.filter_country c.filter_invert

/-- Lines 156-165: the `fastest` branch over the filtered list; `none` when it is not taken.
Otherwise the list as `serversPing` left it and either the error returned or `srvID`. -/
def selectFastest (d : Daemon) (c : CmdConnect) (svrs : List serverDesc) :
    Option (List serverDesc × Except RunError String) :=
  if c.fastest ∧ 1 < svrs.length then
    let pinged := d.serversPing svrs
    match pinged.2 with
    | some err =>
      if c.any = false then some (pinged.1, .error (.pingError err))
      else
        match pinged.1.getLast? with
        | some s => some (pinged.1, .ok s.gateway)
        | none => some (pinged.1, .error .indexOutOfRange)
    | none =>
      match pinged.1.getLast? with
      | some s => some (pinged.1, .ok s.gateway)
      | none => some (pinged.1, .error .indexOutOfRange)
  else none

/-- Lines 150-195: the single-hop branch: the daemon calls made and the selected gateway. -/
def selectSingleHop (d : Daemon) (c : CmdConnect) (svrs : List serverDesc) :
    List Call × Except RunError String :=
  let l := filtered d c svrs
  match selectFastest d c l with
  | some (_, .error e) => ([.serversPing], .error e)
  | some (l', .ok srvID) =>
    if srvID = "" then ([.serversPing], selectFound c l') else ([.serversPing], .ok srvID)
  | none => ([], selectFound c l)

/-- Lines 113-195: the MULTI/SINGLE-HOP switch. -/
def resolveServer (d : Daemon) (c : CmdConnect) (svrs : List serverDesc) :
    List Call × Except RunError CmdConnect :=
  if c.multiopExitSvr ≠ "" then ([], resolveMultiHop d c svrs)
  else
    match selectSingleHop d c svrs with
    | (calls, .error e) => (calls, .error e)
    | (calls, .ok srvID) => (calls, .ok { c with gateway := srvID })

/-- The antitracker address of one tier for the hop mode of the command (lines 211-215 and
218-222). -/
def antitrackerIP (c : CmdConnect) (a : AntitrackerDNS) : String :=
  if c.multiopExitSvr ≠ "" then a.MultihopIP else a.IP

/-- Lines 200-224: the value of `req.CurrentDNS`, or the error of a manual DNS that is no IP. -/
def resolveDNS (d : Daemon) (c : CmdConnect) (servers : ServersInfoResponse) :
    Except RunError String :=
  let manual : Except RunError String :=
    if c.dns ≠ "" then
      match d.ParseIP c.dns with
      | none => .error (.BadParameter "")
      | some ip => .ok ip
    else .ok ""
  match manual with
  | .error e => .error e
  | .ok dns0 =>
    let dns1 := if c.antitracker then antitrackerIP c servers.AntitrackerDefault else dns0
    let dns2 := if c.antitrackerHard then antitrackerIP c servers.AntitrackerHardcore else dns1
    .ok dns2

/-- Lines 305-318: the connection itself. -/
def doConnect (d : Daemon) (req : Connect) : List Call × Option RunError :=
  match d.ConnectVPN req with
  | some err => ([.ConnectVPN req, .DisconnectVPN], some (.Errorf ("failed to connect: " ++ err)))
  | none => ([.ConnectVPN req, .showState], none)

/-- Go `strings.Split(s, ".")[0]`: the text before the first dot. -/
def multihopID (s : String) : String :=
  String.mk (s.toList.takeWhile (fun ch => ch != '.'))

/-- Lines 226-318: look the gateway up among the WireGuard servers, then among the OpenVPN
servers, fill the request and connect.  In the OpenVPN loop the tests after the `break` of a
match never fire (`entrySvr` is still nil there), so the loop is a search for the first match. -/
def connectServer (d : Daemon) (c : CmdConnect) (servers : ServersInfoResponse) (req : Connect) :
    List Call × Option RunError :=
  match servers.WireguardServers.find? (fun s => decide (s.Gateway = c.gateway)) with
  | some s =>
    match s.Hosts with
    | [] => ([], some .indexOutOfRange)
    | host :: _ =>
      doConnect d { req with VpnType := .WireGuard, WireGuardPort := 2049,
                              WireGuardHosts := [host] }
  | none =>
    let exitSvr : Option OpenvpnServerInfo :=
      if c.multiopExitSvr ≠ "" then
        servers.OpenvpnServers.find? (fun s => decide (s.Gateway = c.multiopExitSvr))
      else none
    match servers.OpenvpnServers.find? (fun s => decide (s.Gateway = c.gateway)) with
    | none => ([], some (.Errorf ("serverID not found in servers list (" ++ c.gateway ++ ")")))
    | some s =>
      match d.SetPreferences "enable_obfsproxy" (toString c.obfsproxy) with
      | some err => ([.SetPreferences "enable_obfsproxy" (toString c.obfsproxy)],
                     some (.protoError err))
      | none =>
        let req1 : Connect :=
          { req with VpnType := .OpenVPN, OpenVpnPort := 2049, OpenVpnPortProtocol := 0,
                     OpenVpnIPAddresses := s.IPAddresses,
                     MultihopExitSrvID :=
                       if c.multiopExitSvr ≠ "" then multihopID c.multiopExitSvr
                       else req.MultihopExitSrvID }
        if c.multiopExitSvr ≠ "" ∧ exitSvr = none then
          ([.SetPreferences "enable_obfsproxy" (toString c.obfsproxy)],
           some (.Errorf ("serverID not found in servers list (" ++ c.multiopExitSvr ++ ")")))
        else
          let r := doConnect d req1
          (.SetPreferences "enable_obfsproxy" (toString c.obfsproxy) :: r.1, r.2)

/-- Lines 197-318 for a command whose server is resolved. -/
def connectResolved (d : Daemon) (c : CmdConnect) (servers : ServersInfoResponse) :
    List Call × Option RunError :=
  match resolveDNS d c servers with
  | .error e => ([], some e)
  | .ok dns =>
    connectServer d c servers
      { Connect.zero with FirewallOnDuringConnection := c.firewall, CurrentDNS := dns }

/-- `CmdConnect.Run` (lines 86-319). -/
def Run (d : Daemon) (c : CmdConnect) : Outcome :=
  if c.gateway = "" ∧ c.fastest = false then ⟨[], some (.BadParameter "")⟩
  else
    match d.GetServers with
    | .error err => ⟨[.GetServers], some (.protoError err)⟩
    | .ok servers =>
      if notLoggedIn d then ⟨[.GetServers, .GetHelloResponse], some .ErrorNotLoggedIn⟩
      else
        match resolveServer d c (d.serversList servers) with
        | (calls, .error e) => ⟨[.GetServers, .GetHelloResponse] ++ calls, some e⟩
        | (calls, .ok c1) =>
          let r := connectResolved d c1 servers
          ⟨[.GetServers, .GetHelloResponse] ++ calls ++ r.1, r.2⟩

/-- Whatever `Run` does before the server is resolved, it has not called `SetPreferences`,
`ConnectVPN` or `DisconnectVPN`. -/
def readOnly : Call → Bool
  | .GetServers => true
  | .GetHelloResponse => true
  | .serversPing => true
  | _ => false

/-! ## A small catalog to run the model on -/

/-- A catalog with two OpenVPN servers in Germany, one in Sweden and one WireGuard server. -/
def demoServers : ServersInfoResponse :=
  { WireguardServers :=
      [{ Gateway := "us-ny.wg", City := "New York", CountryCode := "US", Country := "USA",
         Hosts := [{ Host := "1.2.3.4", PublicKey := "k", LocalIP := "10.0.0.1" }] }]
    OpenvpnServers :=
      [{ Gateway := "de-fra.ovpn", City := "Frankfurt", CountryCode := "DE",
         Country := "Germany", IPAddresses := ["5.5.5.5"] },
       { Gateway := "de-ber.ovpn", City := "Berlin", CountryCode := "DE",
         Country := "Germany", IPAddresses := ["6.6.6.6"] },
       { Gateway := "se-sto.ovpn", City := "Stockholm", CountryCode := "SE",
         Country := "Sweden", IPAddresses := ["7.7.7.7"] }]
    AntitrackerDefault := { IP := "10.0.254.2", MultihopIP := "10.0.254.102" }
    AntitrackerHardcore := { IP := "10.0.254.3", MultihopIP := "10.0.254.103" } }

/-- The flat server list of a catalog: WireGuard records first, then OpenVPN records. -/
def demoList (s : ServersInfoResponse) : List serverDesc :=
  s.WireguardServers.map (fun w =>
      { protocol := "WireGuard", gateway := w.Gateway, city := w.City,
        countryCode := w.CountryCode, country := w.Country }) ++
    s.OpenvpnServers.map (fun o =>
      { protocol := "OpenVPN", gateway := o.Gateway, city := o.City,
        countryCode := o.CountryCode, country := o.Country })

/-- A filter for the demo daemon: protocol by name (no protocol given: all), location by equality
with the fields switched on, or with the gateway when no field is switched on; an empty location
keeps every record; `invert` complements the match. -/
def demoFilter (svrs : List serverDesc) (mask proto : String)
    (useGw useCity useCCode useCountry invert : Bool) : List serverDesc :=
  svrs.filter (fun s =>
    (decide (proto = "") || decide (s.protocol = proto)) &&
    (decide (mask = "") ||
      ((if useGw || useCity || useCCode || useCountry then
          (useGw && decide (s.gateway = mask)) || (useCity && decide (s.city = mask)) ||
          (useCCode && decide (s.countryCode = mask)) ||
          (useCountry && decide (s.country = mask))
        else decide (s.gateway = mask)) != invert)))

/-- A daemon that answers every call successfully for a logged-in session. -/
def demoDaemon : Daemon :=
  { GetServers := .ok demoServers
    helloCommand := "Hello"
    helloSession := "session-token"
    SetPreferences := fun _ _ => none
    ConnectVPN := fun _ => none
    DisconnectVPN := none
    serversList := demoList
    serversFilter := demoFilter
    serversPing := fun l => (l, none)
    serversPing_length := fun _ => rfl
    getVpnTypeByFlag := fun s =>
      if s = "ovpn" ∨ s = "openvpn" then .ok .OpenVPN
      else if s = "wg" ∨ s = "wireguard" then .ok .WireGuard
      else .error "unsupported VPN type"
    ParseIP := fun s => if s = "9.9.9.9" then some "9.9.9.9" else none
    ProtoName_OpenVPN := "OpenVPN" }

/-- The command with every flag unset. -/
def noFlags : CmdConnect :=
  { gateway := "", any := false, obfsproxy := false, firewall := false, dns := "",
    antitracker := false, antitrackerHard := false, filter_proto := "",
    filter_location := false, filter_city := false, filter_country := false,
    filter_countryCode := false, filter_invert := false, multiopExitSvr := "",
    fastest := false }


/-- The demo daemon with a hello response that carries no session. -/
def loggedOutDaemon : Daemon :=
  { demoDaemon with helloSession := "" }

/-- Entry in Frankfurt, exit in Berlin: two different gateways of one country. -/
def sameCountryHop : CmdConnect :=
  { noFlags with gateway := "de-fra.ovpn", multiopExitSvr := "de-ber.ovpn" }

/-- Entry in Frankfurt, exit in Stockholm. -/
def twoCountryHop : CmdConnect :=
  { noFlags with gateway := "de-fra.ovpn", multiopExitSvr := "se-sto.ovpn" }

/-- The request sent for `twoCountryHop` by the demo daemon. -/
def twoCountryReq : Connect :=
  { Connect.zero with OpenVpnPort := 2049, OpenVpnIPAddresses := ["5.5.5.5"],
                      MultihopExitSrvID := "se-sto" }

/-- The Frankfurt record of the demo list. -/
def fraSvr : serverDesc :=
  { protocol := "OpenVPN", gateway := "de-fra.ovpn", city := "Frankfurt",
    countryCode := "DE", country := "Germany" }

/-- The Berlin record of the demo list. -/
def berSvr : serverDesc :=
  { protocol := "OpenVPN", gateway := "de-ber.ovpn", city := "Berlin",
    countryCode := "DE", country := "Germany" }

/-- A catalog whose second WireGuard record has the empty string as gateway. -/
def blankLastServers : ServersInfoResponse :=
  { demoServers with
    WireguardServers :=
      [{ Gateway := "us-ny.wg", City := "New York", CountryCode := "US", Country := "USA",
         Hosts := [{ Host := "1.2.3.4", PublicKey := "k", LocalIP := "10.0.0.1" }] },
       { Gateway := "", City := "Chicago", CountryCode := "US", Country := "USA",
         Hosts := [{ Host := "1.2.3.5", PublicKey := "k2", LocalIP := "10.0.0.2" }] }]
    OpenvpnServers := [] }

/-- The demo daemon serving `blankLastServers`. -/
def blankLastDaemon : Daemon :=
  { demoDaemon with GetServers := .ok blankLastServers }

/-- `connect -any -fcc DE`. -/
def anyGermanCmd : CmdConnect :=
  { noFlags with gateway := "DE", filter_countryCode := true, any := true }

/-- `connect -fastest`. -/
def fastestCmd : CmdConnect :=
  { noFlags with fastest := true }

/-- `connect -fastest -any`. -/
def fastestAnyCmd : CmdConnect :=
  { noFlags with fastest := true, any := true }

/-- The demo daemon when the daemon cannot be reached for the catalog. -/
def unreachableDaemon : Daemon :=
  { demoDaemon with GetServers := .error "daemon unreachable" }

/-- `connect -fastest -exit_svr se-sto.ovpn`. -/
def fastestHop : CmdConnect :=
  { noFlags with fastest := true, multiopExitSvr := "se-sto.ovpn" }

/-- `connect -fp wg -exit_svr se-sto.ovpn de-fra.ovpn`. -/
def wgHop : CmdConnect :=
  { twoCountryHop with filter_proto := "wg" }

/-- `connect -dns not-an-ip us-ny.wg`. -/
def badDnsCmd : CmdConnect :=
  { noFlags with gateway := "us-ny.wg", dns := "not-an-ip" }

/-- `connect -antitracker -dns 9.9.9.9 -exit_svr se-sto.ovpn de-fra.ovpn`. -/
def trackerHop : CmdConnect :=
  { twoCountryHop with antitracker := true, dns := "9.9.9.9" }

/-- The request sent for `trackerHop` by the demo daemon. -/
def trackerHopReq : Connect :=
  { twoCountryReq with CurrentDNS := "10.0.254.102" }

/-- `connect -antitracker us-ny.wg`. -/
def trackerCmd : CmdConnect :=
  { noFlags with gateway := "us-ny.wg", antitracker := true }

/-- `connect -antitracker -dns not-an-ip us-ny.wg`. -/
def trackerBadDnsCmd : CmdConnect :=
  { trackerCmd with dns := "not-an-ip" }

/-- Modelled from the spec: `serversFilter` is declared outside src/.  For the multi-hop lookups
the spec says that entry and exit "are each resolved by exact gateway-identifier match only (no
field filtering applies)"; this is that statement for the exit lookup of line 136, which is
made only when `exit_svr` is given: every record it returns then has `exit_svr` as its gateway.
It says nothing of a command without `exit_svr`. -/
def exitByGateway (d : Daemon) (c : CmdConnect) : Prop :=
  c.multiopExitSvr ≠ "" →
    ∀ servers, d.GetServers = .ok servers →
      ∀ x ∈ exitSvrs d c (d.serversList servers), x.gateway = c.multiopExitSvr

/-- The request sent for `trackerCmd` by the demo daemon. -/
def trackerReq : Connect :=
  { Connect.zero with VpnType := .WireGuard, WireGuardPort := 2049,
                      WireGuardHosts := [{ Host := "1.2.3.4", PublicKey := "k",
                                           LocalIP := "10.0.0.1" }],
                      CurrentDNS := "10.0.254.2" }

end Commands

namespace wireguard

/-! ## Data model of `wireguard_darwin.go` -/

/-- Go `strTriggerSuccessInit`. -/
def strTriggerSuccessInit : String := "UAPI listener started"

/-- Go `strTriggerAddrAlreadyInUse`. -/
def strTriggerAddrAlreadyInUse : String := "Address already in use"

/-- Go `subnetMask`. -/
def subnetMask : String := "255.0.0.0"

/-- Go `subnetMaskPrefixLenIPv6`. -/
def subnetMaskPrefixLenIPv6 : String := "64"

/-- Go `strings.Contains` on character lists. -/
def containsChars (s sub : List Char) : Bool :=
  s.tails.any (fun t => sub.isPrefixOf t)

/-- Go `strings.Contains`. -/
def stringsContains (s sub : String) : Bool :=
  containsChars s.toList sub.toList

/-! ## The output-log relay of `internalConnect` (lines 171-189) -/

/-- Go regexp class `[A-Z]`. -/
def isUpperAZ (ch : Char) : Bool := decide ('A' ≤ ch) && decide (ch ≤ 'Z')

/-- Go regexp class `[a-z]`. -/
def isLowerAZ (ch : Char) : Bool := decide ('a' ≤ ch) && decide (ch ≤ 'z')

/-- Go regexp class `\d` (also `[0-9]`). -/
def isDigit09 (ch : Char) : Bool := decide ('0' ≤ ch) && decide (ch ≤ '9')

/-- Go regexp class `\s`: tab, line feed, form feed, carriage return, space. -/
def isSpaceRE (ch : Char) : Bool :=
  ch == '\t' || ch == '\n' || ch == Char.ofNat 12 || ch == '\r' || ch == ' '

/-- One or more characters of a class, greedily; the rest of the input. -/
def many1 (p : Char → Bool) (l : List Char) : Option (List Char) :=
  if (l.takeWhile p).isEmpty then none else some (l.dropWhile p)

/-- Exactly one character of a class. -/
def one (p : Char → Bool) (l : List Char) : Option (List Char) :=
  match l with
  | ch :: rest => if p ch then some rest else none
  | [] => none

/-- Exactly `n` characters of a class. -/
def exactly (p : Char → Bool) : Nat → List Char → Option (List Char)
  | 0, l => some l
  | n + 1, l => (one p l).bind (exactly p n)

/-- A sequence of matchers, each applied to what the one before left. -/
def matchSeq : List (List Char → Option (List Char)) → List Char → Option (List Char)
  | [], l => some l
  | p :: ps, l => (p l).bind (matchSeq ps)

/-- The expression `logPrefixRegexp` of line 172,
`^[A-Z]+:\s\([a-z]+[0-9]+\)\s+\d{4}/\d\d/\d\d\s+\d\d:\d\d:\d\d\s+`, piece by piece.  Each
repeated class is followed by a character outside the class (or by the end of the expression),
so the greedy choice is the only one that can match. -/
def logPrefixRegexp : List (List Char → Option (List Char)) :=
  [many1 isUpperAZ, one (fun ch => ch == ':'), one isSpaceRE,
   one (fun ch => ch == '('), many1 isLowerAZ, many1 isDigit09, one (fun ch => ch == ')'),
   many1 isSpaceRE,
   exactly isDigit09 4, one (fun ch => ch == '/'), exactly isDigit09 2,
   one (fun ch => ch == '/'), exactly isDigit09 2,
   many1 isSpaceRE,
   exactly isDigit09 2, one (fun ch => ch == ':'), exactly isDigit09 2,
   one (fun ch => ch == ':'), exactly isDigit09 2,
   many1 isSpaceRE]

/-- The text left after the match of `logPrefixRegexp` at the start of the input, `none` when
the expression does not match (`FindString` then returns the empty string). -/
def afterLogPrefix (l : List Char) : Option (List Char) :=
  matchSeq logPrefixRegexp l

/-- Line 184: `strings.TrimPrefix(text, logPrefixRegexp.FindString(text))`. -/
def textWithoutPrefix (text : String) : String :=
  match afterLogPrefix text.toList with
  | some rest => String.mk rest
  | none => text

/-- Go `time.Second * 10`, in nanoseconds. -/
def tenSeconds : Int := 10 * 1000000000

/-- The zero `time.Time{}` (1 January of year 1, UTC), in nanoseconds relative to the Unix
epoch.  Instants are integers on this scale; a reading of the clock, `time.Now()`, is a natural
number on it. -/
def zeroTime : Int := -62135596800 * 1000000000

/-- The variables of the reader goroutine: `lastLogStringWithoutPrefix` and `lastLogTime`. -/
structure LogState where
  lastLogStringWithoutPrefix : String
  lastLogTime : Int
  deriving DecidableEq, Repr

/-- Lines 173-174: the reader's variables before the first line. -/
def LogState.start : LogState :=
  { lastLogStringWithoutPrefix := "", lastLogTime := zeroTime }

/-- A line of output with the reading of the clock at its arrival. -/
structure OutLine where
  text : String
  now : Nat
  deriving DecidableEq, Repr

/-- Lines 183-189: one pass of the reader's loop body; the flag tells whether
`logWgOut.Info(text)` ran.  `lastLogTime.Add(time.Second*10).After(now)` is
`now < lastLogTime + tenSeconds`. -/
def logStep (st : LogState) (line : OutLine) : LogState × Bool :=
  if textWithoutPrefix line.text ≠ st.lastLogStringWithoutPrefix ∨
      ¬ ((line.now : Int) < st.lastLogTime + tenSeconds) then
    ({ lastLogStringWithoutPrefix := textWithoutPrefix line.text, lastLogTime := line.now }, true)
  else (st, false)

/-- The reader's loop over the lines of output: the flag of every line. -/
def relay (st : LogState) : List OutLine → List Bool
  | [] => []
  | line :: rest => (logStep st line).2 :: relay (logStep st line).1 rest

/-- The most recently logged line: the last line of `ls` whose flag in `flags` is set, `prev`
when there is none. -/
def lastLogged (prev : Option OutLine) : List OutLine → List Bool → Option OutLine
  | line :: ls, b :: bs => lastLogged (if b then some line else prev) ls bs
  | _, _ => prev

/-- The rule in the words of the claim: a line is logged when no line was logged before, when
its text without the prefix differs from that of the most recently logged line, or when at least
10 seconds have passed since that line was logged. -/
def shouldLog (prev : Option OutLine) (line : OutLine) : Prop :=
  match prev with
  | none => True
  | some p => textWithoutPrefix line.text ≠ textWithoutPrefix p.text ∨
      (p.now : Int) + tenSeconds ≤ line.now

instance (prev : Option OutLine) (line : OutLine) : Decidable (shouldLog prev line) := by
  unfold shouldLog
  cases prev <;> infer_instance

/-- The lines of `ls` that the reader logs when it starts in state `st`, in order. -/
def loggedFrom (st : LogState) : List OutLine → List OutLine
  | [] => []
  | line :: rest =>
    if (logStep st line).2 then line :: loggedFrom (logStep st line).1 rest
    else loggedFrom (logStep st line).1 rest

/-- The lines of `ls` that were logged, in order. -/
def loggedLines (ls : List OutLine) : List OutLine :=
  loggedFrom LogState.start ls

/-- The reader's variables when `prev` is the most recently logged line. -/
def stateOf (prev : Option OutLine) : LogState :=
  match prev with
  | none => LogState.start
  | some p => { lastLogStringWithoutPrefix := textWithoutPrefix p.text, lastLogTime := p.now }

/-- Two lines that may be logged one after the other: different text without the prefix, or at
least 10 seconds apart. -/
def spaced (p q : OutLine) : Prop :=
  textWithoutPrefix p.text = textWithoutPrefix q.text → (p.now : Int) + tenSeconds ≤ q.now

/-- Three lines of output: the same message twice within 10 seconds, with different time
prefixes, and once more 12 seconds after the first. -/
def demoLines : List OutLine :=
  [{ text := "ERROR: (utun6) 2023/06/09 14:16:50 Failed to send", now := 1686320210000000000 },
   { text := "ERROR: (utun6) 2023/06/09 14:16:53 Failed to send", now := 1686320213000000000 },
   { text := "ERROR: (utun6) 2023/06/09 14:17:02 Failed to send", now := 1686320222000000000 }]

/-! ## `setWgConfiguration` (lines 426-465) -/

/-- What one pass of the retry loop meets: the result of `generateAndSaveConfigFile`, the lines
that `wg setconf` writes (each is passed to `errParse`), and the error of
`shell.ExecAndProcessOutput`. -/
structure Attempt where
  generateErr : Option String
  output : List String
  execErr : Option String
  deriving DecidableEq, Repr

/-- The effects of `setWgConfiguration`, in order. -/
inductive ConfEvent where
  /-- `wg.generateAndSaveConfigFile(wg.configFilePath)` -/
  | generateAndSaveConfigFile
  /-- `wg setconf <utun> <configFilePath>` -/
  | setconf
  /-- the deferred `os.Remove(wg.configFilePath)` -/
  | removeConfigFile
  deriving DecidableEq, Repr

/-- The flag `isPortInUse` after `errParse` has seen every line of the output. -/
def isPortInUse (output : List String) : Bool :=
  output.any (fun text => stringsContains text strTriggerAddrAlreadyInUse)

/-- The loop `for retries := 0; ; retries++` of lines 430-464, entered with the counter at
`retries` and `remaining = 5 - retries`; `attempts i` is what the pass with counter `i` meets.
The case `remaining = 0` is the test `retries >= 5`. -/
def setWgConfigurationLoop (attempts : Nat → Attempt) :
    (remaining retries : Nat) → List ConfEvent × Option String
  | 0, _ => ([], some "failed to set wireguard configuration")
  | remaining + 1, retries =>
    match (attempts retries).generateErr with
    | some err => ([.generateAndSaveConfigFile], some ("failed to save WG config file: " ++ err))
    | none =>
      if isPortInUse (attempts retries).output then
        let r := setWgConfigurationLoop attempts remaining (retries + 1)
        (.generateAndSaveConfigFile :: .setconf :: r.1, r.2)
      else ([.generateAndSaveConfigFile, .setconf], (attempts retries).execErr)

/-- `setWgConfiguration`: the loop, then the deferred removal of the config file. -/
def setWgConfiguration (attempts : Nat → Attempt) : List ConfEvent × Option String :=
  ((setWgConfigurationLoop attempts 5 0).1 ++ [.removeConfigFile],
   (setWgConfigurationLoop attempts 5 0).2)

/-- The number of generate-and-apply attempts in a run: the `wg setconf` calls. -/
def applyCount (events : List ConfEvent) : Nat :=
  events.count .setconf

/-- The number of calls of `generateAndSaveConfigFile` in a run. -/
def generateCount (events : List ConfEvent) : Nat :=
  events.count .generateAndSaveConfigFile

/-- Every pass reports the address in use. -/
def busyAttempts : Nat → Attempt :=
  fun _ => { generateErr := none, output := ["bind: Address already in use"], execErr := some "exit status 1" }

/-- The address is in use twice, then the configuration is applied. -/
def twoBusyAttempts : Nat → Attempt :=
  fun i => if i < 2 then busyAttempts i else { generateErr := none, output := [], execErr := none }

/-- The address is in use once, then the config file cannot be written. -/
def unwritableAttempts : Nat → Attempt :=
  fun i => if i < 1 then busyAttempts i
    else { generateErr := some "permission denied", output := [], execErr := none }

/-- Pass `i` generates the file and reports the address in use. -/
def busy (attempts : Nat → Attempt) (i : Nat) : Prop :=
  (attempts i).generateErr = none ∧ isPortInUse (attempts i).output = true

/-! ## `connect`, `pause`, `resume`, `disconnect` (lines 80-95 and 279-330)

The goroutine that runs `connect` and the callers of `pause`, `resume` and `disconnect` share
the variables of `internalVariables`.  The model is an interleaving of atomic steps: each call
of `pause`, `resume` or `disconnect` is one step, and the goroutine of `connect` advances by
`connectStep`, which does nothing while that goroutine is blocked. -/

/-- The errors `internalConnect` returns once the process was started, by kind. -/
inductive InternalError where
  /-- Go `fmt.Errorf("WireGuard process error: %w", err)` (line 273) -/
  | processError (err : String)
  /-- the value of `initError` (line 276) -/
  | initError (err : String)
  deriving DecidableEq, Repr

/-- The errors `connect` returns, by kind. -/
inductive ConnError where
  /-- the error of `internalConnect`, unchanged -/
  | internal (err : InternalError)
  /-- Go `&vpn.ReconnectionRequiredError{Err: err}` (line 90), `err` being what
  `internalConnect` returned -/
  | ReconnectionRequired (err : Option InternalError)
  deriving DecidableEq, Repr

/-- The tunnel process `wg.internals.command`. -/
inductive Process where
  /-- `command == nil` -/
  | noCommand
  /-- the command exists, `command.Process == nil` -/
  | notStarted
  /-- started and alive -/
  | running
  /-- terminated with the error `command.Wait()` will return; `ProcessState` is still nil until
  `Wait` returns -/
  | terminated (waitErr : Option String)
  /-- `command.Wait()` has returned: `ProcessState != nil` -/
  | waited
  deriving DecidableEq, Repr

/-- Where the goroutine of `connect` stands. -/
inductive ConnectPhase where
  /-- in `internalConnect`, blocked in `command.Wait()` (line 269); `initError` is known -/
  | waitProcess (initError : Option String)
  /-- `internalConnect` has returned `err`; the deferred function of `connect` has not run -/
  | returned (err : Option InternalError)
  /-- in the deferred function, blocked in `<-omResumedChan` (line 89) -/
  | waitResume (err : Option InternalError)
  /-- `connect` has returned `err` -/
  | done (err : Option ConnError)
  deriving DecidableEq, Repr

/-- The shared variables and the position of `connect`.  `omResumedChan` is `none` for a nil
channel and otherwise the number of values buffered in the channel of capacity 1; `kills`
counts the calls of `cmd.Process.Kill()`. -/
structure ConnState where
  isGoingToStop : Bool
  isPaused : Bool
  omResumedChan : Option Nat
  command : Process
  kills : Nat
  phase : ConnectPhase
  deriving DecidableEq, Repr

/-- `internalDisconnect` (lines 286-298): kill a started process that has not been waited for. -/
def internalDisconnect (s : ConnState) : ConnState :=
  match s.command with
  | .noCommand => s
  | .notStarted => s
  | .waited => s
  | .running => { s with command := .terminated (some "signal: killed"), kills := s.kills + 1 }
  | .terminated e => { s with command := .terminated e, kills := s.kills + 1 }

/-- `resume` (lines 318-330): a send that never blocks, then `isPaused = false`. -/
def resume (s : ConnState) : ConnState :=
  { s with
    omResumedChan :=
      match s.omResumedChan with
      | none => none
      | some n => if n < 1 then some (n + 1) else some n
    isPaused := false }

/-- `pause` (lines 313-316). -/
def pause (s : ConnState) : ConnState :=
  internalDisconnect { s with isPaused := true }

/-- `disconnect` (lines 279-284). -/
def disconnect (s : ConnState) : ConnState :=
  internalDisconnect (resume { s with isGoingToStop := true })

/-- One step of the goroutine of `connect`:
* blocked in `Wait` until the process has terminated; then lines 269-276 give the result of
  `internalConnect`;
* the deferred function of `connect` (lines 82-92) tests `isPaused && !isGoingToStop`;
* blocked in `<-omResumedChan` until the channel holds a value; then the result becomes a
  `ReconnectionRequiredError`. -/
def connectStep (s : ConnState) : ConnState :=
  match s.phase with
  | .waitProcess initError =>
    match s.command with
    | .terminated waitErr =>
      let err : Option InternalError :=
        match waitErr with
        | some e => if s.isGoingToStop then initError.map .initError else some (.processError e)
        | none => initError.map .initError
      { s with command := .waited, phase := .returned err }
    | _ => s
  | .returned err =>
    if s.isPaused ∧ s.isGoingToStop = false then { s with phase := .waitResume err }
    else { s with phase := .done (err.map .internal) }
  | .waitResume err =>
    match s.omResumedChan with
    | some (n + 1) =>
      { s with omResumedChan := some n, phase := .done (some (.ReconnectionRequired err)) }
    | _ => s
  | .done _ => s

/-- Several steps of the goroutine of `connect` in a row. -/
def connectSteps : Nat → ConnState → ConnState
  | 0, s => s
  | n + 1, s => connectSteps n (connectStep s)

/-- A running connection: `connect` has made its channel (`tokens` values are buffered in it),
the process runs, initialization succeeded, and `connect` is blocked in `Wait`. -/
def connected (tokens : Nat) : ConnState :=
  { isGoingToStop := false, isPaused := false, omResumedChan := some tokens,
    command := .running, kills := 0, phase := .waitProcess none }

/-- The result of `connect` once it has returned. -/
def connectResult (s : ConnState) : Option (Option ConnError) :=
  match s.phase with
  | .done err => some err
  | _ => none

/-- The result is a `ReconnectionRequiredError`. -/
def isReconnectionRequired : Option (Option ConnError) → Bool
  | some (some (.ReconnectionRequired _)) => true
  | _ => false

/-- A connection that waits for the resume signal, or has returned a
`ReconnectionRequiredError`, keeps doing so under `connectStep`. -/
def settled (err : Option InternalError) (s : ConnState) : Prop :=
  (s.phase = .waitResume err ∧ ∃ n, s.omResumedChan = some n ∧ n ≤ 1) ∨
  s.phase = .done (some (.ReconnectionRequired err))

/-! ## Routes: `setRoutes` and `removeRoutes` (lines 467-544) -/

/-- The fields of `wg *WireGuard` read by the network code: the connection parameters
(`connectParams`) and the route snapshot and tunnel name of `internals`.  A `net.IP` is kept as
its text (`String()`); the optional IPv6 addresses are `none` when the getter returns nil. -/
structure WireGuard where
  clientLocalIP : String
  hostIP : String
  hostLocalIP : String
  ipv6ClientLocalIP : Option String
  ipv6HostLocalIP : Option String
  mtu : Nat
  defGateway : String
  defInterfaceName : String
  utunName : String
  deriving DecidableEq, Repr

/-- A call of `shell.Exec(log, name, args...)`. -/
structure Cmd where
  name : String
  args : List String
  deriving DecidableEq, Repr

/-- What `shell.Exec` does to a system state of type `σ`: the new state, and `true` when the
returned error is nil. -/
abbrev Shell (σ : Type) := σ → Cmd → σ × Bool

/-- Line 473: `route -n add -inet <hostIP> <defGateway>`. -/
def cmdAddHost (wg : WireGuard) : Cmd :=
  ⟨"/sbin/route", ["-n", "add", "-inet", wg.hostIP, wg.defGateway]⟩

/-- Line 479: `route -n add -inet default <defGateway> -ifscope <defInterfaceName>`. -/
def cmdAddScoped (wg : WireGuard) : Cmd :=
  ⟨"/sbin/route", ["-n", "add", "-inet", "default", wg.defGateway, "-ifscope",
    wg.defInterfaceName]⟩

/-- Line 484: `route -n delete -inet default <defGateway>`. -/
def cmdDeleteDefault (wg : WireGuard) : Cmd :=
  ⟨"/sbin/route", ["-n", "delete", "-inet", "default", wg.defGateway]⟩

/-- Line 490: `route -n add -inet default -interface <utun>`. -/
def cmdAddTunnel (wg : WireGuard) : Cmd :=
  ⟨"/sbin/route", ["-n", "add", "-inet", "default", "-interface", wg.utunName]⟩

/-- Line 499: `route -n add -inet6 -net ::/1 <ipv6HostLocalIP>`. -/
def cmdAddV6Low (ip6 : String) : Cmd :=
  ⟨"/sbin/route", ["-n", "add", "-inet6", "-net", "::/1", ip6]⟩

/-- Line 502: `route -n add -inet6 -net 8000::/1 <ipv6HostLocalIP>`. -/
def cmdAddV6High (ip6 : String) : Cmd :=
  ⟨"/sbin/route", ["-n", "add", "-inet6", "-net", "8000::/1", ip6]⟩

/-- Line 514: `route -n delete -inet <hostIP>`. -/
def cmdDeleteHost (wg : WireGuard) : Cmd :=
  ⟨"/sbin/route", ["-n", "delete", "-inet", wg.hostIP]⟩

/-- Line 519: `route -n delete -inet default <defGateway> -ifscope <defInterfaceName>`. -/
def cmdDeleteScoped (wg : WireGuard) : Cmd :=
  ⟨"/sbin/route", ["-n", "delete", "-inet", "default", wg.defGateway, "-ifscope",
    wg.defInterfaceName]⟩

/-- Line 531: `route -n add -inet default <defGateway>`. -/
def cmdAddDefault (wg : WireGuard) : Cmd :=
  ⟨"/sbin/route", ["-n", "add", "-inet", "default", wg.defGateway]⟩

/-- Line 540: `route -n delete -inet6 -net ::/1 <ipv6HostLocalIP>`. -/
def cmdDeleteV6Low (ip6 : String) : Cmd :=
  ⟨"/sbin/route", ["-n", "delete", "-inet6", "-net", "::/1", ip6]⟩

/-- Line 541: `route -n delete -inet6 -net 8000::/1 <ipv6HostLocalIP>`. -/
def cmdDeleteV6High (ip6 : String) : Cmd :=
  ⟨"/sbin/route", ["-n", "delete", "-inet6", "-net", "8000::/1", ip6]⟩

/-- Lines 471 and 513: `!net.IPv4(127, 0, 0, 1).Equal(wg.connectParams.hostIP)`, on the text of
the address. -/
def hostIsNotLoopback (wg : WireGuard) : Bool :=
  decide (wg.hostIP ≠ "127.0.0.1")

/-- `setRoutes` (lines 467-508): the state after the last command issued and the error
returned. -/
def setRoutes {σ : Type} (sh : Shell σ) (wg : WireGuard) (s : σ) : σ × Option String :=
  let r1 : σ × Bool := if hostIsNotLoopback wg then sh s (cmdAddHost wg) else (s, true)
  if r1.2 = false then (r1.1, some "adding route shell comand error")
  else
    let r2 := sh r1.1 (cmdAddScoped wg)
    if r2.2 = false then (r2.1, some "adding default route shell comand error")
    else
      let r3 := sh r2.1 (cmdDeleteDefault wg)
      if r3.2 = false then (r3.1, some "delete default route shell comand error")
      else
        let r4 := sh r3.1 (cmdAddTunnel wg)
        if r4.2 = false then (r4.1, some "adding default route shell comand error")
        else
          match wg.ipv6HostLocalIP with
          | none => (r4.1, none)
          | some ip6 =>
            let r5 := sh r4.1 (cmdAddV6Low ip6)
            if r5.2 = false then (r5.1, some "adding route shell comand error")
            else
              let r6 := sh r5.1 (cmdAddV6High ip6)
              if r6.2 = false then (r6.1, some "adding route shell comand error")
              else (r6.1, none)

/-- `removeRoutes` (lines 510-544): every command is issued whatever the earlier ones returned;
the result is always nil. -/
def removeRoutes {σ : Type} (sh : Shell σ) (wg : WireGuard) (s : σ) : σ × Option String :=
  let s1 := if hostIsNotLoopback wg then (sh s (cmdDeleteHost wg)).1 else s
  let s2 := (sh s1 (cmdDeleteScoped wg)).1
  let s3 := (sh s2 (cmdAddDefault wg)).1
  let s4 :=
    match wg.ipv6HostLocalIP with
    | none => s3
    | some ip6 => (sh (sh s3 (cmdDeleteV6Low ip6)).1 (cmdDeleteV6High ip6)).1
  (s4, none)

/-! ### The route table of claim C8 -/

/-- The place of a route in the table: address family, destination and interface scope. -/
structure Slot where
  family : String
  dest : String
  ifscope : Option String
  deriving DecidableEq, Repr

/-- Where a route leads: a gateway address or an interface. -/
structure Via where
  gateway : Option String
  iface : Option String
  deriving DecidableEq, Repr

/-- A route table: at most one route in each slot. -/
abbrev RouteTable := Slot → Option Via

/-- The operation of a `route` command. -/
def parseOp (op : String) : Option Bool :=
  if op = "add" then some true else if op = "delete" then some false else none

/-- The arguments of the `route` commands used by `setRoutes` and `removeRoutes`: whether the
command adds, the slot it names, and where the route leads. -/
def parseRoute (args : List String) : Option (Bool × Slot × Via) :=
  match args with
  | [n, op, fam, dest] =>
    if n = "-n" ∧ fam = "-inet" then
      (parseOp op).map fun add => (add, ⟨fam, dest, none⟩, ⟨none, none⟩)
    else none
  | [n, op, fam, dest, gw] =>
    if n = "-n" ∧ fam = "-inet" then
      (parseOp op).map fun add => (add, ⟨fam, dest, none⟩, ⟨some gw, none⟩)
    else none
  | [n, op, fam, a, b, c] =>
    if n = "-n" ∧ fam = "-inet" ∧ a = "default" ∧ b = "-interface" then
      (parseOp op).map fun add => (add, ⟨fam, a, none⟩, ⟨none, some c⟩)
    else if n = "-n" ∧ fam = "-inet6" ∧ a = "-net" then
      (parseOp op).map fun add => (add, ⟨fam, b, none⟩, ⟨some c, none⟩)
    else none
  | [n, op, fam, dest, gw, sc, ifn] =>
    if n = "-n" ∧ fam = "-inet" ∧ sc = "-ifscope" then
      (parseOp op).map fun add => (add, ⟨fam, dest, some ifn⟩, ⟨some gw, none⟩)
    else none
  | _ => none

/-- The route-table model of claim C8 as a shell: adding to an occupied slot fails, deleting
from an empty slot fails, and a failing command changes nothing. -/
def routeExec : Shell RouteTable := fun t c =>
  if c.name = "/sbin/route" then
    match parseRoute c.args with
    | some (true, k, v) => if (t k).isSome then (t, false) else (Function.update t k (some v), true)
    | some (false, k, _) => if (t k).isSome then (Function.update t k none, true) else (t, false)
    | none => (t, false)
  else (t, false)

/-- A shell in which the command `bad` fails without effect and every other command behaves as
in `sh`. -/
def failing {σ : Type} (bad : Cmd) (sh : Shell σ) : Shell σ := fun s c =>
  if c = bad then (s, false) else sh s c

/-- The steps (a)-(d) of `setRoutes`: the commands up to the default route through the tunnel. -/
def stepsToTunnel (wg : WireGuard) : List Cmd :=
  (if hostIsNotLoopback wg then [cmdAddHost wg] else []) ++
    [cmdAddScoped wg, cmdDeleteDefault wg, cmdAddTunnel wg]

/-- The steps (e) of `setRoutes`: the two IPv6 commands. -/
def stepsAfterTunnel (wg : WireGuard) : List Cmd :=
  match wg.ipv6HostLocalIP with
  | none => []
  | some ip6 => [cmdAddV6Low ip6, cmdAddV6High ip6]

/-- The slot of the plain IPv4 default route. -/
def defaultSlot : Slot := ⟨"-inet", "default", none⟩

/-- The slot of the host route to the endpoint. -/
def hostSlot (wg : WireGuard) : Slot := ⟨"-inet", wg.hostIP, none⟩

/-- The slot of the interface-scoped copy of the default route. -/
def scopedSlot (wg : WireGuard) : Slot := ⟨"-inet", "default", some wg.defInterfaceName⟩

/-- The slot of one IPv6 half-space route. -/
def v6Slot (net : String) : Slot := ⟨"-inet6", net, none⟩

/-- The table is as `internalConnect` expects to find it: the plain default route is the one of
the snapshot, and the slots `setRoutes` adds to are empty (the IPv6 slots when an IPv6 peer
address is configured). -/
def pristine (wg : WireGuard) (t : RouteTable) : Prop :=
  t defaultSlot = some ⟨some wg.defGateway, none⟩ ∧
  t (hostSlot wg) = none ∧ t (scopedSlot wg) = none ∧
  (wg.ipv6HostLocalIP ≠ none → t (v6Slot "::/1") = none) ∧
  (wg.ipv6HostLocalIP ≠ none → t (v6Slot "8000::/1") = none)

/-- The table once the interface `ifn` is down: the routes through that interface are gone.
This is what the comment of lines 523-525 says of the default route through the tunnel ("it
destroys automatically after VPN interface is down"). -/
def interfaceDown (ifn : String) (t : RouteTable) : RouteTable := fun k =>
  match t k with
  | some v => if v.iface = some ifn then none else some v
  | none => none

/-- The table after the teardown of `internalConnect` that follows a `setRoutes` in which the
command `bad` fails: the tunnel process is stopped (lines 230-236) and waited for (line 265),
so that the tunnel interface is down, and then the deferred `removeRoutes` (line 135) runs. -/
def tornDown (wg : WireGuard) (bad : Cmd) (t : RouteTable) : RouteTable :=
  (removeRoutes routeExec wg
    (interfaceDown wg.utunName (setRoutes (failing bad routeExec) wg t).1)).1

/-- What the commands of `setRoutes` can have made of the table `t`: the plain default slot
holds what it held, nothing, or the default route through the tunnel; and any other slot that
differs from `t` was empty in `t` and is the slot of the host route (unless the endpoint is
127.0.0.1), of the scoped copy, or of an IPv6 route (when an IPv6 peer address is configured). -/
def setRoutesTouched (wg : WireGuard) (t s : RouteTable) : Prop :=
  (s defaultSlot = t defaultSlot ∨ s defaultSlot = none ∨
    s defaultSlot = some ⟨none, some wg.utunName⟩) ∧
  ∀ k, s k ≠ t k → k ≠ defaultSlot →
    t k = none ∧
    ((hostIsNotLoopback wg = true ∧ k = hostSlot wg) ∨ k = scopedSlot wg ∨
      (wg.ipv6HostLocalIP ≠ none ∧ (k = v6Slot "::/1" ∨ k = v6Slot "8000::/1")))

/-- Some route of the table goes through the interface `ifn`. -/
def referencesInterface (t : RouteTable) (ifn : String) : Prop :=
  ∃ k v, t k = some v ∧ v.iface = some ifn

/-- A connection to 145.239.239.55 with IPv6, default gateway 192.168.1.1 on en0. -/
def demoWg : WireGuard :=
  { clientLocalIP := "172.26.22.146", hostIP := "145.239.239.55", hostLocalIP := "172.16.0.1",
    ipv6ClientLocalIP := some "fd00:4956:504e:ffff::ac1a:1692",
    ipv6HostLocalIP := some "fd00:4956:504e:ffff::1", mtu := 0,
    defGateway := "192.168.1.1", defInterfaceName := "en0", utunName := "utun7" }

/-- A table that holds the default route via 192.168.1.1 and nothing else. -/
def demoTable : RouteTable :=
  fun k => if k = defaultSlot then some ⟨some "192.168.1.1", none⟩ else none

/-! ## Stopping (lines 279-298) -/

/-- What `internalDisconnect` returns (lines 286-298): nil when there is nothing to stop,
otherwise the result of `cmd.Process.Kill()`, which is `kill`. -/
def internalDisconnectErr (kill : Option String) (s : ConnState) : Option String :=
  match s.command with
  | .noCommand => none
  | .notStarted => none
  | .waited => none
  | .running => kill
  | .terminated _ => kill

/-- What `disconnect` returns (line 283). -/
def disconnectErr (kill : Option String) (s : ConnState) : Option String :=
  internalDisconnectErr kill (resume { s with isGoingToStop := true })

/-- What `pause` returns (line 315). -/
def pauseErr (kill : Option String) (s : ConnState) : Option String :=
  internalDisconnectErr kill { s with isPaused := true }

/-- The test of line 292: the command was never created, the process was never started, or
`ProcessState` is set (the exit of the process has been observed by `Wait`). -/
def nothingToStop (s : ConnState) : Prop :=
  s.command = .noCommand ∨ s.command = .notStarted ∨ s.command = .waited

instance (s : ConnState) : Decidable (nothingToStop s) := by
  unfold nothingToStop
  infer_instance

/-- A started process whose exit has not been observed: `Process != nil`, `ProcessState == nil`. -/
def startedNotObserved (s : ConnState) : Prop :=
  s.command = .running ∨ ∃ e, s.command = .terminated e

/-- Several calls of `disconnect` in a row. -/
def disconnects : Nat → ConnState → ConnState
  | 0, s => s
  | n + 1, s => disconnects n (disconnect s)

/-- A connection whose `connect` has returned and whose process has been waited for. -/
def stopped : ConnState :=
  { isGoingToStop := false, isPaused := true, omResumedChan := some 0, command := .waited,
    kills := 1, phase := .done none }

/-- A running connection whose process has just died with the error `err`: `Wait` has not
returned yet, and neither `disconnect` nor `pause` was called. -/
def crashed (tokens : Nat) (err : String) : ConnState :=
  { connected tokens with command := .terminated (some err) }

/-- The channel of a connection holds at most one value. -/
def singleSlot (s : ConnState) : Prop :=
  ∀ n, s.omResumedChan = some n → n ≤ 1

/-! ## A shell that keeps a log -/

/-- What a run has done, in order. -/
inductive Done where
  /-- a call of `shell.Exec` and whether it returned nil -/
  | exec (c : Cmd) (ok : Bool)
  /-- the call of `setWgConfiguration`: its effects and its result -/
  | setWgConfiguration (events : List ConfEvent) (err : Option String)
  /-- the call of `waitHandshakeAndNotifyConnected` -/
  | waitHandshakeAndNotifyConnected
  deriving DecidableEq, Repr

/-- The shell that appends every command to a log; the command issued when the log holds `n`
entries succeeds when `ok n` is true. -/
def logShell (ok : Nat → Bool) : Shell (List Done) := fun log c =>
  (log ++ [.exec c (ok log.length)], ok log.length)

/-- The shell commands of a log, in the order they were issued. -/
def issued (log : List Done) : List Cmd :=
  log.filterMap (fun e =>
    match e with
    | .exec c _ => some c
    | _ => none)

/-- Issue the commands in order and stop behind the first one that fails; the flag tells whether
all of them succeeded. -/
def execUntilFailure {σ : Type} (sh : Shell σ) : List Cmd → σ → σ × Bool
  | [], s => (s, true)
  | c :: cs, s => if (sh s c).2 then execUntilFailure sh cs (sh s c).1 else ((sh s c).1, false)

/-- Issue every command in order, whatever the earlier ones returned. -/
def execEach {σ : Type} (sh : Shell σ) : List Cmd → σ → σ
  | [], s => s
  | c :: cs, s => execEach sh cs (sh s c).1

/-- The command sequence of `setRoutes` in the order of claim C14: (a) the host route unless the
endpoint is 127.0.0.1, (b) the scoped copy of the default route, (c) the delete of the plain
default route, (d) the default route through the tunnel, (e) the two IPv6 routes when an IPv6
peer address is configured. -/
def setRoutesCommands (wg : WireGuard) : List Cmd :=
  stepsToTunnel wg ++ stepsAfterTunnel wg

/-- Go `IP.IsLoopback` on the text of an address: 127.0.0.0/8 or ::1. -/
def isLoopbackText (ip : String) : Bool :=
  "127.".toList.isPrefixOf ip.toList || decide (ip = "::1")

/-- The command sequence in the words of claim C14: as `setRoutesCommands`, with the host route
skipped when the endpoint is a loopback address. -/
def setRoutesCommandsAsClaimed (wg : WireGuard) : List Cmd :=
  (if isLoopbackText wg.hostIP then [] else [cmdAddHost wg]) ++
    [cmdAddScoped wg, cmdDeleteDefault wg, cmdAddTunnel wg] ++ stepsAfterTunnel wg

/-- The command sequence of `removeRoutes` in the order of claim C16. -/
def removeRoutesCommands (wg : WireGuard) : List Cmd :=
  (if hostIsNotLoopback wg then [cmdDeleteHost wg] else []) ++
    [cmdDeleteScoped wg, cmdAddDefault wg] ++
    (match wg.ipv6HostLocalIP with
     | none => []
     | some ip6 => [cmdDeleteV6Low ip6, cmdDeleteV6High ip6])

/-- The slots of the routes that a command sequence adds. -/
def addedSlots (cmds : List Cmd) : List Slot :=
  cmds.filterMap (fun c =>
    match parseRoute c.args with
    | some (true, k, _) => some k
    | _ => none)

/-- The slots of the routes that a command sequence deletes. -/
def deletedSlots (cmds : List Cmd) : List Slot :=
  cmds.filterMap (fun c =>
    match parseRoute c.args with
    | some (false, k, _) => some k
    | _ => none)

/-- The demo connection with the endpoint 127.0.0.2, a loopback address other than 127.0.0.1. -/
def loopbackWg : WireGuard :=
  { demoWg with hostIP := "127.0.0.2" }

/-! ## `onRoutingChanged` (lines 546-575) -/

/-- The answer of `netinfo.GetDefaultRouteInfo()`: gateway (`none` for nil), interface name and
error. -/
structure RouteInfo where
  gateway : Option String
  interfaceName : String
  err : Option String
  deriving DecidableEq, Repr

/-- `onRoutingChanged`: the parameters with the stored snapshot, the state of the system and the
result.  `defGateway.Equal(wg.defaultRouteGatewayIP())` compares with `connectParams.hostLocalIP`
(line 652), on the text of the addresses. -/
def onRoutingChanged {σ : Type} (sh : Shell σ) (isPaused : Bool) (info : RouteInfo)
    (wg : WireGuard) (s : σ) : WireGuard × σ × Option String :=
  if isPaused then (wg, s, none)
  else
    match info.err with
    | some err => (wg, s, some err)
    | none =>
      match info.gateway with
      | none => (wg, s, none)
      | some defGateway =>
        if info.interfaceName = "" then (wg, s, none)
        else if defGateway = wg.hostLocalIP ∨ info.interfaceName = wg.utunName then
          (wg, s, none)
        else
          let s1 := (removeRoutes sh wg s).1
          let wg1 : WireGuard :=
            { wg with defGateway := defGateway, defInterfaceName := info.interfaceName }
          let s2 := (setRoutes sh wg1 s1).1
          (wg1, s2, none)

/-- The cases in which claim C15 says nothing is done: paused, detection failed, no gateway, no
interface name, the gateway is the peer address of the tunnel, the interface is the tunnel. -/
def nothingToReconcile (isPaused : Bool) (info : RouteInfo) (wg : WireGuard) : Prop :=
  isPaused = true ∨ info.err ≠ none ∨ info.gateway = none ∨ info.interfaceName = "" ∨
  info.gateway = some wg.hostLocalIP ∨ info.interfaceName = wg.utunName

instance (isPaused : Bool) (info : RouteInfo) (wg : WireGuard) :
    Decidable (nothingToReconcile isPaused info wg) := by
  unfold nothingToReconcile
  infer_instance

/-- The default route has moved to 10.0.0.1 on en1. -/
def roamedInfo : RouteInfo :=
  { gateway := some "10.0.0.1", interfaceName := "en1", err := none }

/-! ## The configuration file of `setWgConfiguration` (lines 426-465) -/

/-- Whether a file is at `configFilePath` after the events, `before` telling whether one was
there at the start: `generateAndSaveConfigFile` writes the file (a failed call may have created
it as well), `wg setconf` only reads it, `os.Remove` deletes it. -/
def configFileExists (before : Bool) : List ConfEvent → Bool
  | [] => before
  | .generateAndSaveConfigFile :: rest => configFileExists true rest
  | .setconf :: rest => configFileExists before rest
  | .removeConfigFile :: rest => configFileExists false rest

/-- The number of calls of `os.Remove(wg.configFilePath)` in a run. -/
def removeCount (events : List ConfEvent) : Nat :=
  events.count .removeConfigFile

/-! ## `initializeUnunInterface` (lines 393-423) -/

/-- A read of `wg.internals.isGoingToStop`.  Other goroutines write the flag, so a read is a
step of the world like a command is: it gives the state after the read and the value seen. -/
abbrev Flag (σ : Type) := σ → σ × Bool

/-- Line 398: `ipconfig set <utun> MANUAL <clientLocalIP> 255.0.0.0`. -/
def cmdAssignIPv4 (wg : WireGuard) : Cmd :=
  ⟨"/usr/sbin/ipconfig", ["set", wg.utunName, "MANUAL", wg.clientLocalIP, subnetMask]⟩

/-- Line 412: `ipconfig set <utun> MANUAL-V6 <ipv6LocalIP> 64`. -/
def cmdAssignIPv6 (wg : WireGuard) (ip6 : String) : Cmd :=
  ⟨"/usr/sbin/ipconfig", ["set", wg.utunName, "MANUAL-V6", ip6, subnetMaskPrefixLenIPv6]⟩

/-- The loop `for i := 0; i < 5 && !wg.internals.isGoingToStop; i++` of lines 397-403 and
411-417, entered with `remaining = 5 - i`; `errNil` tells whether the variable `err`, which the
two loops share, is nil.  The result is the state after the loop and whether `err` is nil
then.  The flag is not read when `i < 5` fails; the sleep between attempts is left out. -/
def assignLoop {σ : Type} (sh : Shell σ) (stop : Flag σ) (c : Cmd) : Nat → σ → Bool → σ × Bool
  | 0, s, errNil => (s, errNil)
  | remaining + 1, s, errNil =>
    if (stop s).2 then ((stop s).1, errNil)
    else if (sh (stop s).1 c).2 then ((sh (stop s).1 c).1, true)
    else assignLoop sh stop c remaining (sh (stop s).1 c).1 false

/-- `initializeUnunInterface`: the state after the last step and the error returned. -/
def initializeUnunInterface {σ : Type} (sh : Shell σ) (stop : Flag σ) (wg : WireGuard) (s : σ) :
    σ × Option String :=
  let r4 := assignLoop sh stop (cmdAssignIPv4 wg) 5 s true
  if r4.2 = false then (r4.1, some "failed to set the IPv4 address for interface")
  else
    match wg.ipv6ClientLocalIP with
    | none => (r4.1, none)
    | some ip6 =>
      let r6 := assignLoop sh stop (cmdAssignIPv6 wg ip6) 5 r4.1 true
      if r6.2 = false then (r6.1, some "failed to set the IPv6 address for interface")
      else (r6.1, none)

/-- A system state that records what was done and how often the stop flag was read. -/
structure World where
  log : List Done
  reads : Nat
  deriving DecidableEq, Repr

/-- The shell on `World`: the command issued when the log holds `n` entries succeeds when
`ok n` is true. -/
def worldShell (ok : Nat → Bool) : Shell World := fun w c =>
  ({ w with log := w.log ++ [.exec c (ok w.log.length)] }, ok w.log.length)

/-- The stop flag on `World`: the read made after `n` earlier reads sees `stopAt n`. -/
def worldFlag (stopAt : Nat → Bool) : Flag World := fun w =>
  ({ w with reads := w.reads + 1 }, stopAt w.reads)

/-- The log of a loop that failed `failures` times and then succeeded, or did not. -/
def attemptsLog (c : Cmd) (failures : Nat) (succeeded : Bool) : List Done :=
  List.replicate failures (.exec c false) ++ (if succeeded then [.exec c true] else [])

/-! ## `initialize` and the wait for the start of the process (lines 219-229 and 340-391) -/

/-- Values that come from outside this file: the path `platform.DNSScript()` and the text of
`wg.DefaultDNS()`. -/
structure Platform where
  dnsScript : String
  defaultDNS : String
  deriving DecidableEq, Repr

/-- Line 591: `<DNSScript> -up_init_ipv6_resolver <ipv6LocalIP> <utun>`. -/
def cmdInitIPv6Resolver (p : Platform) (wg : WireGuard) (ip6 : String) : Cmd :=
  ⟨p.dnsScript, ["-up_init_ipv6_resolver", ip6, wg.utunName]⟩

/-- Line 580: `<DNSScript> -up_set_dns <defaultDNS>`. -/
def cmdSetDNS (p : Platform) : Cmd :=
  ⟨p.dnsScript, ["-up_set_dns", p.defaultDNS]⟩

/-- Line 380: `/sbin/ifconfig <utun> mtu <mtu>`. -/
def cmdSetMTU (wg : WireGuard) : Cmd :=
  ⟨"/sbin/ifconfig", [wg.utunName, "mtu", toString wg.mtu]⟩

/-- `initIPv6DNSResolver` (lines 587-597). -/
def initIPv6DNSResolver {σ : Type} (sh : Shell σ) (p : Platform) (wg : WireGuard) (s : σ) :
    σ × Option String :=
  match wg.ipv6ClientLocalIP with
  | none => (s, none)
  | some ip6 =>
    if wg.utunName.length > 0 then
      if (sh s (cmdInitIPv6Resolver p wg ip6)).2 then ((sh s (cmdInitIPv6Resolver p wg ip6)).1, none)
      else ((sh s (cmdInitIPv6Resolver p wg ip6)).1, some "failed to change DNS")
    else (s, none)

/-- `setDNS` (lines 577-585). -/
def setDNS {σ : Type} (sh : Shell σ) (p : Platform) (s : σ) : σ × Option String :=
  if (sh s (cmdSetDNS p)).2 then ((sh s (cmdSetDNS p)).1, none)
  else ((sh s (cmdSetDNS p)).1, some "failed to change DNS")

/-- `initializeConfiguration` (lines 363-388); `conf` is the call of `setWgConfiguration` as a
step of the world. -/
def initializeConfiguration {σ : Type} (sh : Shell σ) (stop : Flag σ)
    (conf : σ → σ × Option String) (wg : WireGuard) (s : σ) : σ × Option String :=
  match (initializeUnunInterface sh stop wg s).2 with
  | some e => ((initializeUnunInterface sh stop wg s).1, some ("failed to initialize interface: " ++ e))
  | none =>
    match (conf (initializeUnunInterface sh stop wg s).1).2 with
    | some e => ((conf (initializeUnunInterface sh stop wg s).1).1, some e)
    | none =>
      if wg.mtu > 0 then
        if (sh (conf (initializeUnunInterface sh stop wg s).1).1 (cmdSetMTU wg)).2 then
          ((sh (conf (initializeUnunInterface sh stop wg s).1).1 (cmdSetMTU wg)).1, none)
        else
          ((sh (conf (initializeUnunInterface sh stop wg s).1).1 (cmdSetMTU wg)).1,
            some ("failed to set custom MTU (" ++ toString wg.mtu ++ ")"))
      else ((conf (initializeUnunInterface sh stop wg s).1).1, none)

/-- The method `initialize` of `WireGuard` (lines 340-361), named `wgInitialize` because the
word is reserved in Lean: the error of `initIPv6DNSResolver` is logged and dropped. -/
def wgInitialize {σ : Type} (sh : Shell σ) (stop : Flag σ) (conf : σ → σ × Option String)
    (p : Platform) (wg : WireGuard) (s : σ) : σ × Option String :=
  let s0 := (initIPv6DNSResolver sh p wg s).1
  match (initializeConfiguration sh stop conf wg s0).2 with
  | some e =>
    ((initializeConfiguration sh stop conf wg s0).1, some ("failed to initialize configuration: " ++ e))
  | none =>
    let s1 := (initializeConfiguration sh stop conf wg s0).1
    match (setRoutes sh wg s1).2 with
    | some e => ((setRoutes sh wg s1).1, some ("failed to set routes: " ++ e))
    | none =>
      match (setDNS sh p (setRoutes sh wg s1).1).2 with
      | some e => ((setDNS sh p (setRoutes sh wg s1).1).1, some ("failed to set DNS: " ++ e))
      | none => ((setDNS sh p (setRoutes sh wg s1).1).1, none)

/-- Lines 219-229 of `internalConnect`: the `select` and the value of `initError` after it.
`started` tells which case is taken: the trigger arrived on `isStartedChannel`, or the timer of
5 seconds fired.  `notify` is the call of `waitHandshakeAndNotifyConnected` as a step of the
world.  The stop of the process on an error (lines 230-236) acts on the connection state and is
not part of this function. -/
def waitStartAndInitialize {σ : Type} (sh : Shell σ) (stop : Flag σ)
    (conf notify : σ → σ × Option String) (p : Platform) (wg : WireGuard) (started : Bool)
    (s : σ) : σ × Option String :=
  if started then
    match (wgInitialize sh stop conf p wg s).2 with
    | none => notify (wgInitialize sh stop conf p wg s).1
    | some e => ((wgInitialize sh stop conf p wg s).1, some e)
  else (s, some "WireGuard process initialization timeout")

/-- The call of `setWgConfiguration` on `World`: one entry of the log. -/
def worldConf (attempts : Nat → Attempt) : World → World × Option String := fun w =>
  ({ w with log := w.log ++
      [.setWgConfiguration (setWgConfiguration attempts).1 (setWgConfiguration attempts).2] },
   (setWgConfiguration attempts).2)

/-- The call of `waitHandshakeAndNotifyConnected` on `World`; `handshake` is what it returns. -/
def worldNotify (handshake : Option String) : World → World × Option String := fun w =>
  ({ w with log := w.log ++ [.waitHandshakeAndNotifyConnected] }, handshake)

/-- The later state has the log of the earlier one, followed by entries that are not the
connected notification. -/
def grownWithoutNotification (w w2 : World) : Prop :=
  ∃ ext, w2.log = w.log ++ ext ∧ Done.waitHandshakeAndNotifyConnected ∉ ext

/-- A reflexive and transitive relation between states that every step of the world respects. -/
structure Respected {σ : Type} (R : σ → σ → Prop) (sh : Shell σ) (stop : Flag σ)
    (conf : σ → σ × Option String) : Prop where
  refl : ∀ s, R s s
  trans : ∀ a b c, R a b → R b c → R a c
  exec : ∀ s c, R s (sh s c).1
  read : ∀ s, R s (stop s).1
  configure : ∀ s, R s (conf s).1

/-- An attempt that applies the configuration at once. -/
def goodAttempts : Nat → Attempt :=
  fun _ => { generateErr := none, output := [], execErr := none }

/-- The platform values of the examples. -/
def demoPlatform : Platform :=
  { dnsScript := "/Applications/IVPN.app/Contents/Resources/etc/dns.sh", defaultDNS := "172.16.0.1" }

/-! ## `getFreeTunInterfaceName` (lines 609-628) -/

/-- The submatch of the regular expression `^utun([0-9]+)` in `name`
(`FindStringSubmatch(ifs.Name)[1]`): the longest run of decimal digits behind the leading
`utun`, or nothing when the name does not start with `utun` and a digit. -/
def utunDigits (name : String) : Option (List Char) :=
  match name.toList with
  | 'u' :: 't' :: 'u' :: 'n' :: rest =>
    if rest.takeWhile Char.isDigit = [] then none else some (rest.takeWhile Char.isDigit)
  | _ => none

/-- The number that a list of decimal digits denotes. -/
def digitsValue (ds : List Char) : Nat :=
  ds.foldl (fun acc c => acc * 10 + (c.toNat - 48)) 0

/-- The largest value of the Go type `int` on darwin (64 bits). -/
def maxInt : Nat := 2 ^ 63 - 1

/-- `strconv.Atoi` on a string of decimal digits with the error dropped, as on line 621: the
number, or the largest `int` when the number is out of range. -/
def atoi (ds : List Char) : Nat :=
  if digitsValue ds ≤ maxInt then digitsValue ds else maxInt

/-- The variable `maxUtunNo` after the loop of lines 617-624. -/
def maxUtunNo (names : List String) : Nat :=
  names.foldl (fun m name =>
    match utunDigits name with
    | some ds => if atoi ds > m then atoi ds else m
    | none => m) 0

/-- The value of an arithmetic result in the Go type `int`: it wraps at 64 bits. -/
def wrapInt64 (n : Int) : Int :=
  (n + 2 ^ 63) % 2 ^ 64 - 2 ^ 63

/-- `getFreeTunInterfaceName`; the argument is what `net.Interfaces()` returns, names only. -/
def getFreeTunInterfaceName (interfaces : Except String (List String)) : Except String String :=
  match interfaces with
  | .error err => .error err
  | .ok names => .ok ("utun" ++ toString (wrapInt64 (maxUtunNo names + 1)))

/-- The number N in the words of claim C20: the largest of the numbers that the digits
following the prefix `utun` denote among the names, 0 when no name has such digits. -/
def largestNumberAsClaimed (names : List String) : Nat :=
  ((names.filterMap utunDigits).map digitsValue).foldr max 0

/-- The names are interface names of the system: at most 15 bytes each (`IFNAMSIZ` is 16 and
counts the closing zero byte). -/
def interfaceNames (names : List String) : Prop :=
  ∀ name ∈ names, name.length < 16

/-- The interfaces of an example system. -/
def demoInterfaces : List String :=
  ["lo0", "gif0", "en0", "utun0", "utun3", "utun12abc", "bridge0", "utun007"]

end wireguard

namespace Commands

/-! ## Multi-hop resolution (C1) -/

theorem resolveMultiHop_ok {d : Daemon} {c c1 : CmdConnect} {svrs : List serverDesc}
    (h : resolveMultiHop d c svrs = .ok c1) :
    ∃ e x, entrySvrs d c svrs = [e] ∧ exitSvrs d c svrs = [x] ∧
      e.gateway ≠ x.gateway ∧ e.countryCode ≠ x.countryCode ∧
      c1 = { c with gateway := e.gateway, multiopExitSvr := x.gateway } := by
  unfold resolveMultiHop at h
  split at h
  · cases h
  · split at h
    · cases h
    · split at h
      · rename_i e he
        split at h
        · rename_i x hx
          split at h
          · cases h
          · rename_i hne
            refine ⟨e, x, he, hx, ?_, ?_, ?_⟩
            · exact fun hg => hne (Or.inl hg)
            · exact fun hc => hne (Or.inr hc)
            · cases h; rfl
        · cases h
      · cases h

theorem selectSingleHop_calls (d : Daemon) (c : CmdConnect) (svrs : List serverDesc) :
    ∀ x ∈ (selectSingleHop d c svrs).1, x = Call.serversPing := by
  unfold selectSingleHop
  intro x hx
  dsimp only at hx
  split at hx
  · simpa using hx
  · split at hx <;> simpa using hx
  · simp at hx

theorem resolveServer_calls (d : Daemon) (c : CmdConnect) (svrs : List serverDesc) :
    ∀ x ∈ (resolveServer d c svrs).1, x = Call.serversPing := by
  unfold resolveServer
  intro x hx
  split at hx
  · simp at hx
  · have hs := selectSingleHop_calls d c svrs
    split at hx
    · rename_i calls e heq
      rw [heq] at hs
      exact hs x hx
    · rename_i calls s heq
      rw [heq] at hs
      exact hs x hx

theorem resolveServer_readOnly (d : Daemon) (c : CmdConnect) (svrs : List serverDesc) :
    ∀ x ∈ (resolveServer d c svrs).1, readOnly x = true := by
  intro x hx
  rw [resolveServer_calls d c svrs x hx]
  rfl

/-- C1, the claim as amended: for a logged-in session that received the catalog, a multi-hop
request whose entry and exit each resolve to exactly one record is answered with BadParameter
whenever the two records share the gateway or the country code; and (for every session) a
multi-hop request for which `ConnectVPN` was called had an entry and an exit record that differ
in gateway and in country code. -/
theorem multihop_pair_checked (d : Daemon) (c : CmdConnect) (hexit : c.multiopExitSvr ≠ "") :
    (∀ servers e x, d.GetServers = .ok servers → notLoggedIn d = false →
        entrySvrs d c (d.serversList servers) = [e] →
        exitSvrs d c (d.serversList servers) = [x] →
        (e.gateway = x.gateway ∨ e.countryCode = x.countryCode) →
        ∃ m, (Run d c).err = some (.BadParameter m)) ∧
    (∀ req, Call.ConnectVPN req ∈ (Run d c).calls →
        ∃ servers e x, d.GetServers = .ok servers ∧
          entrySvrs d c (d.serversList servers) = [e] ∧
          exitSvrs d c (d.serversList servers) = [x] ∧
          e.gateway ≠ x.gateway ∧ e.countryCode ≠ x.countryCode) := by
  constructor
  · intro servers e x hget hlog he hx hsame
    unfold Run
    split
    · exact ⟨_, rfl⟩
    · simp only [hget, hlog]
      have hres : ∃ m, resolveServer d c (d.serversList servers) =
          ([], .error (.BadParameter m)) := by
        unfold resolveServer
        rw [if_pos hexit]
        unfold resolveMultiHop
        split
        · exact ⟨_, rfl⟩
        · split
          · exact ⟨_, rfl⟩
          · simp only [he, hx, if_pos hsame]
            exact ⟨_, rfl⟩
      obtain ⟨m, hm⟩ := hres
      simp [hm]
  · intro req hreq
    unfold Run at hreq
    split at hreq
    · simp at hreq
    · split at hreq
      · simp at hreq
      · rename_i servers hget
        split at hreq
        · simp at hreq
        · split at hreq
          · rename_i calls e heq
            have hc := resolveServer_calls d c (d.serversList servers)
            rw [heq] at hc
            simp only [List.mem_append, List.mem_cons, List.mem_singleton, List.mem_nil_iff,
              or_false] at hreq
            rcases hreq with (h | h) | h
            · cases h
            · cases h
            · cases hc _ h
          · rename_i calls c1 heq
            unfold resolveServer at heq
            rw [if_pos hexit] at heq
            have h2 : resolveMultiHop d c (d.serversList servers) = .ok c1 := by
              have := congrArg Prod.snd heq
              simpa using this
            obtain ⟨e, x, he, hx, hg, hcc, -⟩ := resolveMultiHop_ok h2
            exact ⟨servers, e, x, hget, he, hx, hg, hcc⟩

/-- C1 at the demo catalog: Frankfurt/Berlin is rejected, and the call made for
Frankfurt/Stockholm came from two records of different countries. -/
theorem multihop_pair_checked_witness :
    (∃ m, (Run demoDaemon sameCountryHop).err = some (.BadParameter m)) ∧
    (∃ servers e x, demoDaemon.GetServers = .ok servers ∧
      entrySvrs demoDaemon twoCountryHop (demoDaemon.serversList servers) = [e] ∧
      exitSvrs demoDaemon twoCountryHop (demoDaemon.serversList servers) = [x] ∧
      e.gateway ≠ x.gateway ∧ e.countryCode ≠ x.countryCode) :=
  ⟨(multihop_pair_checked demoDaemon sameCountryHop (by decide)).1 demoServers fraSvr berSvr
      rfl (by decide) (by decide) (by decide) (Or.inr rfl),
   (multihop_pair_checked demoDaemon twoCountryHop (by decide)).2 twoCountryReq (by decide)⟩

/-- C1 as stated fails for a session that is not logged in: entry and exit resolve to one record
each, both in Germany, and `Run` returns `ErrorNotLoggedIn`, not `BadParameter`. -/
theorem multihop_not_logged_in :
    sameCountryHop.multiopExitSvr ≠ "" ∧
    loggedOutDaemon.GetServers = .ok demoServers ∧
    (∃ e x, entrySvrs loggedOutDaemon sameCountryHop (loggedOutDaemon.serversList demoServers)
          = [e] ∧
        exitSvrs loggedOutDaemon sameCountryHop (loggedOutDaemon.serversList demoServers)
          = [x] ∧
        e.countryCode = x.countryCode) ∧
    (Run loggedOutDaemon sameCountryHop).err = some .ErrorNotLoggedIn ∧
    ¬ ∃ m, (Run loggedOutDaemon sameCountryHop).err = some (.BadParameter m) := by
  refine ⟨by decide, rfl, ⟨fraSvr, berSvr, by decide, by decide, by decide⟩, by decide, ?_⟩
  rintro ⟨m, hm⟩
  have h : (Run loggedOutDaemon sameCountryHop).err = some .ErrorNotLoggedIn := by decide
  rw [h] at hm
  cases hm


/-! ## Single-hop selection (C2, C3) -/

theorem selectFound_ne_ping (c : CmdConnect) (l : List serverDesc) (e : String) :
    selectFound c l ≠ .error (.pingError e) := by
  unfold selectFound
  split
  · simp
  · split <;> simp

/-- C2: single-hop selection when the `fastest` branch picks nothing (the flag is unset or the
filtered list has at most one record): an empty list is the error "no servers found", one record
is selected, several records are the error "more than one server found" without `any` and the
first record with `any`. -/
theorem single_hop_selection (d : Daemon) (c : CmdConnect) (svrs : List serverDesc)
    (hsingle : c.multiopExitSvr = "")
    (hfast : c.fastest = false ∨ (filtered d c svrs).length ≤ 1) :
    (filtered d c svrs = [] →
      resolveServer d c svrs = ([], .error (.Errorf "no servers found by your filter"))) ∧
    (∀ s, filtered d c svrs = [s] →
      resolveServer d c svrs = ([], .ok { c with gateway := s.gateway })) ∧
    (∀ s t, filtered d c svrs = s :: t → t ≠ [] → c.any = false →
      resolveServer d c svrs = ([], .error (.Errorf "more than one server found"))) ∧
    (∀ s t, filtered d c svrs = s :: t → t ≠ [] → c.any = true →
      resolveServer d c svrs = ([], .ok { c with gateway := s.gateway })) := by
  have hnone : selectFastest d c (filtered d c svrs) = none := by
    unfold selectFastest
    rw [if_neg]
    rintro ⟨h1, h2⟩
    rcases hfast with h | h
    · rw [h] at h1; cases h1
    · omega
  have hres : resolveServer d c svrs =
      (match selectFound c (filtered d c svrs) with
       | .error e => ([], .error e)
       | .ok srvID => ([], .ok { c with gateway := srvID })) := by
    unfold resolveServer selectSingleHop
    simp only [hsingle, hnone, ne_eq, not_true_eq_false, if_false]
    cases selectFound c (filtered d c svrs) <;> rfl
  refine ⟨?_, ?_, ?_, ?_⟩
  · intro h
    rw [hres, h]; rfl
  · intro s h
    rw [hres, h]; simp [selectFound]
  · intro s t h ht hany
    rw [hres, h]; simp [selectFound, ht, hany]
  · intro s t h ht hany
    rw [hres, h]; simp [selectFound, hany]

/-- C2 at the demo catalog: `connect -any -fcc DE` takes Frankfurt, the first German record. -/
theorem single_hop_selection_witness :
    resolveServer demoDaemon anyGermanCmd (demoList demoServers)
      = ([], .ok { anyGermanCmd with gateway := "de-fra.ovpn" }) :=
  (single_hop_selection demoDaemon anyGermanCmd (demoList demoServers) rfl (Or.inl rfl)).2.2.2
    fraSvr [berSvr] (by decide) (by decide) rfl

/-- C3, the claim as amended: with `fastest` set and more than one candidate, the probing error
is returned exactly when `serversPing` fails and `any` is false; in every other case, provided
the gateway of the last element of the list as `serversPing` left it is not the empty string,
that gateway is selected and the ambiguity check is not applied. -/
theorem fastest_selection (d : Daemon) (c : CmdConnect) (svrs : List serverDesc)
    (hsingle : c.multiopExitSvr = "") (hfast : c.fastest = true)
    (hlen : 1 < (filtered d c svrs).length) :
    (∀ e, (resolveServer d c svrs).2 = .error (.pingError e) ↔
      ((d.serversPing (filtered d c svrs)).2 = some e ∧ c.any = false)) ∧
    (¬ ((d.serversPing (filtered d c svrs)).2 ≠ none ∧ c.any = false) →
      ∃ s, (d.serversPing (filtered d c svrs)).1.getLast? = some s ∧
        (s.gateway ≠ "" →
          resolveServer d c svrs = ([.serversPing], .ok { c with gateway := s.gateway }))) := by
  have hne : (d.serversPing (filtered d c svrs)).1 ≠ [] := by
    intro h
    have := d.serversPing_length (filtered d c svrs)
    rw [h] at this
    simp at this
    omega
  obtain ⟨s, hs⟩ : ∃ s, (d.serversPing (filtered d c svrs)).1.getLast? = some s := by
    cases hl : (d.serversPing (filtered d c svrs)).1.getLast? with
    | none => exact absurd (List.getLast?_eq_none_iff.mp hl) hne
    | some s => exact ⟨s, rfl⟩
  have hsel : selectFastest d c (filtered d c svrs) =
      (match (d.serversPing (filtered d c svrs)).2 with
       | some err =>
         if c.any = false then
           some ((d.serversPing (filtered d c svrs)).1, .error (.pingError err))
         else some ((d.serversPing (filtered d c svrs)).1, .ok s.gateway)
       | none => some ((d.serversPing (filtered d c svrs)).1, .ok s.gateway)) := by
    unfold selectFastest
    rw [if_pos ⟨hfast, hlen⟩]
    simp only [hs]
  have hfound : ∀ (f : String → CmdConnect) (e : String), (match ([Call.serversPing],
        selectFound c (d.serversPing (filtered d c svrs)).1) with
      | (calls, .error e) => (calls, Except.error e)
      | (calls, .ok srvID) => (calls, Except.ok (f srvID))).2
        ≠ .error (.pingError e) := by
    intro f e
    have hnp := selectFound_ne_ping c (d.serversPing (filtered d c svrs)).1 e
    cases hf : selectFound c (d.serversPing (filtered d c svrs)).1 with
    | error e2 => rw [hf] at hnp; simpa using hnp
    | ok g => simp
  constructor
  · intro e
    unfold resolveServer selectSingleHop
    simp only [hsingle, ne_eq, not_true_eq_false, if_false, hsel]
    cases hp : (d.serversPing (filtered d c svrs)).2 with
    | none =>
      simp only [reduceCtorEq, false_and, iff_false]
      by_cases hg : s.gateway = ""
      · simp only [hg, if_true]
        exact hfound _ e
      · simp [hg]
    | some err =>
      cases hany : c.any with
      | false =>
        simp only [if_true, and_true]
        constructor
        · intro h; cases h; rfl
        · intro h; cases h; rfl
      | true =>
        simp only [Bool.true_eq_false, if_false, and_false, iff_false]
        by_cases hg : s.gateway = ""
        · simp only [hg, if_true]
          exact hfound _ e
        · simp [hg]
  · intro hno
    refine ⟨s, hs, ?_⟩
    intro hg
    unfold resolveServer selectSingleHop
    simp only [hsingle, ne_eq, not_true_eq_false, if_false, hsel]
    cases hp : (d.serversPing (filtered d c svrs)).2 with
    | none => simp [hg]
    | some err =>
      cases hany : c.any with
      | false => exact absurd ⟨by rw [hp]; simp, hany⟩ hno
      | true => simp [hg]

/-- C3 at the demo catalog: `connect -fastest` selects the last record of the list, Stockholm. -/
theorem fastest_selection_witness :
    ∃ s, (demoDaemon.serversPing (filtered demoDaemon fastestCmd (demoList demoServers))).1.getLast?
          = some s ∧
      (s.gateway ≠ "" →
        resolveServer demoDaemon fastestCmd (demoList demoServers)
          = ([.serversPing], .ok { fastestCmd with gateway := s.gateway })) :=
  (fastest_selection demoDaemon fastestCmd (demoList demoServers) rfl rfl (by decide)).2
    (by decide)

/-- C3 as stated fails when the last record left by `serversPing` has the empty string as
gateway: probing succeeds, yet the ambiguity check is applied (an error without `any`), and with
`any` the first record is selected, not the last. -/
theorem fastest_blank_gateway :
    fastestCmd.multiopExitSvr = "" ∧ fastestCmd.fastest = true ∧
    1 < (filtered blankLastDaemon fastestCmd (demoList blankLastServers)).length ∧
    (blankLastDaemon.serversPing
      (filtered blankLastDaemon fastestCmd (demoList blankLastServers))).2 = none ∧
    ((blankLastDaemon.serversPing
      (filtered blankLastDaemon fastestCmd (demoList blankLastServers))).1.getLast?.map
        (fun s => s.gateway)) = some "" ∧
    resolveServer blankLastDaemon fastestCmd (demoList blankLastServers)
      = ([.serversPing], .error (.Errorf "more than one server found")) ∧
    (Run blankLastDaemon fastestCmd).err = some (.Errorf "more than one server found") ∧
    resolveServer blankLastDaemon fastestAnyCmd (demoList blankLastServers)
      = ([.serversPing], .ok { fastestAnyCmd with gateway := "us-ny.wg" }) := by
  decide

/-! ## Validation and the DNS of the request (C4, C5, C6) -/

theorem resolveMultiHop_fields {d : Daemon} {c c1 : CmdConnect} {svrs : List serverDesc}
    (h : resolveMultiHop d c svrs = .ok c1) :
    c1 = { c with gateway := c1.gateway, multiopExitSvr := c1.multiopExitSvr } := by
  obtain ⟨e, x, -, -, -, -, h1⟩ := resolveMultiHop_ok h
  rw [h1]

theorem resolveServer_fields {d : Daemon} {c c1 : CmdConnect} {svrs : List serverDesc}
    {calls : List Call} (h : resolveServer d c svrs = (calls, .ok c1)) :
    c1 = { c with gateway := c1.gateway, multiopExitSvr := c1.multiopExitSvr } := by
  unfold resolveServer at h
  split at h
  · have h2 : resolveMultiHop d c svrs = .ok c1 := by
      have := congrArg Prod.snd h
      simpa using this
    exact resolveMultiHop_fields h2
  · rename_i hs
    have hs1 : c.multiopExitSvr = "" := by simpa using hs
    split at h
    · cases h
    · have := congrArg Prod.snd h
      simp only [Except.ok.injEq] at this
      rw [← this]

theorem resolveServer_exit {d : Daemon} {c c1 : CmdConnect} {servers : ServersInfoResponse}
    {calls : List Call} (hget : d.GetServers = .ok servers) (hexit : exitByGateway d c)
    (h : resolveServer d c (d.serversList servers) = (calls, .ok c1)) :
    c1.multiopExitSvr = c.multiopExitSvr := by
  unfold resolveServer at h
  split at h
  · rename_i hs
    have h2 : resolveMultiHop d c (d.serversList servers) = .ok c1 := by
      have := congrArg Prod.snd h
      simpa using this
    obtain ⟨e, x, -, hxs, -, -, h1⟩ := resolveMultiHop_ok h2
    have hx := hexit hs servers hget x (by rw [hxs]; exact List.mem_singleton.mpr rfl)
    rw [h1]
    exact hx
  · split at h
    · cases h
    · have := congrArg Prod.snd h
      simp only [Except.ok.injEq] at this
      rw [← this]

theorem doConnect_mem {d : Daemon} {req0 req : Connect}
    (h : Call.ConnectVPN req ∈ (doConnect d req0).1) : req = req0 := by
  unfold doConnect at h
  split at h <;> simpa using h

theorem connectServer_dns {d : Daemon} {c : CmdConnect} {servers : ServersInfoResponse}
    {req0 req : Connect}
    (h : Call.ConnectVPN req ∈ (connectServer d c servers req0).1) :
    req.CurrentDNS = req0.CurrentDNS := by
  unfold connectServer at h
  split at h
  · split at h
    · simp at h
    · rw [doConnect_mem h]
  · dsimp only at h
    split at h
    · simp at h
    · split at h
      · simp at h
      · split_ifs at h
        all_goals first
          | (simp at h; done)
          | (simp only [List.mem_cons, reduceCtorEq, false_or] at h
             rw [doConnect_mem h])

/-- C4, the claim as amended: (a) without a location and without `fastest`, `Run` returns
BadParameter having called nothing; and once the catalog was received by a logged-in session,
(b) `exit_svr` with `fastest`, (c) `exit_svr` with a protocol flag that is not OpenVPN, and
(d) a resolved server with a non-empty manual DNS that is no IP address each make `Run` return
BadParameter with neither `SetPreferences` nor `ConnectVPN` (nor `DisconnectVPN`) called. -/
theorem validation_before_mutation (d : Daemon) (c : CmdConnect) :
    ((c.gateway = "" ∧ c.fastest = false) → Run d c = ⟨[], some (.BadParameter "")⟩) ∧
    (∀ servers, d.GetServers = .ok servers → notLoggedIn d = false →
      ((c.multiopExitSvr ≠ "" ∧ c.fastest = true) ∨
       (c.multiopExitSvr ≠ "" ∧ c.filter_proto ≠ "" ∧
          d.getVpnTypeByFlag c.filter_proto ≠ .ok .OpenVPN) ∨
       (∃ calls c1, resolveServer d c (d.serversList servers) = (calls, .ok c1) ∧
          c.dns ≠ "" ∧ d.ParseIP c.dns = none)) →
      (∃ m, (Run d c).err = some (.BadParameter m)) ∧
      ∀ x ∈ (Run d c).calls, readOnly x = true) := by
  constructor
  · intro h
    unfold Run
    rw [if_pos h]
  · intro servers hget hlog hcase
    by_cases h0 : c.gateway = "" ∧ c.fastest = false
    · unfold Run
      rw [if_pos h0]
      exact ⟨⟨_, rfl⟩, by simp⟩
    · have hrun : Run d c =
          (match resolveServer d c (d.serversList servers) with
           | (calls, .error e) => ⟨[.GetServers, .GetHelloResponse] ++ calls, some e⟩
           | (calls, .ok c1) =>
             ⟨[.GetServers, .GetHelloResponse] ++ calls ++ (connectResolved d c1 servers).1,
              (connectResolved d c1 servers).2⟩) := by
        unfold Run
        rw [if_neg h0]
        simp only [hget, hlog]
        rfl
      have hbad : ∀ m, resolveServer d c (d.serversList servers) =
          ([], .error (.BadParameter m)) →
          (∃ m, (Run d c).err = some (.BadParameter m)) ∧
            ∀ x ∈ (Run d c).calls, readOnly x = true := by
        intro m hm
        rw [hrun, hm]
        refine ⟨⟨m, rfl⟩, ?_⟩
        intro x hx
        simp only [List.append_nil, List.mem_cons, List.mem_singleton, List.mem_nil_iff,
          or_false] at hx
        rcases hx with rfl | rfl <;> rfl
      rcases hcase with ⟨hx, hf⟩ | ⟨hx, hp, hq⟩ | ⟨calls, c1, hres, hdns, hparse⟩
      · apply hbad
        unfold resolveServer resolveMultiHop
        rw [if_pos hx, if_pos hf]
      · have hproto : protoNotOpenVPN d c = true := by
          unfold protoNotOpenVPN
          cases hv : d.getVpnTypeByFlag c.filter_proto with
          | error e => simp [hp]
          | ok v =>
            cases v with
            | OpenVPN => exact absurd hv hq
            | WireGuard => simp [hp]
        by_cases hf : c.fastest = true
        · apply hbad
          unfold resolveServer resolveMultiHop
          rw [if_pos hx, if_pos hf]
        · apply hbad
          unfold resolveServer resolveMultiHop
          rw [if_pos hx, if_neg hf, if_pos hproto]
      · have hc1 := resolveServer_fields hres
        have hd : resolveDNS d c1 servers = .error (.BadParameter "") := by
          have hdns1 : c1.dns = c.dns := by rw [hc1]
          unfold resolveDNS
          simp only [hdns1, hdns, ne_eq, not_false_eq_true, if_true, hparse]
        have hcr : connectResolved d c1 servers = ([], some (.BadParameter "")) := by
          unfold connectResolved
          rw [hd]
        rw [hrun, hres]
        simp only [hcr, List.append_nil]
        refine ⟨⟨_, rfl⟩, ?_⟩
        intro x hx
        simp only [List.mem_append, List.mem_cons, List.mem_singleton, List.mem_nil_iff,
          or_false] at hx
        have hro := resolveServer_readOnly d c (d.serversList servers)
        rw [hres] at hro
        rcases hx with (rfl | rfl) | hx
        · rfl
        · rfl
        · exact hro x hx

/-- C4 at the demo daemon: `connect -dns not-an-ip us-ny.wg` is answered with BadParameter and
only read-only calls were made. -/
theorem validation_before_mutation_witness :
    (∃ m, (Run demoDaemon badDnsCmd).err = some (.BadParameter m)) ∧
    ∀ x ∈ (Run demoDaemon badDnsCmd).calls, readOnly x = true :=
  (validation_before_mutation demoDaemon badDnsCmd).2 demoServers rfl (by decide)
    (Or.inr (Or.inr ⟨[], { badDnsCmd with gateway := "us-ny.wg" }, by decide, by decide,
      by decide⟩))

/-- C4 as stated fails when the catalog cannot be fetched or the session is not logged in:
`exit_svr` with `fastest`, and `exit_svr` with the WireGuard protocol flag, are then answered
with the error of `GetServers` or with `ErrorNotLoggedIn`, not with BadParameter. -/
theorem validation_after_catalog :
    fastestHop.multiopExitSvr ≠ "" ∧ fastestHop.fastest = true ∧
    Run unreachableDaemon fastestHop = ⟨[.GetServers], some (.protoError "daemon unreachable")⟩ ∧
    wgHop.multiopExitSvr ≠ "" ∧ wgHop.filter_proto ≠ "" ∧
    loggedOutDaemon.getVpnTypeByFlag wgHop.filter_proto = .ok .WireGuard ∧
    Run loggedOutDaemon wgHop = ⟨[.GetServers, .GetHelloResponse], some .ErrorNotLoggedIn⟩ := by
  decide

/-- C5: in a request that reached `ConnectVPN`, with or without `exit_svr`, `CurrentDNS` is the
hardened antitracker address if `antitracker_hard` is set, else the standard antitracker address
if `antitracker` is set, each in its multi-hop variant when `exit_svr` is given and in its
single-hop variant otherwise, else the text of the parsed manual DNS, or empty when no manual
DNS was given.  For a command with `exit_svr` the exit lookup is by gateway identifier, as the
spec says of `serversFilter`; `exitByGateway` asks nothing for a command without `exit_svr`. -/
theorem current_dns (d : Daemon) (c : CmdConnect) (req : Connect) (hexit : exitByGateway d c)
    (h : Call.ConnectVPN req ∈ (Run d c).calls) :
    ∃ servers manual, d.GetServers = .ok servers ∧
      ((c.dns = "" ∧ manual = "") ∨ (c.dns ≠ "" ∧ d.ParseIP c.dns = some manual)) ∧
      req.CurrentDNS =
        if c.antitrackerHard then
          (if c.multiopExitSvr ≠ "" then servers.AntitrackerHardcore.MultihopIP
           else servers.AntitrackerHardcore.IP)
        else if c.antitracker then
          (if c.multiopExitSvr ≠ "" then servers.AntitrackerDefault.MultihopIP
           else servers.AntitrackerDefault.IP)
        else manual := by
  unfold Run at h
  split at h
  · simp at h
  · split at h
    · simp at h
    · rename_i servers hget
      split at h
      · simp at h
      · split at h
        · rename_i calls e heq
          have hc := resolveServer_calls d c (d.serversList servers)
          rw [heq] at hc
          simp only [List.mem_append, List.mem_cons, List.mem_singleton, List.mem_nil_iff,
            or_false] at h
          rcases h with (h | h) | h
          · cases h
          · cases h
          · cases hc _ h
        · rename_i calls c1 heq
          have hc := resolveServer_calls d c (d.serversList servers)
          rw [heq] at hc
          have hc1 := resolveServer_fields heq
          have hx1 := resolveServer_exit hget hexit heq
          have hmem : Call.ConnectVPN req ∈ (connectResolved d c1 servers).1 := by
            simp only [List.mem_append, List.mem_cons, List.mem_singleton, List.mem_nil_iff,
              or_false] at h
            rcases h with ((h | h) | h) | h
            · cases h
            · cases h
            · cases hc _ h
            · exact h
          have hdns1 : c1.dns = c.dns := by rw [hc1]
          have hat : c1.antitracker = c.antitracker := by rw [hc1]
          have hath : c1.antitrackerHard = c.antitrackerHard := by rw [hc1]
          unfold connectResolved at hmem
          split at hmem
          · simp at hmem
          · rename_i dns hres
            have hreq := connectServer_dns hmem
            simp only at hreq
            unfold resolveDNS antitrackerIP at hres
            simp only [hdns1, hat, hath, hx1] at hres
            by_cases hd : c.dns = ""
            · refine ⟨servers, "", hget, Or.inl ⟨hd, rfl⟩, ?_⟩
              simp only [hd, ne_eq, not_true_eq_false, if_false, Except.ok.injEq] at hres
              rw [hreq, ← hres]
            · cases hp : d.ParseIP c.dns with
              | none => simp [hd, hp] at hres
              | some ip =>
                refine ⟨servers, ip, hget, Or.inr ⟨hd, rfl⟩, ?_⟩
                simp only [hd, ne_eq, not_false_eq_true, if_true, hp, Except.ok.injEq] at hres
                rw [hreq, ← hres]

/-- C5 at the demo daemon, in both hop modes: the single-hop request with `antitracker` carries
the single-hop variant of the standard antitracker address, and the multi-hop request with
`antitracker` and a manual DNS carries the multi-hop variant. -/
theorem current_dns_witness :
    (trackerCmd.multiopExitSvr = "" ∧
     ∃ servers manual, demoDaemon.GetServers = .ok servers ∧
      ((trackerCmd.dns = "" ∧ manual = "") ∨
        (trackerCmd.dns ≠ "" ∧ demoDaemon.ParseIP trackerCmd.dns = some manual)) ∧
      trackerReq.CurrentDNS =
        if trackerCmd.antitrackerHard then
          (if trackerCmd.multiopExitSvr ≠ "" then servers.AntitrackerHardcore.MultihopIP
           else servers.AntitrackerHardcore.IP)
        else if trackerCmd.antitracker then
          (if trackerCmd.multiopExitSvr ≠ "" then servers.AntitrackerDefault.MultihopIP
           else servers.AntitrackerDefault.IP)
        else manual) ∧
    (trackerHop.multiopExitSvr ≠ "" ∧
     ∃ servers manual, demoDaemon.GetServers = .ok servers ∧
      ((trackerHop.dns = "" ∧ manual = "") ∨
        (trackerHop.dns ≠ "" ∧ demoDaemon.ParseIP trackerHop.dns = some manual)) ∧
      trackerHopReq.CurrentDNS =
        if trackerHop.antitrackerHard then
          (if trackerHop.multiopExitSvr ≠ "" then servers.AntitrackerHardcore.MultihopIP
           else servers.AntitrackerHardcore.IP)
        else if trackerHop.antitracker then
          (if trackerHop.multiopExitSvr ≠ "" then servers.AntitrackerDefault.MultihopIP
           else servers.AntitrackerDefault.IP)
        else manual) :=
  ⟨⟨by decide,
    current_dns demoDaemon trackerCmd trackerReq (fun hs => absurd rfl hs) (by decide)⟩,
   ⟨by decide,
    current_dns demoDaemon trackerHop trackerHopReq
      (fun _ servers hs => by
        have hs2 : servers = demoServers := by
          have h0 : demoDaemon.GetServers = .ok demoServers := rfl
          rw [h0] at hs
          exact (Except.ok.inj hs).symm
        subst hs2
        decide)
      (by decide)⟩⟩

/-- C6 at its failing input: with `antitracker` set, the run without a `dns` value connects
and the run that differs only in `dns` ("not-an-ip") returns BadParameter. -/
theorem antitracker_dns_not_ignored :
    trackerCmd.antitracker = true ∧
    trackerBadDnsCmd = { trackerCmd with dns := "not-an-ip" } ∧
    Run demoDaemon trackerCmd =
      ⟨[.GetServers, .GetHelloResponse, .ConnectVPN trackerReq, .showState], none⟩ ∧
    Run demoDaemon trackerBadDnsCmd =
      ⟨[.GetServers, .GetHelloResponse], some (.BadParameter "")⟩ := by
  decide

end Commands
namespace wireguard

/-! ## The output-log relay (C10) -/

theorem logStep_flag (prev : Option OutLine) (line : OutLine) :
    (logStep (stateOf prev) line).2 = decide (shouldLog prev line) := by
  cases prev with
  | none =>
    have h : ¬ ((line.now : Int) < zeroTime + tenSeconds) := by
      have h0 : (0 : Int) ≤ (line.now : Int) := Int.ofNat_nonneg _
      have h1 : zeroTime + tenSeconds < 0 := by decide
      omega
    simp [logStep, stateOf, LogState.start, shouldLog, h]
  | some p =>
    unfold logStep stateOf shouldLog
    by_cases h : textWithoutPrefix line.text ≠ textWithoutPrefix p.text ∨
        ¬ ((line.now : Int) < (p.now : Int) + tenSeconds)
    · rw [if_pos h]
      have h2 : textWithoutPrefix line.text ≠ textWithoutPrefix p.text ∨
          (p.now : Int) + tenSeconds ≤ line.now := by
        rcases h with h | h
        · exact Or.inl h
        · exact Or.inr (by omega)
      simp only [h2, decide_True]
    · rw [if_neg h]
      have h2 : ¬ (textWithoutPrefix line.text ≠ textWithoutPrefix p.text ∨
          (p.now : Int) + tenSeconds ≤ line.now) := by
        rintro (h2 | h2)
        · exact h (Or.inl h2)
        · exact h (Or.inr (by omega))
      simp only [h2, decide_False]

theorem logStep_state (prev : Option OutLine) (line : OutLine) :
    (logStep (stateOf prev) line).1 =
      stateOf (if (logStep (stateOf prev) line).2 then some line else prev) := by
  unfold logStep
  split
  · rfl
  · rfl

theorem relay_append (prev : Option OutLine) (pre : List OutLine) (line : OutLine) :
    relay (stateOf prev) (pre ++ [line]) =
      relay (stateOf prev) pre ++
        [decide (shouldLog (lastLogged prev pre (relay (stateOf prev) pre)) line)] := by
  induction pre generalizing prev with
  | nil => simp [relay, lastLogged, logStep_flag]
  | cons l ls ih =>
    have h := ih (if (logStep (stateOf prev) l).2 then some l else prev)
    rw [← logStep_state] at h
    simp only [List.cons_append, relay, lastLogged]
    exact congrArg _ h

theorem loggedFrom_chain (p : OutLine) (ls : List OutLine) :
    List.Chain spaced p (loggedFrom (stateOf (some p)) ls) := by
  induction ls generalizing p with
  | nil => exact List.Chain.nil
  | cons l rest ih =>
    unfold loggedFrom
    rw [logStep_state]
    by_cases hb : (logStep (stateOf (some p)) l).2 = true
    · simp only [hb, if_true]
      refine List.Chain.cons ?_ (ih l)
      rw [logStep_flag] at hb
      have hs : shouldLog (some p) l := of_decide_eq_true hb
      intro heq
      rcases hs with hs | hs
      · exact absurd heq.symm hs
      · exact hs
    · simp only [hb]
      exact ih p

theorem first_logged (line : OutLine) : (logStep LogState.start line).2 = true := by
  have := logStep_flag none line
  simpa [stateOf, shouldLog] using this

theorem count_pass (l : List ConfEvent) :
    applyCount (.generateAndSaveConfigFile :: .setconf :: l) = applyCount l + 1 ∧
    generateCount (.generateAndSaveConfigFile :: .setconf :: l) = generateCount l + 1 := by
  simp [applyCount, generateCount, List.count_cons]

theorem loop_busy_step (attempts : Nat → Attempt) (n retries : Nat)
    (h : busy attempts retries) :
    setWgConfigurationLoop attempts (n + 1) retries =
      (.generateAndSaveConfigFile :: .setconf ::
          (setWgConfigurationLoop attempts n (retries + 1)).1,
        (setWgConfigurationLoop attempts n (retries + 1)).2) := by
  rw [setWgConfigurationLoop]
  simp only [h.1, h.2, if_true]

theorem loop_count_le (attempts : Nat → Attempt) (remaining retries : Nat) :
    applyCount (setWgConfigurationLoop attempts remaining retries).1 ≤ remaining ∧
    generateCount (setWgConfigurationLoop attempts remaining retries).1 ≤ remaining := by
  induction remaining generalizing retries with
  | zero => simp [setWgConfigurationLoop, applyCount, generateCount]
  | succ n ih =>
    rw [setWgConfigurationLoop]
    split
    · simp [applyCount, generateCount]
    · split
      · have h1 := ih (retries + 1)
        have h2 := count_pass (setWgConfigurationLoop attempts n (retries + 1)).1
        simp only
        rw [h2.1, h2.2]
        exact ⟨by omega, by omega⟩
      · have h2 := count_pass []
        rw [h2.1, h2.2]
        simp [applyCount, generateCount]

theorem loop_all_busy (attempts : Nat → Attempt) (remaining retries : Nat)
    (h : ∀ i, i < remaining → busy attempts (retries + i)) :
    applyCount (setWgConfigurationLoop attempts remaining retries).1 = remaining ∧
    generateCount (setWgConfigurationLoop attempts remaining retries).1 = remaining ∧
    (setWgConfigurationLoop attempts remaining retries).2 =
      some "failed to set wireguard configuration" := by
  induction remaining generalizing retries with
  | zero => simp [setWgConfigurationLoop, applyCount, generateCount]
  | succ n ih =>
    have h0 := h 0 (Nat.succ_pos n)
    simp only [Nat.add_zero] at h0
    have ih1 := ih (retries + 1) (fun i hi => by
      have := h (i + 1) (Nat.succ_lt_succ hi)
      rwa [Nat.add_assoc, Nat.add_comm 1 i])
    have h2 := count_pass (setWgConfigurationLoop attempts n (retries + 1)).1
    rw [loop_busy_step attempts n retries h0]
    simp only
    rw [h2.1, h2.2]
    exact ⟨by omega, by omega, ih1.2.2⟩

theorem loop_stops (attempts : Nat → Attempt) (k remaining retries : Nat)
    (hk : k < remaining) (h : ∀ i, i < k → busy attempts (retries + i))
    (hgen : (attempts (retries + k)).generateErr = none)
    (hfree : isPortInUse (attempts (retries + k)).output = false) :
    applyCount (setWgConfigurationLoop attempts remaining retries).1 = k + 1 ∧
    generateCount (setWgConfigurationLoop attempts remaining retries).1 = k + 1 ∧
    (setWgConfigurationLoop attempts remaining retries).2 = (attempts (retries + k)).execErr := by
  induction k generalizing remaining retries with
  | zero =>
    cases remaining with
    | zero => omega
    | succ n =>
      simp only [Nat.add_zero] at hgen hfree
      rw [setWgConfigurationLoop]
      simp [hgen, hfree, applyCount, generateCount]
  | succ k ih =>
    cases remaining with
    | zero => omega
    | succ n =>
      have h0 := h 0 (Nat.succ_pos k)
      simp only [Nat.add_zero] at h0
      have e1 : retries + 1 + k = retries + (k + 1) := by omega
      have ih1 := ih n (retries + 1) (by omega) (fun i hi => by
        have := h (i + 1) (Nat.succ_lt_succ hi)
        rwa [Nat.add_assoc, Nat.add_comm 1 i]) (by rw [e1]; exact hgen) (by rw [e1]; exact hfree)
      have h2 := count_pass (setWgConfigurationLoop attempts n (retries + 1)).1
      rw [loop_busy_step attempts n retries h0]
      simp only
      rw [h2.1, h2.2, ← e1]
      exact ⟨by omega, by omega, ih1.2.2⟩

theorem loop_generate_fails (attempts : Nat → Attempt) (k remaining retries : Nat)
    (hk : k < remaining) (h : ∀ i, i < k → busy attempts (retries + i)) (err : String)
    (hgen : (attempts (retries + k)).generateErr = some err) :
    applyCount (setWgConfigurationLoop attempts remaining retries).1 = k ∧
    generateCount (setWgConfigurationLoop attempts remaining retries).1 = k + 1 ∧
    (setWgConfigurationLoop attempts remaining retries).2 =
      some ("failed to save WG config file: " ++ err) := by
  induction k generalizing remaining retries with
  | zero =>
    cases remaining with
    | zero => omega
    | succ n =>
      simp only [Nat.add_zero] at hgen
      rw [setWgConfigurationLoop]
      simp [hgen, applyCount, generateCount]
  | succ k ih =>
    cases remaining with
    | zero => omega
    | succ n =>
      have h0 := h 0 (Nat.succ_pos k)
      simp only [Nat.add_zero] at h0
      have e1 : retries + 1 + k = retries + (k + 1) := by omega
      have ih1 := ih n (retries + 1) (by omega) (fun i hi => by
        have := h (i + 1) (Nat.succ_lt_succ hi)
        rwa [Nat.add_assoc, Nat.add_comm 1 i]) (by rw [e1]; exact hgen)
      have h2 := count_pass (setWgConfigurationLoop attempts n (retries + 1)).1
      rw [loop_busy_step attempts n retries h0]
      simp only
      rw [h2.1, h2.2]
      exact ⟨by omega, by omega, ih1.2.2⟩

theorem count_append_remove (l : List ConfEvent) :
    applyCount (l ++ [.removeConfigFile]) = applyCount l ∧
    generateCount (l ++ [.removeConfigFile]) = generateCount l := by
  simp [applyCount, generateCount, List.count_append]

/-- C9: `setWgConfiguration` makes at most 5 generate-and-apply attempts; when every attempt
reports "Address already in use" it makes exactly 5 and returns an error; the first attempt
whose output does not contain that text ends the loop and its result (nil or its error) is
returned; a failure to generate the config file ends the loop with an error, without an apply
for that pass. -/
theorem setWgConfiguration_retries (attempts : Nat → Attempt) :
    applyCount (setWgConfiguration attempts).1 ≤ 5 ∧
    generateCount (setWgConfiguration attempts).1 ≤ 5 ∧
    ((∀ i, i < 5 → busy attempts i) →
      applyCount (setWgConfiguration attempts).1 = 5 ∧
      generateCount (setWgConfiguration attempts).1 = 5 ∧
      (setWgConfiguration attempts).2 = some "failed to set wireguard configuration") ∧
    (∀ k, k < 5 → (∀ i, i < k → busy attempts i) →
      (attempts k).generateErr = none → isPortInUse (attempts k).output = false →
      applyCount (setWgConfiguration attempts).1 = k + 1 ∧
      generateCount (setWgConfiguration attempts).1 = k + 1 ∧
      (setWgConfiguration attempts).2 = (attempts k).execErr) ∧
    (∀ k, k < 5 → (∀ i, i < k → busy attempts i) →
      ∀ err, (attempts k).generateErr = some err →
      applyCount (setWgConfiguration attempts).1 = k ∧
      generateCount (setWgConfiguration attempts).1 = k + 1 ∧
      (setWgConfiguration attempts).2 = some ("failed to save WG config file: " ++ err)) := by
  unfold setWgConfiguration
  simp only [(count_append_remove _).1, (count_append_remove _).2]
  refine ⟨(loop_count_le attempts 5 0).1, (loop_count_le attempts 5 0).2, ?_, ?_, ?_⟩
  · intro h
    exact loop_all_busy attempts 5 0 (fun i hi => by simpa using h i hi)
  · intro k hk h hgen hfree
    have := loop_stops attempts k 5 0 hk (fun i hi => by simpa using h i hi)
      (by simpa using hgen) (by simpa using hfree)
    simpa using this
  · intro k hk h err hgen
    have := loop_generate_fails attempts k 5 0 hk (fun i hi => by simpa using h i hi) err
      (by simpa using hgen)
    simpa using this

/-- C9 on three runs: always busy, busy twice and then applied, busy once and then no file. -/
theorem setWgConfiguration_retries_witness :
    (applyCount (setWgConfiguration busyAttempts).1 = 5 ∧
      generateCount (setWgConfiguration busyAttempts).1 = 5 ∧
      (setWgConfiguration busyAttempts).2 = some "failed to set wireguard configuration") ∧
    (applyCount (setWgConfiguration twoBusyAttempts).1 = 2 + 1 ∧
      generateCount (setWgConfiguration twoBusyAttempts).1 = 2 + 1 ∧
      (setWgConfiguration twoBusyAttempts).2 = (twoBusyAttempts 2).execErr) ∧
    (applyCount (setWgConfiguration unwritableAttempts).1 = 1 ∧
      generateCount (setWgConfiguration unwritableAttempts).1 = 1 + 1 ∧
      (setWgConfiguration unwritableAttempts).2 =
        some ("failed to save WG config file: " ++ "permission denied")) :=
  ⟨(setWgConfiguration_retries busyAttempts).2.2.1 (fun _ _ => ⟨rfl, rfl⟩),
   (setWgConfiguration_retries twoBusyAttempts).2.2.2.1 2 (by decide)
      (fun i hi => by
        have hi2 : i = 0 ∨ i = 1 := by omega
        rcases hi2 with rfl | rfl <;> exact ⟨rfl, rfl⟩)
      rfl (by decide),
   (setWgConfiguration_retries unwritableAttempts).2.2.2.2 1 (by decide)
      (fun i hi => by
        have hi2 : i = 0 := by omega
        subst hi2
        exact ⟨rfl, rfl⟩)
      "permission denied" rfl⟩

/-! ## Pause and resume (C7) -/

theorem connectStep_done (s : ConnState) (err : Option ConnError) (h : s.phase = .done err) :
    (connectStep s).phase = .done err := by
  unfold connectStep
  rw [h]
  simp [h]

theorem connectSteps_done (n : Nat) (s : ConnState) (err : Option ConnError)
    (h : s.phase = .done err) : (connectSteps n s).phase = .done err := by
  induction n generalizing s with
  | zero => exact h
  | succ n ih => exact ih (connectStep s) (connectStep_done s err h)

theorem resume_phase (s : ConnState) : (resume s).phase = s.phase := rfl

/-- After `resume` the channel of a connection holds a value. -/
theorem resume_chan (s : ConnState) (n : Nat) (h : s.omResumedChan = some n) (hn : n ≤ 1) :
    (resume s).omResumedChan = some 1 := by
  unfold resume
  simp only [h]
  have : n = 0 ∨ n = 1 := by omega
  rcases this with rfl | rfl <;> simp

theorem settled_step (err : Option InternalError) (s : ConnState) (h : settled err s) :
    settled err (connectStep s) := by
  rcases h with ⟨hp, n, hn, hle⟩ | hd
  · unfold connectStep
    rw [hp]
    simp only [hn]
    have : n = 0 ∨ n = 1 := by omega
    rcases this with rfl | rfl
    · exact Or.inl ⟨hp, 0, hn, hle⟩
    · exact Or.inr rfl
  · exact Or.inr (connectStep_done s _ hd)

theorem settled_steps (err : Option InternalError) (k : Nat) (s : ConnState) (h : settled err s) :
    settled err (connectSteps k s) := by
  induction k generalizing s with
  | zero => exact h
  | succ k ih => exact ih (connectStep s) (settled_step err s h)

/-- C7, the claim as amended: for a running connection, `pause()` followed by `resume()` with no
`disconnect()` in between makes `connect()` return a `ReconnectionRequiredError` whenever
`resume()` arrives after the deferred check of `isPaused` in `connect` (at least two steps of
`connect` after `pause()`: the return of `internalConnect` and the check). -/
theorem pause_resume_after_check (tokens j m : Nat) (htok : tokens ≤ 1) (hj : 2 ≤ j)
    (hm : 1 ≤ m) :
    connectResult (connectSteps m (resume (connectSteps j (pause (connected tokens))))) =
      some (some (.ReconnectionRequired (some (.processError "signal: killed")))) := by
  obtain ⟨j, rfl⟩ : ∃ j', j = j' + 2 := ⟨j - 2, by omega⟩
  obtain ⟨m, rfl⟩ : ∃ m', m = m' + 1 := ⟨m - 1, by omega⟩
  have h2 : settled (some (.processError "signal: killed"))
      (connectSteps 2 (pause (connected tokens))) := by
    left
    exact ⟨rfl, tokens, rfl, htok⟩
  have hj2 : connectSteps (j + 2) (pause (connected tokens)) =
      connectSteps j (connectSteps 2 (pause (connected tokens))) := rfl
  rw [hj2]
  have h3 := settled_steps _ j _ h2
  generalize connectSteps j (connectSteps 2 (pause (connected tokens))) = s at h3
  have h4 : (connectStep (resume s)).phase =
      .done (some (.ReconnectionRequired (some (.processError "signal: killed")))) := by
    rcases h3 with ⟨hp, n, hn, hle⟩ | hd
    · have hc := resume_chan s n hn hle
      unfold connectStep
      rw [resume_phase, hp]
      simp only [hc]
    · exact connectStep_done _ _ (by rw [resume_phase]; exact hd)
  have h5 := connectSteps_done m _ _ h4
  unfold connectResult
  change (match (connectSteps m (connectStep (resume s))).phase with
    | .done err => some err
    | _ => none) = _
  rw [h5]

/-- C7 as amended, on one schedule: pause, three steps of `connect`, resume, one step. -/
theorem pause_resume_after_check_witness :
    connectResult (connectSteps 1 (resume (connectSteps 3 (pause (connected 0))))) =
      some (some (.ReconnectionRequired (some (.processError "signal: killed")))) :=
  pause_resume_after_check 0 3 1 (by decide) (by decide) (by decide)

/-- C7 as stated fails when `resume()` arrives before the deferred check of `connect`: with
`resume()` right after `pause()`, or after `internalConnect` has returned but before the check,
`connect()` returns the process error, not a `ReconnectionRequiredError`. -/
theorem pause_resume_before_check :
    connectResult (connectSteps 2 (resume (pause (connected 0)))) =
      some (some (.internal (.processError "signal: killed"))) ∧
    connectResult (connectSteps 1 (resume (connectSteps 1 (pause (connected 0))))) =
      some (some (.internal (.processError "signal: killed"))) ∧
    isReconnectionRequired
      (connectResult (connectSteps 2 (resume (pause (connected 0))))) = false := by
  decide

/-! ## The route-table shell (C8) -/

theorem exec_addHost (wg : WireGuard) (t : RouteTable) :
    routeExec t (cmdAddHost wg) =
      if (t (hostSlot wg)).isSome then (t, false)
      else (Function.update t (hostSlot wg) (some ⟨some wg.defGateway, none⟩), true) := by
  simp [routeExec, cmdAddHost, parseRoute, parseOp, hostSlot]

theorem exec_addScoped (wg : WireGuard) (t : RouteTable) :
    routeExec t (cmdAddScoped wg) =
      if (t (scopedSlot wg)).isSome then (t, false)
      else (Function.update t (scopedSlot wg) (some ⟨some wg.defGateway, none⟩), true) := by
  simp [routeExec, cmdAddScoped, parseRoute, parseOp, scopedSlot]

theorem exec_deleteDefault (wg : WireGuard) (t : RouteTable) :
    routeExec t (cmdDeleteDefault wg) =
      if (t defaultSlot).isSome then (Function.update t defaultSlot none, true)
      else (t, false) := by
  simp [routeExec, cmdDeleteDefault, parseRoute, parseOp, defaultSlot]

theorem exec_addTunnel (wg : WireGuard) (t : RouteTable) :
    routeExec t (cmdAddTunnel wg) =
      if (t defaultSlot).isSome then (t, false)
      else (Function.update t defaultSlot (some ⟨none, some wg.utunName⟩), true) := by
  simp [routeExec, cmdAddTunnel, parseRoute, parseOp, defaultSlot]

theorem exec_addV6Low (ip6 : String) (t : RouteTable) :
    routeExec t (cmdAddV6Low ip6) =
      if (t (v6Slot "::/1")).isSome then (t, false)
      else (Function.update t (v6Slot "::/1") (some ⟨some ip6, none⟩), true) := by
  simp [routeExec, cmdAddV6Low, parseRoute, parseOp, v6Slot]

theorem exec_addV6High (ip6 : String) (t : RouteTable) :
    routeExec t (cmdAddV6High ip6) =
      if (t (v6Slot "8000::/1")).isSome then (t, false)
      else (Function.update t (v6Slot "8000::/1") (some ⟨some ip6, none⟩), true) := by
  simp [routeExec, cmdAddV6High, parseRoute, parseOp, v6Slot]

theorem exec_deleteHost (wg : WireGuard) (t : RouteTable) :
    routeExec t (cmdDeleteHost wg) =
      if (t (hostSlot wg)).isSome then (Function.update t (hostSlot wg) none, true)
      else (t, false) := by
  simp [routeExec, cmdDeleteHost, parseRoute, parseOp, hostSlot]

theorem exec_deleteScoped (wg : WireGuard) (t : RouteTable) :
    routeExec t (cmdDeleteScoped wg) =
      if (t (scopedSlot wg)).isSome then (Function.update t (scopedSlot wg) none, true)
      else (t, false) := by
  simp [routeExec, cmdDeleteScoped, parseRoute, parseOp, scopedSlot]

theorem exec_addDefault (wg : WireGuard) (t : RouteTable) :
    routeExec t (cmdAddDefault wg) =
      if (t defaultSlot).isSome then (t, false)
      else (Function.update t defaultSlot (some ⟨some wg.defGateway, none⟩), true) := by
  simp [routeExec, cmdAddDefault, parseRoute, parseOp, defaultSlot]

theorem exec_deleteV6Low (ip6 : String) (t : RouteTable) :
    routeExec t (cmdDeleteV6Low ip6) =
      if (t (v6Slot "::/1")).isSome then (Function.update t (v6Slot "::/1") none, true)
      else (t, false) := by
  simp [routeExec, cmdDeleteV6Low, parseRoute, parseOp, v6Slot]

theorem exec_deleteV6High (ip6 : String) (t : RouteTable) :
    routeExec t (cmdDeleteV6High ip6) =
      if (t (v6Slot "8000::/1")).isSome then (Function.update t (v6Slot "8000::/1") none, true)
      else (t, false) := by
  simp [routeExec, cmdDeleteV6High, parseRoute, parseOp, v6Slot]

theorem cmds_distinct (wg : WireGuard) (ip6 : String) :
    cmdAddHost wg ≠ cmdAddScoped wg ∧ cmdAddHost wg ≠ cmdDeleteDefault wg ∧
    cmdAddHost wg ≠ cmdAddTunnel wg ∧ cmdAddHost wg ≠ cmdAddV6Low ip6 ∧
    cmdAddHost wg ≠ cmdAddV6High ip6 ∧ cmdAddScoped wg ≠ cmdDeleteDefault wg ∧
    cmdAddScoped wg ≠ cmdAddTunnel wg ∧ cmdAddScoped wg ≠ cmdAddV6Low ip6 ∧
    cmdAddScoped wg ≠ cmdAddV6High ip6 ∧ cmdDeleteDefault wg ≠ cmdAddTunnel wg ∧
    cmdDeleteDefault wg ≠ cmdAddV6Low ip6 ∧ cmdDeleteDefault wg ≠ cmdAddV6High ip6 ∧
    cmdAddTunnel wg ≠ cmdAddV6Low ip6 ∧ cmdAddTunnel wg ≠ cmdAddV6High ip6 ∧
    cmdAddV6Low ip6 ≠ cmdAddV6High ip6 := by
  simp [cmdAddHost, cmdAddScoped, cmdDeleteDefault, cmdAddTunnel, cmdAddV6Low, cmdAddV6High]

theorem failing_self {σ : Type} (bad : Cmd) (sh : Shell σ) (s : σ) :
    failing bad sh s bad = (s, false) := by
  simp [failing]

theorem failing_other {σ : Type} (bad c : Cmd) (sh : Shell σ) (s : σ) (h : c ≠ bad) :
    failing bad sh s c = sh s c := by
  simp [failing, h]

/-! ## Stopping is idempotent (C11) -/

theorem internalDisconnect_nothing (s : ConnState) (h : nothingToStop s) :
    internalDisconnect s = s := by
  unfold internalDisconnect
  rcases h with h | h | h <;> rw [h]

theorem internalDisconnectErr_nothing (kill : Option String) (s : ConnState)
    (h : nothingToStop s) : internalDisconnectErr kill s = none := by
  unfold internalDisconnectErr
  rcases h with h | h | h <;> rw [h]

theorem disconnect_nothing (s : ConnState) (h : nothingToStop s) :
    nothingToStop (disconnect s) ∧ (disconnect s).isGoingToStop = true ∧
    (disconnect s).isPaused = false ∧ (disconnect s).kills = s.kills ∧
    (disconnect s).command = s.command := by
  have h2 : nothingToStop (resume { s with isGoingToStop := true }) := h
  unfold disconnect
  rw [internalDisconnect_nothing _ h2]
  exact ⟨h2, rfl, rfl, rfl, rfl⟩

theorem disconnects_nothing (n : Nat) (s : ConnState) (h : nothingToStop s) (hn : 1 ≤ n) :
    nothingToStop (disconnects n s) ∧ (disconnects n s).isGoingToStop = true ∧
    (disconnects n s).isPaused = false ∧ (disconnects n s).kills = s.kills ∧
    (disconnects n s).command = s.command := by
  induction n generalizing s with
  | zero => omega
  | succ n ih =>
    have h1 := disconnect_nothing s h
    cases n with
    | zero => exact h1
    | succ m =>
      have h2 := ih (disconnect s) h1.1 (by omega)
      refine ⟨h2.1, h2.2.1, h2.2.2.1, ?_, ?_⟩
      · rw [show disconnects (m + 1 + 1) s = disconnects (m + 1) (disconnect s) from rfl,
          h2.2.2.2.1, h1.2.2.2.1]
      · rw [show disconnects (m + 1 + 1) s = disconnects (m + 1) (disconnect s) from rfl,
          h2.2.2.2.2, h1.2.2.2.2]

/-- C11: when the command was never created, the process was never started, or its exit has
been observed, `internalDisconnect`, `pause` and `disconnect` return nil and send no kill; a
kill is sent exactly for a started process whose exit has not been observed; and any number of
`disconnect()` calls on such a state return nil each and leave `isGoingToStop = true` and
`isPaused = false`. -/
theorem stop_idempotent (kill : Option String) (s : ConnState) :
    (nothingToStop s →
      internalDisconnectErr kill s = none ∧ internalDisconnect s = s ∧
      pauseErr kill s = none ∧ (pause s).kills = s.kills ∧
      disconnectErr kill s = none ∧ (disconnect s).kills = s.kills) ∧
    ((internalDisconnect s).kills = s.kills + 1 ↔ startedNotObserved s) ∧
    ((internalDisconnect s).kills = s.kills ↔ nothingToStop s) ∧
    (nothingToStop s → ∀ n, 1 ≤ n →
      (∀ i, i < n → disconnectErr kill (disconnects i s) = none) ∧
      (disconnects n s).isGoingToStop = true ∧ (disconnects n s).isPaused = false ∧
      (disconnects n s).kills = s.kills) := by
  refine ⟨?_, ?_, ?_, ?_⟩
  · intro h
    have hp : nothingToStop { s with isPaused := true } := h
    have hd : nothingToStop (resume { s with isGoingToStop := true }) := h
    refine ⟨internalDisconnectErr_nothing kill s h, internalDisconnect_nothing s h,
      internalDisconnectErr_nothing kill _ hp, ?_, internalDisconnectErr_nothing kill _ hd,
      (disconnect_nothing s h).2.2.2.1⟩
    unfold pause
    rw [internalDisconnect_nothing _ hp]
  · unfold internalDisconnect startedNotObserved
    cases hc : s.command <;> simp
  · unfold internalDisconnect nothingToStop
    cases hc : s.command <;> simp
  · intro h n hn
    have hall := disconnects_nothing n s h hn
    refine ⟨?_, hall.2.1, hall.2.2.1, hall.2.2.2.1⟩
    intro i _
    have hi : nothingToStop (disconnects i s) := by
      cases i with
      | zero => exact h
      | succ j => exact (disconnects_nothing (j + 1) s h (by omega)).1
    have hd : nothingToStop (resume { disconnects i s with isGoingToStop := true }) := hi
    exact internalDisconnectErr_nothing kill _ hd

/-- C11 on a stopped connection: three `disconnect()` calls send no kill and leave the flags set
as claimed, even when `Kill` itself would fail. -/
theorem stop_idempotent_witness :
    (∀ i, i < 3 → disconnectErr (some "os: process already finished") (disconnects i stopped)
        = none) ∧
    (disconnects 3 stopped).isGoingToStop = true ∧ (disconnects 3 stopped).isPaused = false ∧
    (disconnects 3 stopped).kills = stopped.kills :=
  (stop_idempotent (some "os: process already finished") stopped).2.2.2
    (Or.inr (Or.inr rfl)) 3 (by decide)

/-! ## Operator stop and unexpected exit (C12) -/

/-- C12, the claim as amended: for a connection whose initialization succeeded, if
`disconnect()` is invoked while `connect()` is still blocked in the wait for the tunnel process
(paused or not, the process running or already dead), then `connect()` returns no error; and if
the process exits with an error while neither `disconnect()` nor `pause()` was invoked,
`connect()` returns the "WireGuard process error". -/
theorem stop_or_unexpected_exit (s : ConnState) (k : Nat) (hk : 2 ≤ k)
    (hphase : s.phase = .waitProcess none) (hrun : startedNotObserved s) :
    connectResult (connectSteps k (disconnect s)) = some none ∧
    (∀ tokens err, connectResult (connectSteps k (crashed tokens err)) =
      some (some (.internal (.processError err)))) := by
  obtain ⟨k, rfl⟩ : ∃ j, k = j + 2 := ⟨k - 2, by omega⟩
  constructor
  · have h2 : (connectSteps 2 (disconnect s)).phase = .done none := by
      rcases hrun with hr | ⟨e, hr⟩
      · simp [connectSteps, connectStep, disconnect, resume, internalDisconnect, hr, hphase]
      · cases e <;>
          simp [connectSteps, connectStep, disconnect, resume, internalDisconnect, hr, hphase]
    have h3 := connectSteps_done k _ _ h2
    unfold connectResult
    change (match (connectSteps k (connectSteps 2 (disconnect s))).phase with
      | .done err => some err
      | _ => none) = _
    rw [h3]
  · intro tokens err
    have h2 : (connectSteps 2 (crashed tokens err)).phase =
        .done (some (.internal (.processError err))) := rfl
    have h3 := connectSteps_done k _ _ h2
    unfold connectResult
    change (match (connectSteps k (connectSteps 2 (crashed tokens err))).phase with
      | .done err => some err
      | _ => none) = _
    rw [h3]

/-- C12 as amended, on a running connection: disconnect, then two steps of `connect`. -/
theorem stop_or_unexpected_exit_witness :
    connectResult (connectSteps 2 (disconnect (connected 0))) = some none ∧
    (∀ tokens err, connectResult (connectSteps 2 (crashed tokens err)) =
      some (some (.internal (.processError err)))) :=
  stop_or_unexpected_exit (connected 0) 2 (by decide) rfl (Or.inl rfl)

/-- C12 as stated fails when `disconnect()` arrives while `connect()` is paused and waiting for
a resume, or after `internalConnect` has returned the process error: `connect()` then returns a
`ReconnectionRequiredError`, or the process error, although `disconnect()` was invoked before it
returned. -/
theorem stop_while_paused :
    connectResult (connectSteps 2 (pause (connected 0))) = none ∧
    connectResult (connectSteps 1 (disconnect (connectSteps 2 (pause (connected 0))))) =
      some (some (.ReconnectionRequired (some (.processError "signal: killed")))) ∧
    connectResult (connectSteps 1 (crashed 0 "exit status 1")) = none ∧
    connectResult (connectSteps 1 (disconnect (connectSteps 1 (crashed 0 "exit status 1")))) =
      some (some (.internal (.processError "exit status 1"))) := by
  decide

/-! ## The resume signal (C17) -/

theorem resume_idem (s : ConnState) : resume (resume s) = resume s := by
  unfold resume
  cases h : s.omResumedChan with
  | none => rfl
  | some n =>
    by_cases hn : n < 1
    · have h0 : n = 0 := by omega
      subst h0
      rfl
    · simp [hn]

theorem singleSlot_resume (s : ConnState) (h : singleSlot s) : singleSlot (resume s) := by
  intro n hn
  unfold resume at hn
  cases hc : s.omResumedChan with
  | none => simp [hc] at hn
  | some m =>
    have hm := h m hc
    simp only [hc] at hn
    by_cases h1 : m < 1
    · simp only [h1, if_true, Option.some.injEq] at hn
      omega
    · simp only [h1, if_false, Option.some.injEq] at hn
      omega

theorem singleSlot_internalDisconnect (s : ConnState) (h : singleSlot s) :
    singleSlot (internalDisconnect s) := by
  unfold internalDisconnect
  cases hc : s.command <;> exact h

theorem singleSlot_connectStep (s : ConnState) (h : singleSlot s) :
    singleSlot (connectStep s) := by
  unfold connectStep
  cases hp : s.phase with
  | waitProcess ie =>
    cases hc : s.command <;> exact h
  | returned e =>
    by_cases hb : s.isPaused = true ∧ s.isGoingToStop = false
    · simp only [hb, and_self, if_true]
      exact h
    · simp only [hb, if_false]
      exact h
  | waitResume e =>
    cases hc : s.omResumedChan with
    | none => exact h
    | some n =>
      cases n with
      | zero => exact h
      | succ m =>
        intro k hk
        have := h (m + 1) hc
        simp only [Option.some.injEq] at hk
        omega
  | done e => exact h

theorem waiting_blocked (s : ConnState) (err : Option InternalError)
    (hp : s.phase = .waitResume err) (hc : s.omResumedChan = some 0) (k : Nat) :
    connectSteps k s = s := by
  induction k with
  | zero => rfl
  | succ k ih =>
    have h1 : connectStep s = s := by
      unfold connectStep
      rw [hp]
      simp only [hc]
    show connectSteps k (connectStep s) = s
    rw [h1, ih]

theorem paused_waits (s : ConnState) (ie : Option String) (hp : s.phase = .waitProcess ie)
    (hc : s.command = .running) (hs : s.isGoingToStop = false)
    (ht : s.omResumedChan = some 0) (k : Nat) :
    connectSteps (k + 2) (pause s) =
      { s with isPaused := true, command := .waited, kills := s.kills + 1,
               phase := .waitResume (some (.processError "signal: killed")) } := by
  have h2 : connectSteps 2 (pause s) =
      { s with isPaused := true, command := .waited, kills := s.kills + 1,
               phase := .waitResume (some (.processError "signal: killed")) } := by
    simp [connectSteps, connectStep, pause, internalDisconnect, hp, hc, hs]
  show connectSteps k (connectSteps 2 (pause s)) = _
  rw [h2]
  exact waiting_blocked
    { s with isPaused := true, command := .waited, kills := s.kills + 1,
             phase := .waitResume (some (.processError "signal: killed")) }
    (some (.processError "signal: killed")) rfl ht k

/-- C17, the claim as amended: `resume()` never blocks (it is a total step that leaves the
position of `connect` alone), the channel never holds more than one token, and `resume()` is
idempotent; and after a `pause()` of a running connection whose channel holds no token,
`connect()` waits, however many steps it is given, until a `resume()` or a `disconnect()`
issued after that `pause()`, and then returns. -/
theorem resume_single_slot (s : ConnState) :
    (resume s).phase = s.phase ∧
    (singleSlot s → singleSlot (resume s) ∧ singleSlot (pause s) ∧ singleSlot (disconnect s) ∧
      singleSlot (connectStep s)) ∧
    resume (resume s) = resume s ∧
    (∀ ie, s.phase = .waitProcess ie → s.command = .running → s.isGoingToStop = false →
      s.omResumedChan = some 0 → ∀ k,
      connectResult (connectSteps (k + 2) (pause s)) = none ∧
      connectResult (connectSteps 1 (resume (connectSteps (k + 2) (pause s)))) ≠ none ∧
      connectResult (connectSteps 1 (disconnect (connectSteps (k + 2) (pause s)))) ≠ none) := by
  refine ⟨rfl, ?_, resume_idem s, ?_⟩
  · intro h
    refine ⟨singleSlot_resume s h, ?_, ?_, singleSlot_connectStep s h⟩
    · exact singleSlot_internalDisconnect _ h
    · exact singleSlot_internalDisconnect _ (singleSlot_resume _ h)
  · intro ie hp hc hs ht k
    rw [paused_waits s ie hp hc hs ht k]
    refine ⟨?_, ?_, ?_⟩
    · simp [connectResult]
    · simp [connectResult, connectSteps, connectStep, resume, ht]
    · simp [connectResult, connectSteps, connectStep, disconnect, resume, internalDisconnect, ht]

/-- C17 as amended, on a running connection with an empty channel. -/
theorem resume_single_slot_witness :
    (singleSlot (resume (connected 0)) ∧ singleSlot (pause (connected 0)) ∧
      singleSlot (disconnect (connected 0)) ∧ singleSlot (connectStep (connected 0))) ∧
    connectResult (connectSteps (5 + 2) (pause (connected 0))) = none ∧
    connectResult (connectSteps 1 (resume (connectSteps (5 + 2) (pause (connected 0))))) ≠ none ∧
    connectResult (connectSteps 1 (disconnect (connectSteps (5 + 2) (pause (connected 0)))))
      ≠ none :=
  ⟨(resume_single_slot (connected 0)).2.1 (fun n hn => by
      have h0 : (connected 0).omResumedChan = some 0 := rfl
      rw [h0] at hn
      have := Option.some.inj hn
      omega),
   (resume_single_slot (connected 0)).2.2.2 none rfl rfl rfl rfl 5⟩

/-- C17 as stated fails for a `resume()` issued while the connection is not paused: it puts a
token into the channel, and after a later `pause()` the wait of `connect()` takes that token and
`connect()` returns without any `resume()` or `disconnect()` after the pause. -/
theorem resume_not_paused_leaves_token :
    (connected 0).isPaused = false ∧
    resume (connected 0) ≠ connected 0 ∧
    (resume (connected 0)).omResumedChan = some 1 ∧
    connectResult (connectSteps 3 (pause (connected 0))) = none ∧
    connectResult (connectSteps 3 (pause (resume (connected 0)))) =
      some (some (.ReconnectionRequired (some (.processError "signal: killed")))) := by
  decide

/-! ## The command sequences of setRoutes and removeRoutes (C14, C16) -/

theorem setRoutes_refines {σ : Type} (sh : Shell σ) (wg : WireGuard) (s : σ) :
    (setRoutes sh wg s).1 = (execUntilFailure sh (setRoutesCommands wg) s).1 ∧
    ((setRoutes sh wg s).2 = none ↔ (execUntilFailure sh (setRoutesCommands wg) s).2 = true) := by
  unfold setRoutes setRoutesCommands stepsToTunnel stepsAfterTunnel
  cases hl : hostIsNotLoopback wg
  · cases h6 : wg.ipv6HostLocalIP with
    | none =>
      simp only [Bool.false_eq_true, if_false, if_true, List.nil_append, List.append_nil,
        List.cons_append, List.singleton_append, execUntilFailure]
      rcases h1 : sh s (cmdAddScoped wg) with ⟨t1, b1⟩
      cases b1
      · simp
      simp only [if_true, Bool.true_eq_false, if_false]
      rcases h2 : sh t1 (cmdDeleteDefault wg) with ⟨t2, b2⟩
      cases b2
      · simp
      simp only [if_true, Bool.true_eq_false, if_false]
      rcases h3 : sh t2 (cmdAddTunnel wg) with ⟨t3, b3⟩
      cases b3
      · simp
      simp
    | some ip6 =>
      simp only [Bool.false_eq_true, if_false, if_true, List.nil_append, List.append_nil,
        List.cons_append, List.singleton_append, execUntilFailure]
      rcases h1 : sh s (cmdAddScoped wg) with ⟨t1, b1⟩
      cases b1
      · simp
      simp only [if_true, Bool.true_eq_false, if_false]
      rcases h2 : sh t1 (cmdDeleteDefault wg) with ⟨t2, b2⟩
      cases b2
      · simp
      simp only [if_true, Bool.true_eq_false, if_false]
      rcases h3 : sh t2 (cmdAddTunnel wg) with ⟨t3, b3⟩
      cases b3
      · simp
      simp only [if_true, Bool.true_eq_false, if_false]
      rcases h4 : sh t3 (cmdAddV6Low ip6) with ⟨t4, b4⟩
      cases b4
      · simp
      simp only [if_true, Bool.true_eq_false, if_false]
      rcases h5 : sh t4 (cmdAddV6High ip6) with ⟨t5, b5⟩
      cases b5
      · simp
      simp
  · cases h6 : wg.ipv6HostLocalIP with
    | none =>
      simp only [Bool.false_eq_true, if_false, if_true, List.nil_append, List.append_nil,
        List.cons_append, List.singleton_append, execUntilFailure]
      rcases h1 : sh s (cmdAddHost wg) with ⟨t1, b1⟩
      cases b1
      · simp
      simp only [if_true, Bool.true_eq_false, if_false]
      rcases h2 : sh t1 (cmdAddScoped wg) with ⟨t2, b2⟩
      cases b2
      · simp
      simp only [if_true, Bool.true_eq_false, if_false]
      rcases h3 : sh t2 (cmdDeleteDefault wg) with ⟨t3, b3⟩
      cases b3
      · simp
      simp only [if_true, Bool.true_eq_false, if_false]
      rcases h4 : sh t3 (cmdAddTunnel wg) with ⟨t4, b4⟩
      cases b4
      · simp
      simp
    | some ip6 =>
      simp only [Bool.false_eq_true, if_false, if_true, List.nil_append, List.append_nil,
        List.cons_append, List.singleton_append, execUntilFailure]
      rcases h1 : sh s (cmdAddHost wg) with ⟨t1, b1⟩
      cases b1
      · simp
      simp only [if_true, Bool.true_eq_false, if_false]
      rcases h2 : sh t1 (cmdAddScoped wg) with ⟨t2, b2⟩
      cases b2
      · simp
      simp only [if_true, Bool.true_eq_false, if_false]
      rcases h3 : sh t2 (cmdDeleteDefault wg) with ⟨t3, b3⟩
      cases b3
      · simp
      simp only [if_true, Bool.true_eq_false, if_false]
      rcases h4 : sh t3 (cmdAddTunnel wg) with ⟨t4, b4⟩
      cases b4
      · simp
      simp only [if_true, Bool.true_eq_false, if_false]
      rcases h5 : sh t4 (cmdAddV6Low ip6) with ⟨t5, b5⟩
      cases b5
      · simp
      simp only [if_true, Bool.true_eq_false, if_false]
      rcases h6 : sh t5 (cmdAddV6High ip6) with ⟨t6, b6⟩
      cases b6
      · simp
      simp

theorem removeRoutes_refines {σ : Type} (sh : Shell σ) (wg : WireGuard) (s : σ) :
    removeRoutes sh wg s = (execEach sh (removeRoutesCommands wg) s, none) := by
  unfold removeRoutes removeRoutesCommands
  cases hl : hostIsNotLoopback wg <;> cases h6 : wg.ipv6HostLocalIP <;>
    simp [execEach]

theorem issued_append_exec (log : List Done) (c : Cmd) (b : Bool) :
    issued (log ++ [.exec c b]) = issued log ++ [c] := by
  simp [issued, List.filterMap_append]

theorem issued_all_ok (ok : Nat → Bool) (cmds : List Cmd) (log : List Done)
    (h : ∀ i, i < cmds.length → ok (log.length + i) = true) :
    issued (execUntilFailure (logShell ok) cmds log).1 = issued log ++ cmds ∧
    (execUntilFailure (logShell ok) cmds log).2 = true := by
  induction cmds generalizing log with
  | nil => simp [execUntilFailure]
  | cons c cs ih =>
    have h0 : ok log.length = true := by simpa using h 0 (by simp)
    have ih1 := ih (log ++ [.exec c (ok log.length)]) (fun i hi => by
      have := h (i + 1) (by simpa using hi)
      simpa [Nat.add_assoc, Nat.add_comm 1 i] using this)
    unfold execUntilFailure
    simp only [logShell, h0, if_true]
    simp only [h0] at ih1
    rw [issued_append_exec] at ih1
    simpa [logShell] using ih1

theorem issued_first_failure (ok : Nat → Bool) (cmds : List Cmd) (log : List Done) (k : Nat)
    (hk : k < cmds.length) (h : ∀ i, i < k → ok (log.length + i) = true)
    (hf : ok (log.length + k) = false) :
    issued (execUntilFailure (logShell ok) cmds log).1 = issued log ++ cmds.take (k + 1) ∧
    (execUntilFailure (logShell ok) cmds log).2 = false := by
  induction cmds generalizing log k with
  | nil => simp at hk
  | cons c cs ih =>
    cases k with
    | zero =>
      have hf0 : ok log.length = false := by simpa using hf
      unfold execUntilFailure
      simp [logShell, hf0, issued_append_exec]
    | succ k =>
      have h0 : ok log.length = true := by simpa using h 0 (by omega)
      have ih1 := ih (log ++ [.exec c (ok log.length)]) k (by simpa using hk)
        (fun i hi => by
          have := h (i + 1) (by omega)
          simpa [Nat.add_assoc, Nat.add_comm 1 i] using this)
        (by simpa [Nat.add_assoc, Nat.add_comm 1 k] using hf)
      unfold execUntilFailure
      simp only [logShell, h0, if_true]
      simp only [h0] at ih1
      rw [issued_append_exec] at ih1
      simpa [logShell] using ih1

theorem issued_execEach (ok : Nat → Bool) (cmds : List Cmd) (log : List Done) :
    issued (execEach (logShell ok) cmds log) = issued log ++ cmds := by
  induction cmds generalizing log with
  | nil => simp [execEach]
  | cons c cs ih =>
    unfold execEach
    rw [ih]
    simp [logShell, issued_append_exec]

/-- C14, the claim as amended: the commands of `setRoutes` are, in this order, (a) the host
route to the endpoint via the snapshot gateway, skipped when the endpoint is 127.0.0.1, (b) the
default route via the snapshot gateway scoped to the snapshot interface, (c) the delete of the
plain default route, (d) the default route through the tunnel interface, (e) `::/1` and then
`8000::/1` via the IPv6 peer address when one is configured.  When every command succeeds
exactly these are issued and the result is nil; at the first failing command an error is
returned and none of the later commands is issued. -/
theorem setRoutes_sequence (ok : Nat → Bool) (wg : WireGuard) :
    setRoutesCommands wg =
      (if wg.hostIP ≠ "127.0.0.1" then [cmdAddHost wg] else []) ++
      [cmdAddScoped wg, cmdDeleteDefault wg, cmdAddTunnel wg] ++
      (match wg.ipv6HostLocalIP with
       | none => []
       | some ip6 => [cmdAddV6Low ip6, cmdAddV6High ip6]) ∧
    ((∀ i, i < (setRoutesCommands wg).length → ok i = true) →
      issued (setRoutes (logShell ok) wg []).1 = setRoutesCommands wg ∧
      (setRoutes (logShell ok) wg []).2 = none) ∧
    (∀ k, k < (setRoutesCommands wg).length → (∀ i, i < k → ok i = true) → ok k = false →
      issued (setRoutes (logShell ok) wg []).1 = (setRoutesCommands wg).take (k + 1) ∧
      (setRoutes (logShell ok) wg []).2 ≠ none) := by
  have href := setRoutes_refines (logShell ok) wg []
  refine ⟨?_, ?_, ?_⟩
  · unfold setRoutesCommands stepsToTunnel stepsAfterTunnel hostIsNotLoopback
    by_cases hh : wg.hostIP = "127.0.0.1" <;> cases h6 : wg.ipv6HostLocalIP <;> simp [hh]
  · intro hall
    have h := issued_all_ok ok (setRoutesCommands wg) [] (fun i hi => by simpa using hall i hi)
    rw [href.1]
    exact ⟨by simpa [issued] using h.1, href.2.mpr h.2⟩
  · intro k hk hbefore hfail
    have h := issued_first_failure ok (setRoutesCommands wg) [] k hk
      (fun i hi => by simpa using hbefore i hi) (by simpa using hfail)
    rw [href.1]
    refine ⟨by simpa [issued] using h.1, ?_⟩
    intro hnone
    have := href.2.mp hnone
    rw [h.2] at this
    cases this

/-- C14 as amended, on the demo connection: the second command fails, two commands are issued
and an error is returned. -/
theorem setRoutes_sequence_witness :
    issued (setRoutes (logShell (fun i => decide (i ≠ 1))) demoWg []).1 =
      (setRoutesCommands demoWg).take (1 + 1) ∧
    (setRoutes (logShell (fun i => decide (i ≠ 1))) demoWg []).2 ≠ none :=
  (setRoutes_sequence (fun i => decide (i ≠ 1)) demoWg).2.2 1 (by decide)
    (fun i hi => by
      have h0 : i = 0 := by omega
      subst h0
      rfl)
    rfl

/-- C14 as stated fails for a loopback endpoint other than 127.0.0.1: with the endpoint
127.0.0.2 and every command succeeding, the host route is added. -/
theorem setRoutes_loopback_endpoint :
    isLoopbackText loopbackWg.hostIP = true ∧
    issued (setRoutes (logShell (fun _ => true)) loopbackWg []).1 =
      cmdAddHost loopbackWg :: setRoutesCommandsAsClaimed loopbackWg ∧
    issued (setRoutes (logShell (fun _ => true)) loopbackWg []).1 ≠
      setRoutesCommandsAsClaimed loopbackWg := by
  decide

/-- C16, the claim as amended: whatever commands fail, `removeRoutes` issues the same sequence:
delete the host route (unless the endpoint is 127.0.0.1), delete the scoped copy of the
default route, add the default route via the snapshot gateway, and, with an IPv6 peer address,
delete `::/1` and `8000::/1`; it returns nil; and the routes it deletes are the routes that
`setRoutes` adds for the same parameters other than the default route through the tunnel
interface. -/
theorem removeRoutes_best_effort (ok : Nat → Bool) (wg : WireGuard)
    (hhost : wg.hostIP ≠ "default") :
    removeRoutesCommands wg =
      (if wg.hostIP ≠ "127.0.0.1" then [cmdDeleteHost wg] else []) ++
      [cmdDeleteScoped wg, cmdAddDefault wg] ++
      (match wg.ipv6HostLocalIP with
       | none => []
       | some ip6 => [cmdDeleteV6Low ip6, cmdDeleteV6High ip6]) ∧
    issued (removeRoutes (logShell ok) wg []).1 = removeRoutesCommands wg ∧
    (removeRoutes (logShell ok) wg []).2 = none ∧
    (∀ k, k ∈ deletedSlots (removeRoutesCommands wg) ↔
      (k ∈ addedSlots (setRoutesCommands wg) ∧ k ≠ defaultSlot)) := by
  refine ⟨?_, ?_, ?_, ?_⟩
  · unfold removeRoutesCommands hostIsNotLoopback
    by_cases hh : wg.hostIP = "127.0.0.1" <;> cases h6 : wg.ipv6HostLocalIP <;> simp [hh]
  · rw [removeRoutes_refines]
    simpa [issued] using issued_execEach ok (removeRoutesCommands wg) []
  · rw [removeRoutes_refines]
  · intro k
    unfold removeRoutesCommands setRoutesCommands stepsToTunnel stepsAfterTunnel
    cases hl : hostIsNotLoopback wg <;> cases h6 : wg.ipv6HostLocalIP <;>
      simp [deletedSlots, addedSlots, parseRoute, parseOp, cmdAddHost, cmdAddScoped,
        cmdDeleteDefault, cmdAddTunnel, cmdAddV6Low, cmdAddV6High, cmdDeleteHost,
        cmdDeleteScoped, cmdAddDefault, cmdDeleteV6Low, cmdDeleteV6High, defaultSlot]
    all_goals
      constructor
      · intro h
        refine ⟨by tauto, ?_⟩
        intro hk
        subst hk
        simp [hhost.symm] at h
      · rintro ⟨h, hne⟩
        tauto

/-- C16 as amended, on the demo connection with every command failing. -/
theorem removeRoutes_best_effort_witness :
    issued (removeRoutes (logShell (fun _ => false)) demoWg []).1 = removeRoutesCommands demoWg ∧
    (removeRoutes (logShell (fun _ => false)) demoWg []).2 = none :=
  ⟨(removeRoutes_best_effort (fun _ => false) demoWg (by decide)).2.1,
   (removeRoutes_best_effort (fun _ => false) demoWg (by decide)).2.2.1⟩

/-- C16 as stated fails in its last sentence: `setRoutes` adds the default route through the
tunnel interface, and no command of `removeRoutes` deletes a route in that slot. -/
theorem removeRoutes_keeps_tunnel_route :
    cmdAddTunnel demoWg ∈ setRoutesCommands demoWg ∧
    defaultSlot ∈ addedSlots (setRoutesCommands demoWg) ∧
    defaultSlot ∉ deletedSlots (removeRoutesCommands demoWg) := by
  decide

/-! ## Route-change reconciliation (C15) -/

/-- C15: `onRoutingChanged` issues no command (the state of the system is untouched, for every
shell) and keeps the stored gateway and interface when the connection is paused, when the
detection fails or yields no gateway or no interface name, when the detected gateway is the
peer address of the tunnel, or when the detected interface is the tunnel interface; in every
other case it runs `removeRoutes` with the old snapshot, stores the detected gateway and
interface, runs `setRoutes` with the new snapshot, and returns nil. -/
theorem onRoutingChanged_reconciles {σ : Type} (sh : Shell σ) (isPaused : Bool)
    (info : RouteInfo) (wg : WireGuard) (s : σ) :
    (nothingToReconcile isPaused info wg →
      (onRoutingChanged sh isPaused info wg s).1 = wg ∧
      (onRoutingChanged sh isPaused info wg s).2.1 = s) ∧
    (¬ nothingToReconcile isPaused info wg →
      ∃ gw, info.gateway = some gw ∧
        onRoutingChanged sh isPaused info wg s =
          ({ wg with defGateway := gw, defInterfaceName := info.interfaceName },
           (setRoutes sh { wg with defGateway := gw, defInterfaceName := info.interfaceName }
              (removeRoutes sh wg s).1).1,
           none)) := by
  unfold nothingToReconcile onRoutingChanged
  constructor
  · intro h
    by_cases hp : isPaused = true
    · simp [hp]
    · simp only [hp, if_false, Bool.false_eq_true]
      cases he : info.err with
      | some e => simp
      | none =>
        cases hg : info.gateway with
        | none => simp
        | some gw =>
          by_cases hn : info.interfaceName = ""
          · simp [hn]
          · simp only [hn, if_false]
            have h2 : gw = wg.hostLocalIP ∨ info.interfaceName = wg.utunName := by
              rcases h with h | h | h | h | h | h
              · exact absurd h hp
              · exact absurd he h
              · rw [hg] at h; cases h
              · exact absurd h hn
              · rw [hg] at h; exact Or.inl (Option.some.inj h)
              · exact Or.inr h
            simp [h2]
  · intro h
    simp only [not_or] at h
    obtain ⟨hp, he, hg, hn, hpeer, htun⟩ := h
    have hp' : isPaused = false := by simpa using hp
    have he' : info.err = none := by simpa using he
    cases hgw : info.gateway with
    | none => exact absurd hgw hg
    | some gw =>
      refine ⟨gw, rfl, ?_⟩
      have hpeer' : ¬ gw = wg.hostLocalIP := by
        intro h1
        exact hpeer (by rw [hgw, h1])
      simp [hp', he', hn, hpeer', htun]

/-- C15 on the demo connection: nothing is issued while paused, and after roaming to another
network the log holds the commands of `removeRoutes` for the old snapshot followed by those of
`setRoutes` for the new one. -/
theorem onRoutingChanged_reconciles_witness :
    (onRoutingChanged (logShell (fun _ => true)) true roamedInfo demoWg []).2.1 = [] ∧
    ∃ gw, roamedInfo.gateway = some gw ∧
      onRoutingChanged (logShell (fun _ => true)) false roamedInfo demoWg [] =
        ({ demoWg with defGateway := gw, defInterfaceName := roamedInfo.interfaceName },
         (setRoutes (logShell (fun _ => true))
            { demoWg with defGateway := gw, defInterfaceName := roamedInfo.interfaceName }
            (removeRoutes (logShell (fun _ => true)) demoWg []).1).1,
         none) :=
  ⟨((onRoutingChanged_reconciles (logShell (fun _ => true)) true roamedInfo demoWg []).1
      (Or.inl rfl)).2,
   (onRoutingChanged_reconciles (logShell (fun _ => true)) false roamedInfo demoWg []).2
      (by decide)⟩

/-! ## The configuration file of `setWgConfiguration` (C18) -/

theorem setWgConfigurationLoop_no_remove (attempts : Nat → Attempt) :
    ∀ remaining retries,
      ConfEvent.removeConfigFile ∉ (setWgConfigurationLoop attempts remaining retries).1 := by
  intro remaining
  induction remaining with
  | zero => intro retries; simp [setWgConfigurationLoop]
  | succ n ih =>
    intro retries
    unfold setWgConfigurationLoop
    cases hg : (attempts retries).generateErr with
    | some e => simp
    | none =>
      by_cases hp : isPortInUse (attempts retries).output = true
      · simp [hp, ih (retries + 1)]
      · simp [hp]

theorem configFileExists_removed (events : List ConfEvent) :
    ∀ before, configFileExists before (events ++ [.removeConfigFile]) = false := by
  induction events with
  | nil => intro before; rfl
  | cons e rest ih =>
    intro before
    cases e <;> simp [configFileExists, ih]

theorem setWgConfigurationLoop_busy (attempts : Nat → Attempt) (remaining retries : Nat)
    (h : busy attempts retries) :
    (setWgConfigurationLoop attempts (remaining + 1) retries).1 =
      .generateAndSaveConfigFile :: .setconf ::
        (setWgConfigurationLoop attempts remaining (retries + 1)).1 := by
  rw [setWgConfigurationLoop]
  simp [h.1, h.2]

theorem setWgConfigurationLoop_head (attempts : Nat → Attempt) (remaining retries : Nat) :
    (setWgConfigurationLoop attempts (remaining + 1) retries).1[0]? =
      some .generateAndSaveConfigFile := by
  rw [setWgConfigurationLoop]
  cases hg : (attempts retries).generateErr with
  | some e => simp
  | none =>
    by_cases hp : isPortInUse (attempts retries).output = true
    · simp [hp]
    · simp [hp]

theorem setWgConfigurationLoop_regenerates (attempts : Nat → Attempt) :
    ∀ i remaining retries, i < remaining → (∀ j, j ≤ i → busy attempts (retries + j)) →
      (setWgConfigurationLoop attempts (remaining + 1) retries).1[2 * i + 1]? = some .setconf ∧
      (setWgConfigurationLoop attempts (remaining + 1) retries).1[2 * i + 2]? =
        some .generateAndSaveConfigFile := by
  intro i
  induction i with
  | zero =>
    intro remaining retries hlt hb
    rw [setWgConfigurationLoop_busy attempts remaining retries (by simpa using hb 0 (le_refl 0))]
    obtain ⟨r, rfl⟩ : ∃ r, remaining = r + 1 := ⟨remaining - 1, by omega⟩
    exact ⟨by simp, by simpa using setWgConfigurationLoop_head attempts r (retries + 1)⟩
  | succ i ih =>
    intro remaining retries hlt hb
    rw [setWgConfigurationLoop_busy attempts remaining retries (by simpa using hb 0 (by omega))]
    obtain ⟨r, rfl⟩ : ∃ r, remaining = r + 1 := ⟨remaining - 1, by omega⟩
    have h := ih r (retries + 1) (by omega) (fun j hj => by
      have := hb (j + 1) (by omega)
      rwa [show retries + 1 + j = retries + (j + 1) by omega])
    have e1 : 2 * (i + 1) + 1 = (2 * i + 1) + 1 + 1 := by omega
    have e2 : 2 * (i + 1) + 2 = (2 * i + 2) + 1 + 1 := by omega
    rw [e1, e2]
    simpa using h

theorem getElem?_append_of_some {α : Type} (l l2 : List α) (i : Nat) (x : α)
    (h : l[i]? = some x) : (l ++ l2)[i]? = some x := by
  have hlt : i < l.length := by
    by_contra hc
    rw [List.getElem?_eq_none (by omega)] at h
    cases h
  rw [List.getElem?_append_left hlt, h]

/-- C18 as amended: the config file is removed by the deferred `os.Remove` alone, which is the
last effect of `setWgConfiguration` on every exit path (the loop itself never removes the
file), so the file does not exist when the function has returned, whatever was there before;
between attempts the file is not removed: while attempts report the address in use and retries
remain, the effect that follows `wg setconf` is the next `generateAndSaveConfigFile`. -/
theorem config_file_removed_at_exit (attempts : Nat → Attempt) :
    (setWgConfiguration attempts).1 =
      (setWgConfigurationLoop attempts 5 0).1 ++ [.removeConfigFile] ∧
    ConfEvent.removeConfigFile ∉ (setWgConfigurationLoop attempts 5 0).1 ∧
    removeCount (setWgConfiguration attempts).1 = 1 ∧
    (∀ before, configFileExists before (setWgConfiguration attempts).1 = false) ∧
    (∀ i, i < 4 → (∀ j, j ≤ i → busy attempts j) →
      (setWgConfiguration attempts).1[2 * i + 1]? = some .setconf ∧
      (setWgConfiguration attempts).1[2 * i + 2]? = some .generateAndSaveConfigFile) := by
  have hno := setWgConfigurationLoop_no_remove attempts 5 0
  refine ⟨rfl, hno, ?_, ?_, ?_⟩
  · unfold removeCount setWgConfiguration
    simp [List.count_append, List.count_eq_zero_of_not_mem hno]
  · intro before
    exact configFileExists_removed _ before
  · intro i hi hb
    have h := setWgConfigurationLoop_regenerates attempts i 4 0 hi
      (fun j hj => by simpa using hb j hj)
    exact ⟨getElem?_append_of_some _ _ _ _ h.1, getElem?_append_of_some _ _ _ _ h.2⟩

/-- C18 as amended, on a run in which the address is in use twice: the second attempt is
followed by the third generation of the file, and the file is gone at the end. -/
theorem config_file_removed_at_exit_witness :
    ((setWgConfiguration twoBusyAttempts).1[2 * 1 + 1]? = some .setconf ∧
     (setWgConfiguration twoBusyAttempts).1[2 * 1 + 2]? = some .generateAndSaveConfigFile) ∧
    configFileExists true (setWgConfiguration twoBusyAttempts).1 = false :=
  ⟨(config_file_removed_at_exit twoBusyAttempts).2.2.2.2 1 (by decide)
      (fun j hj => by
        have : j = 0 ∨ j = 1 := by omega
        rcases this with rfl | rfl <;> exact ⟨by decide, by decide⟩),
   (config_file_removed_at_exit busyAttempts).2.2.2.1 true⟩

/-- C18 as stated fails: when the address is in use twice, `wg setconf` runs three times and
the file is removed once, after the last attempt; the first attempt is followed by the next
generation of the file, and the file is there after the first and after the second attempt. -/
theorem config_file_kept_between_attempts :
    (setWgConfiguration twoBusyAttempts).1 =
      [.generateAndSaveConfigFile, .setconf, .generateAndSaveConfigFile, .setconf,
       .generateAndSaveConfigFile, .setconf, .removeConfigFile] ∧
    applyCount (setWgConfiguration twoBusyAttempts).1 = 3 ∧
    removeCount (setWgConfiguration twoBusyAttempts).1 = 1 ∧
    configFileExists false ((setWgConfiguration twoBusyAttempts).1.take 2) = true ∧
    configFileExists false ((setWgConfiguration twoBusyAttempts).1.take 4) = true := by
  decide

/-! ## Address assignment with bounded retry (C19) -/

theorem assignLoop_world (ok stopAt : Nat → Bool) (c : Cmd) :
    ∀ (n : Nat) (w : World) (e : Bool), ∃ k b,
      (assignLoop (worldShell ok) (worldFlag stopAt) c n w e).1.log = w.log ++ attemptsLog c k b ∧
      k + b.toNat ≤ n ∧
      ((assignLoop (worldShell ok) (worldFlag stopAt) c n w e).2 = true ↔
        (b = true ∨ (k = 0 ∧ e = true))) ∧
      (k = 0 → b = false → 0 < n → stopAt w.reads = true) := by
  intro n
  induction n with
  | zero =>
    intro w e
    exact ⟨0, false, by simp [assignLoop, attemptsLog], by simp, by simp [assignLoop], by simp⟩
  | succ n ih =>
    intro w e
    rw [assignLoop]
    by_cases hs : stopAt w.reads = true
    · refine ⟨0, false, ?_, by simp, ?_, fun _ _ _ => hs⟩
      · simp [worldFlag, hs, attemptsLog]
      · simp [worldFlag, hs]
    · by_cases hok : ok w.log.length = true
      · refine ⟨0, true, ?_, by simp, ?_, by simp⟩
        · simp [worldFlag, worldShell, hs, hok, attemptsLog]
        · simp [worldFlag, worldShell, hs, hok]
      · obtain ⟨k, b, hlog, hle, hres, _⟩ :=
          ih { log := w.log ++ [.exec c false], reads := w.reads + 1 } false
        refine ⟨k + 1, b, ?_, by omega, ?_, by simp⟩
        · simp only [worldFlag, worldShell, hs, hok, Bool.false_eq_true, if_false]
          rw [hlog]
          simp [attemptsLog, List.replicate_succ]
        · simp only [worldFlag, worldShell, hs, hok, Bool.false_eq_true, if_false]
          rw [hres]
          simp

/-- C19 as amended: `initializeUnunInterface` issues nothing but address assignments: up to 5
for IPv4, then, when an IPv6 local address is configured and the IPv4 loop left no error, up to
5 for IPv6; in each loop every attempt but the last one made has failed; it returns nil exactly
when the IPv4 loop ended with a success or made no attempt, and the IPv6 loop ended with a
success or made no attempt; and the IPv4 loop makes no attempt only when the first read of the
stop flag saw it set. -/
theorem initializeUnunInterface_attempts (ok stopAt : Nat → Bool) (wg : WireGuard) :
    ∃ k4 b4 k6 b6,
      (initializeUnunInterface (worldShell ok) (worldFlag stopAt) wg ⟨[], 0⟩).1.log =
        attemptsLog (cmdAssignIPv4 wg) k4 b4 ++
          (match wg.ipv6ClientLocalIP with
           | none => []
           | some ip6 => attemptsLog (cmdAssignIPv6 wg ip6) k6 b6) ∧
      k4 + b4.toNat ≤ 5 ∧ k6 + b6.toNat ≤ 5 ∧
      (wg.ipv6ClientLocalIP = none → k6 = 0 ∧ b6 = false) ∧
      ((initializeUnunInterface (worldShell ok) (worldFlag stopAt) wg ⟨[], 0⟩).2 = none ↔
        (b4 = true ∨ k4 = 0) ∧ (b6 = true ∨ k6 = 0)) ∧
      (k4 = 0 → b4 = false → stopAt 0 = true) := by
  obtain ⟨k4, b4, h4log, h4le, h4res, h4stop⟩ :=
    assignLoop_world ok stopAt (cmdAssignIPv4 wg) 5 ⟨[], 0⟩ true
  unfold initializeUnunInterface
  generalize assignLoop (worldShell ok) (worldFlag stopAt) (cmdAssignIPv4 wg) 5 ⟨[], 0⟩ true = r4
    at h4log h4res
  obtain ⟨w4, e4⟩ := r4
  simp only [List.nil_append] at h4log
  simp only [and_true] at h4res
  have h4stop0 : k4 = 0 → b4 = false → stopAt 0 = true := fun h1 h2 => h4stop h1 h2 (by omega)
  cases e4 with
  | false =>
    have hn : ¬ (b4 = true ∨ k4 = 0) := fun h => by simpa using h4res.2 h
    refine ⟨k4, b4, 0, false, ?_, h4le, by simp, by simp, ?_, h4stop0⟩
    · cases wg.ipv6ClientLocalIP <;> simp [h4log, attemptsLog]
    · simp [hn]
  | true =>
    have hy : b4 = true ∨ k4 = 0 := h4res.1 rfl
    cases h6 : wg.ipv6ClientLocalIP with
    | none =>
      exact ⟨k4, b4, 0, false, by simp [h4log], h4le, by simp, by simp, by simp [hy], h4stop0⟩
    | some ip6 =>
      obtain ⟨k6, b6, h6log, h6le, h6res, _⟩ :=
        assignLoop_world ok stopAt (cmdAssignIPv6 wg ip6) 5 w4 true
      simp only [and_true] at h6res
      refine ⟨k4, b4, k6, b6, ?_, h4le, h6le, by simp, ?_, h4stop0⟩
      · simp only [Bool.true_eq_false, if_false]
        split <;> simp [h6log, h4log]
      · simp only [Bool.true_eq_false, if_false]
        cases h6r : (assignLoop (worldShell ok) (worldFlag stopAt) (cmdAssignIPv6 wg ip6) 5 w4
            true).2 with
        | false =>
          have hn : ¬ (b6 = true ∨ k6 = 0) := fun h => by
            rw [h6res.2 h] at h6r
            cases h6r
          simp [hn]
        | true => simp [hy, h6res.1 h6r]

/-- C19 as amended, on a run in which the first two commands fail and the flag is never set. -/
theorem initializeUnunInterface_attempts_witness :
    ∃ k4 b4 k6 b6,
      (initializeUnunInterface (worldShell (fun i => decide (2 ≤ i))) (worldFlag (fun _ => false))
          demoWg ⟨[], 0⟩).1.log =
        attemptsLog (cmdAssignIPv4 demoWg) k4 b4 ++
          (match demoWg.ipv6ClientLocalIP with
           | none => []
           | some ip6 => attemptsLog (cmdAssignIPv6 demoWg ip6) k6 b6) ∧
      k4 + b4.toNat ≤ 5 ∧ k6 + b6.toNat ≤ 5 ∧
      (demoWg.ipv6ClientLocalIP = none → k6 = 0 ∧ b6 = false) ∧
      ((initializeUnunInterface (worldShell (fun i => decide (2 ≤ i))) (worldFlag (fun _ => false))
          demoWg ⟨[], 0⟩).2 = none ↔
        (b4 = true ∨ k4 = 0) ∧ (b6 = true ∨ k6 = 0)) ∧
      (k4 = 0 → b4 = false → (fun _ => false) 0 = true) :=
  initializeUnunInterface_attempts (fun i => decide (2 ≤ i)) (fun _ => false) demoWg

/-- C19 as stated fails when the stop flag is set on entry: neither loop issues a command, so
no IPv4 assignment has succeeded, and `initializeUnunInterface` returns nil. -/
theorem initializeUnunInterface_stop_on_entry :
    initializeUnunInterface (worldShell (fun _ => true)) (worldFlag (fun _ => true)) demoWg
        ⟨[], 0⟩ = (⟨[], 2⟩, none) ∧
    Done.exec (cmdAssignIPv4 demoWg) true ∉
      (initializeUnunInterface (worldShell (fun _ => true)) (worldFlag (fun _ => true)) demoWg
        ⟨[], 0⟩).1.log := by
  decide

/-! ## The connected notification (C13) -/

theorem execUntilFailure_respects {σ : Type} {R : σ → σ → Prop} {sh : Shell σ} {stop : Flag σ}
    {conf : σ → σ × Option String} (h : Respected R sh stop conf) :
    ∀ cmds s, R s (execUntilFailure sh cmds s).1 := by
  intro cmds
  induction cmds with
  | nil => intro s; exact h.refl s
  | cons c cs ih =>
    intro s
    rw [execUntilFailure]
    split
    · exact h.trans _ _ _ (h.exec s c) (ih _)
    · exact h.exec s c

theorem setRoutes_respects {σ : Type} {R : σ → σ → Prop} {sh : Shell σ} {stop : Flag σ}
    {conf : σ → σ × Option String} (h : Respected R sh stop conf) (wg : WireGuard) (s : σ) :
    R s (setRoutes sh wg s).1 := by
  rw [(setRoutes_refines sh wg s).1]
  exact execUntilFailure_respects h _ s

theorem assignLoop_respects {σ : Type} {R : σ → σ → Prop} {sh : Shell σ} {stop : Flag σ}
    {conf : σ → σ × Option String} (h : Respected R sh stop conf) (c : Cmd) :
    ∀ n s e, R s (assignLoop sh stop c n s e).1 := by
  intro n
  induction n with
  | zero => intro s e; exact h.refl s
  | succ n ih =>
    intro s e
    rw [assignLoop]
    split
    · exact h.read s
    · split
      · exact h.trans _ _ _ (h.read s) (h.exec _ c)
      · exact h.trans _ _ _ (h.trans _ _ _ (h.read s) (h.exec _ c)) (ih _ _)

theorem initializeUnunInterface_respects {σ : Type} {R : σ → σ → Prop} {sh : Shell σ}
    {stop : Flag σ} {conf : σ → σ × Option String} (h : Respected R sh stop conf)
    (wg : WireGuard) (s : σ) : R s (initializeUnunInterface sh stop wg s).1 := by
  unfold initializeUnunInterface
  have h4 := assignLoop_respects h (cmdAssignIPv4 wg) 5 s true
  simp only []
  split
  · exact h4
  · split
    · exact h4
    · split
      · exact h.trans _ _ _ h4 (assignLoop_respects h _ 5 _ true)
      · exact h.trans _ _ _ h4 (assignLoop_respects h _ 5 _ true)

theorem initIPv6DNSResolver_respects {σ : Type} {R : σ → σ → Prop} {sh : Shell σ}
    {stop : Flag σ} {conf : σ → σ × Option String} (h : Respected R sh stop conf)
    (p : Platform) (wg : WireGuard) (s : σ) : R s (initIPv6DNSResolver sh p wg s).1 := by
  unfold initIPv6DNSResolver
  split
  · exact h.refl s
  · split
    · split
      · exact h.exec s _
      · exact h.exec s _
    · exact h.refl s

theorem setDNS_respects {σ : Type} {R : σ → σ → Prop} {sh : Shell σ}
    {stop : Flag σ} {conf : σ → σ × Option String} (h : Respected R sh stop conf)
    (p : Platform) (s : σ) : R s (setDNS sh p s).1 := by
  unfold setDNS
  split
  · exact h.exec s _
  · exact h.exec s _

theorem initializeConfiguration_respects {σ : Type} {R : σ → σ → Prop} {sh : Shell σ}
    {stop : Flag σ} {conf : σ → σ × Option String} (h : Respected R sh stop conf)
    (wg : WireGuard) (s : σ) : R s (initializeConfiguration sh stop conf wg s).1 := by
  unfold initializeConfiguration
  have h1 := initializeUnunInterface_respects h wg s
  have h2 := h.trans _ _ _ h1 (h.configure (initializeUnunInterface sh stop wg s).1)
  split
  · exact h1
  · split
    · exact h2
    · split
      · split
        · exact h.trans _ _ _ h2 (h.exec _ _)
        · exact h.trans _ _ _ h2 (h.exec _ _)
      · exact h2

theorem wgInitialize_respects {σ : Type} {R : σ → σ → Prop} {sh : Shell σ}
    {stop : Flag σ} {conf : σ → σ × Option String} (h : Respected R sh stop conf)
    (p : Platform) (wg : WireGuard) (s : σ) :
    R (initIPv6DNSResolver sh p wg s).1 (wgInitialize sh stop conf p wg s).1 := by
  unfold wgInitialize
  have h1 := initializeConfiguration_respects h wg (initIPv6DNSResolver sh p wg s).1
  have h2 := h.trans _ _ _ h1 (setRoutes_respects h wg _)
  have h3 := h.trans _ _ _ h2 (setDNS_respects h p _)
  simp only []
  split
  · exact h1
  · split
    · exact h2
    · split
      · exact h3
      · exact h3

theorem wgInitialize_nil_iff {σ : Type} (sh : Shell σ) (stop : Flag σ)
    (conf : σ → σ × Option String) (p : Platform) (wg : WireGuard) (s : σ) :
    (wgInitialize sh stop conf p wg s).2 = none ↔
      (initializeUnunInterface sh stop wg (initIPv6DNSResolver sh p wg s).1).2 = none ∧
      (conf (initializeUnunInterface sh stop wg (initIPv6DNSResolver sh p wg s).1).1).2 = none ∧
      (wg.mtu > 0 →
        (sh (conf (initializeUnunInterface sh stop wg (initIPv6DNSResolver sh p wg s).1).1).1
          (cmdSetMTU wg)).2 = true) ∧
      (setRoutes sh wg
        (initializeConfiguration sh stop conf wg (initIPv6DNSResolver sh p wg s).1).1).2 = none ∧
      (sh (setRoutes sh wg
        (initializeConfiguration sh stop conf wg (initIPv6DNSResolver sh p wg s).1).1).1
        (cmdSetDNS p)).2 = true := by
  have hc : (initializeConfiguration sh stop conf wg (initIPv6DNSResolver sh p wg s).1).2 = none ↔
      (initializeUnunInterface sh stop wg (initIPv6DNSResolver sh p wg s).1).2 = none ∧
      (conf (initializeUnunInterface sh stop wg (initIPv6DNSResolver sh p wg s).1).1).2 = none ∧
      (wg.mtu > 0 →
        (sh (conf (initializeUnunInterface sh stop wg (initIPv6DNSResolver sh p wg s).1).1).1
          (cmdSetMTU wg)).2 = true) := by
    unfold initializeConfiguration
    cases h1 : (initializeUnunInterface sh stop wg (initIPv6DNSResolver sh p wg s).1).2 with
    | some e => simp
    | none =>
      cases h2 : (conf (initializeUnunInterface sh stop wg
          (initIPv6DNSResolver sh p wg s).1).1).2 with
      | some e => simp
      | none =>
        by_cases hm : wg.mtu > 0
        · cases h3 : (sh (conf (initializeUnunInterface sh stop wg
              (initIPv6DNSResolver sh p wg s).1).1).1 (cmdSetMTU wg)).2 <;> simp [hm]
        · simp [hm]
  unfold wgInitialize
  simp only []
  cases h1 : (initializeConfiguration sh stop conf wg (initIPv6DNSResolver sh p wg s).1).2 with
  | some e =>
    have : ¬ ((initializeUnunInterface sh stop wg (initIPv6DNSResolver sh p wg s).1).2 = none ∧
      (conf (initializeUnunInterface sh stop wg (initIPv6DNSResolver sh p wg s).1).1).2 = none ∧
      (wg.mtu > 0 →
        (sh (conf (initializeUnunInterface sh stop wg (initIPv6DNSResolver sh p wg s).1).1).1
          (cmdSetMTU wg)).2 = true)) := fun h => by
      rw [hc.2 h] at h1
      cases h1
    constructor
    · intro h; cases h
    · rintro ⟨a, b, c, _⟩; exact absurd ⟨a, b, c⟩ this
  | none =>
    have hc1 := hc.1 h1
    cases h2 : (setRoutes sh wg
        (initializeConfiguration sh stop conf wg (initIPv6DNSResolver sh p wg s).1).1).2 with
    | some e => simp
    | none =>
      unfold setDNS
      cases h3 : (sh (setRoutes sh wg
          (initializeConfiguration sh stop conf wg (initIPv6DNSResolver sh p wg s).1).1).1
          (cmdSetDNS p)).2 with
      | false => simp
      | true => simpa using hc1

theorem world_respects (ok stopAt : Nat → Bool) (attempts : Nat → Attempt) :
    Respected grownWithoutNotification (worldShell ok) (worldFlag stopAt) (worldConf attempts) where
  refl := fun s => ⟨[], by simp, by simp⟩
  trans := by
    rintro a b c ⟨e1, h1, n1⟩ ⟨e2, h2, n2⟩
    refine ⟨e1 ++ e2, by rw [h2, h1, List.append_assoc], ?_⟩
    simp [n1, n2]
  exec := fun s c => ⟨[.exec c (ok s.log.length)], rfl, by simp⟩
  read := fun s => ⟨[], by simp [worldFlag], by simp⟩
  configure := fun s =>
    ⟨[.setWgConfiguration (setWgConfiguration attempts).1 (setWgConfiguration attempts).2], rfl,
      by simp⟩

theorem initializeConfiguration_after_assign {σ : Type} {R : σ → σ → Prop} {sh : Shell σ}
    {stop : Flag σ} {conf : σ → σ × Option String} (h : Respected R sh stop conf)
    (wg : WireGuard) (s : σ) :
    R (initializeUnunInterface sh stop wg s).1 (initializeConfiguration sh stop conf wg s).1 := by
  unfold initializeConfiguration
  have h2 := h.configure (initializeUnunInterface sh stop wg s).1
  split
  · exact h.refl _
  · split
    · exact h2
    · split
      · split
        · exact h.trans _ _ _ h2 (h.exec _ _)
        · exact h.trans _ _ _ h2 (h.exec _ _)
      · exact h2

theorem wgInitialize_after_configuration {σ : Type} {R : σ → σ → Prop} {sh : Shell σ}
    {stop : Flag σ} {conf : σ → σ × Option String} (h : Respected R sh stop conf)
    (p : Platform) (wg : WireGuard) (s : σ) :
    R (initializeConfiguration sh stop conf wg (initIPv6DNSResolver sh p wg s).1).1
      (wgInitialize sh stop conf p wg s).1 := by
  unfold wgInitialize
  have h2 := setRoutes_respects h wg
    (initializeConfiguration sh stop conf wg (initIPv6DNSResolver sh p wg s).1).1
  have h3 := h.trans _ _ _ h2 (setDNS_respects h p _)
  simp only []
  split
  · exact h.refl _
  · split
    · exact h2
    · split
      · exact h3
      · exact h3

theorem initIPv6DNSResolver_reads (ok : Nat → Bool) (p : Platform) (wg : WireGuard) (w : World) :
    (initIPv6DNSResolver (worldShell ok) p wg w).1.reads = w.reads := by
  unfold initIPv6DNSResolver
  split
  · rfl
  · split
    · split <;> rfl
    · rfl

theorem initializeUnunInterface_nil_world (ok stopAt : Nat → Bool) (wg : WireGuard) (w : World)
    (h : (initializeUnunInterface (worldShell ok) (worldFlag stopAt) wg w).2 = none) :
    Done.exec (cmdAssignIPv4 wg) true ∈
        (initializeUnunInterface (worldShell ok) (worldFlag stopAt) wg w).1.log ∨
      stopAt w.reads = true := by
  obtain ⟨k4, b4, h4log, -, h4res, h4stop⟩ :=
    assignLoop_world ok stopAt (cmdAssignIPv4 wg) 5 w true
  unfold initializeUnunInterface at h ⊢
  generalize assignLoop (worldShell ok) (worldFlag stopAt) (cmdAssignIPv4 wg) 5 w true = r4
    at h4log h4res h ⊢
  obtain ⟨w4, e4⟩ := r4
  simp only [and_true] at h4res
  cases e4 with
  | false => simp at h
  | true =>
    rcases h4res.1 rfl with hb | hk
    · left
      have hmem : Done.exec (cmdAssignIPv4 wg) true ∈ w4.log := by
        rw [h4log]
        simp [attemptsLog, hb]
      simp only [Bool.true_eq_false, if_false]
      cases h6 : wg.ipv6ClientLocalIP with
      | none => exact hmem
      | some ip6 =>
        obtain ⟨k6, b6, h6log, -, -, -⟩ :=
          assignLoop_world ok stopAt (cmdAssignIPv6 wg ip6) 5 w4 true
        have : Done.exec (cmdAssignIPv4 wg) true ∈
            (assignLoop (worldShell ok) (worldFlag stopAt) (cmdAssignIPv6 wg ip6) 5 w4
              true).1.log := by
          rw [h6log]
          exact List.mem_append_left _ hmem
        simp only []
        split <;> exact this
    · cases hb : b4 with
      | true =>
        left
        have hmem : Done.exec (cmdAssignIPv4 wg) true ∈ w4.log := by
          rw [h4log]
          simp [attemptsLog, hb]
        simp only [Bool.true_eq_false, if_false]
        cases h6 : wg.ipv6ClientLocalIP with
        | none => exact hmem
        | some ip6 =>
          obtain ⟨k6, b6, h6log, -, -, -⟩ :=
            assignLoop_world ok stopAt (cmdAssignIPv6 wg ip6) 5 w4 true
          have : Done.exec (cmdAssignIPv4 wg) true ∈
              (assignLoop (worldShell ok) (worldFlag stopAt) (cmdAssignIPv6 wg ip6) 5 w4
                true).1.log := by
            rw [h6log]
            exact List.mem_append_left _ hmem
          simp only []
          split <;> exact this
      | false => exact Or.inr (h4stop hk hb (by omega))

/-- C13 as amended: the connected notification is issued exactly when the `select` took the case
of the init trigger (not the timer of 5 seconds) and `initialize` returned nil; `initialize`
returns nil exactly when `initializeUnunInterface` and `setWgConfiguration` returned nil, the
MTU command (issued when an MTU is configured) succeeded, `setRoutes` returned nil and the
command of `setDNS` succeeded, whatever the resolver registration returned; the registration
comes first: what it logs is the start of the log of `initialize`, and when it issues its
command (an IPv6 local address is configured and the tunnel has a name) that command is the
first entry; and when `initialize` returned nil, an IPv4 address assignment has succeeded or the
first read of the stop flag saw it set. -/
theorem connected_notification (ok stopAt : Nat → Bool) (attempts : Nat → Attempt)
    (handshake : Option String) (p : Platform) (wg : WireGuard) (started : Bool) :
    let sh := worldShell ok
    let stop := worldFlag stopAt
    let conf := worldConf attempts
    let s0 := (initIPv6DNSResolver sh p wg ⟨[], 0⟩).1
    let r1 := initializeUnunInterface sh stop wg s0
    let s3 := (initializeConfiguration sh stop conf wg s0).1
    (Done.waitHandshakeAndNotifyConnected ∈
        (waitStartAndInitialize sh stop conf (worldNotify handshake) p wg started ⟨[], 0⟩).1.log ↔
      started = true ∧ (wgInitialize sh stop conf p wg ⟨[], 0⟩).2 = none) ∧
    ((wgInitialize sh stop conf p wg ⟨[], 0⟩).2 = none ↔
      r1.2 = none ∧ (conf r1.1).2 = none ∧
      (wg.mtu > 0 → (sh (conf r1.1).1 (cmdSetMTU wg)).2 = true) ∧
      (setRoutes sh wg s3).2 = none ∧ (sh (setRoutes sh wg s3).1 (cmdSetDNS p)).2 = true) ∧
    s0.log <+: (wgInitialize sh stop conf p wg ⟨[], 0⟩).1.log ∧
    (∀ ip6, wg.ipv6ClientLocalIP = some ip6 → 0 < wg.utunName.length →
      (wgInitialize sh stop conf p wg ⟨[], 0⟩).1.log.head? =
        some (.exec (cmdInitIPv6Resolver p wg ip6) (ok 0))) ∧
    ((wgInitialize sh stop conf p wg ⟨[], 0⟩).2 = none →
      Done.exec (cmdAssignIPv4 wg) true ∈ (wgInitialize sh stop conf p wg ⟨[], 0⟩).1.log ∨
        stopAt 0 = true) := by
  intro sh stop conf s0 r1 s3
  have hres := world_respects ok stopAt attempts
  obtain ⟨ext, hext, hno⟩ := wgInitialize_respects hres p wg ⟨[], 0⟩
  obtain ⟨ext0, hext0, hno0⟩ := initIPv6DNSResolver_respects hres p wg ⟨[], 0⟩
  refine ⟨?_, wgInitialize_nil_iff sh stop conf p wg ⟨[], 0⟩, ⟨ext, hext.symm⟩, ?_, ?_⟩
  · have hnot : Done.waitHandshakeAndNotifyConnected ∉
        (wgInitialize sh stop conf p wg ⟨[], 0⟩).1.log := by
      rw [hext, hext0]
      simp [hno, hno0]
    unfold waitStartAndInitialize
    cases started with
    | false => simp
    | true =>
      cases h : (wgInitialize sh stop conf p wg ⟨[], 0⟩).2 with
      | none => simp [worldNotify]
      | some e => simpa using hnot
  · intro ip6 h6 hname
    have h0 : (initIPv6DNSResolver (worldShell ok) p wg ⟨[], 0⟩).1.log =
        [.exec (cmdInitIPv6Resolver p wg ip6) (ok 0)] := by
      unfold initIPv6DNSResolver
      simp only [h6, hname, if_true]
      split <;> simp [worldShell]
    rw [hext, h0]
    rfl
  · intro hnil
    have h1 := ((wgInitialize_nil_iff sh stop conf p wg ⟨[], 0⟩).1 hnil).1
    have hreads := initIPv6DNSResolver_reads ok p wg ⟨[], 0⟩
    rcases initializeUnunInterface_nil_world ok stopAt wg s0 h1 with hmem | hstop
    · left
      obtain ⟨e1, he1, -⟩ := initializeConfiguration_after_assign hres wg s0
      obtain ⟨e2, he2, -⟩ := wgInitialize_after_configuration hres p wg ⟨[], 0⟩
      rw [he2, he1]
      exact List.mem_append_left _ (List.mem_append_left _ hmem)
    · right
      rw [← hstop]
      exact congrArg stopAt hreads.symm

/-- C13 as amended, on the demo connection: the resolver registration fails, every other step
succeeds, and the connected notification is issued; the failed registration is the first entry
of the log, and an IPv4 address assignment has succeeded or the stop flag was set. -/
theorem connected_notification_witness :
    Done.waitHandshakeAndNotifyConnected ∈
      (waitStartAndInitialize (worldShell (fun i => decide (i ≠ 0))) (worldFlag (fun _ => false))
        (worldConf goodAttempts) (worldNotify none) demoPlatform demoWg true ⟨[], 0⟩).1.log ∧
    (wgInitialize (worldShell (fun i => decide (i ≠ 0))) (worldFlag (fun _ => false))
        (worldConf goodAttempts) demoPlatform demoWg ⟨[], 0⟩).1.log.head? =
      some (.exec (cmdInitIPv6Resolver demoPlatform demoWg "fd00:4956:504e:ffff::ac1a:1692")
        false) ∧
    (Done.exec (cmdAssignIPv4 demoWg) true ∈
        (wgInitialize (worldShell (fun i => decide (i ≠ 0))) (worldFlag (fun _ => false))
          (worldConf goodAttempts) demoPlatform demoWg ⟨[], 0⟩).1.log ∨
      (fun _ => false) 0 = true) :=
  ⟨(connected_notification (fun i => decide (i ≠ 0)) (fun _ => false) goodAttempts none
      demoPlatform demoWg true).1.2 ⟨rfl, by decide⟩,
   (connected_notification (fun i => decide (i ≠ 0)) (fun _ => false) goodAttempts none
      demoPlatform demoWg true).2.2.2.1 "fd00:4956:504e:ffff::ac1a:1692" rfl (by decide),
   (connected_notification (fun i => decide (i ≠ 0)) (fun _ => false) goodAttempts none
      demoPlatform demoWg true).2.2.2.2 (by decide)⟩

/-- C13 as stated fails when the stop flag is set while `initialize` runs: with every command
succeeding, `initializeUnunInterface` returns nil without an attempt, `initialize` returns nil
and the connected notification is issued, although no address assignment was made: the log
holds no `ipconfig` command. -/
theorem notification_without_address :
    (wgInitialize (worldShell (fun _ => true)) (worldFlag (fun _ => true))
        (worldConf goodAttempts) demoPlatform demoWg ⟨[], 0⟩).2 = none ∧
    Done.waitHandshakeAndNotifyConnected ∈
      (waitStartAndInitialize (worldShell (fun _ => true)) (worldFlag (fun _ => true))
        (worldConf goodAttempts) (worldNotify none) demoPlatform demoWg true ⟨[], 0⟩).1.log ∧
    Done.exec (cmdAssignIPv4 demoWg) true ∉
      (waitStartAndInitialize (worldShell (fun _ => true)) (worldFlag (fun _ => true))
        (worldConf goodAttempts) (worldNotify none) demoPlatform demoWg true ⟨[], 0⟩).1.log ∧
    (issued (waitStartAndInitialize (worldShell (fun _ => true)) (worldFlag (fun _ => true))
        (worldConf goodAttempts) (worldNotify none) demoPlatform demoWg true ⟨[], 0⟩).1.log).all
      (fun c => decide (c.name ≠ "/usr/sbin/ipconfig")) = true := by
  decide

/-! ## The free tunnel interface name (C20) -/

theorem digitChar_value : ∀ d, d < 10 →
    (Nat.digitChar d).isDigit = true ∧ (Nat.digitChar d).toNat - 48 = d := by
  decide

theorem toDigitsCore_value :
    ∀ (fuel n : Nat) (ds : List Char), n < fuel →
      (Nat.toDigitsCore 10 fuel n ds).foldl (fun acc c => acc * 10 + (c.toNat - 48)) 0 =
        ds.foldl (fun acc c => acc * 10 + (c.toNat - 48)) n := by
  intro fuel
  induction fuel with
  | zero => intro n ds h; omega
  | succ fuel ih =>
    intro n ds h
    have hd := (digitChar_value (n % 10) (Nat.mod_lt _ (by decide))).2
    rw [Nat.toDigitsCore]
    by_cases h0 : n / 10 = 0
    · simp only [h0, if_true, List.foldl_cons, hd]
      congr 1
      omega
    · simp only [h0, if_false]
      rw [ih (n / 10) _ (by omega)]
      simp only [List.foldl_cons, hd]
      congr 1
      omega

theorem toDigitsCore_digits :
    ∀ (fuel n : Nat) (ds : List Char), (∀ c ∈ ds, c.isDigit = true) →
      ∀ c ∈ Nat.toDigitsCore 10 fuel n ds, c.isDigit = true := by
  intro fuel
  induction fuel with
  | zero => intro n ds h; simpa [Nat.toDigitsCore] using h
  | succ fuel ih =>
    intro n ds h
    have hd := (digitChar_value (n % 10) (Nat.mod_lt _ (by decide))).1
    have hds : ∀ c ∈ Nat.digitChar (n % 10) :: ds, c.isDigit = true := by
      intro c hc
      rcases List.mem_cons.1 hc with rfl | hc
      · exact hd
      · exact h c hc
    rw [Nat.toDigitsCore]
    by_cases h0 : n / 10 = 0
    · simpa only [h0, if_true] using hds
    · simp only [h0, if_false]
      exact ih (n / 10) _ hds

theorem toDigitsCore_ne_nil :
    ∀ (fuel n : Nat) (ds : List Char), ds ≠ [] → Nat.toDigitsCore 10 fuel n ds ≠ [] := by
  intro fuel
  induction fuel with
  | zero => intro n ds h; simpa [Nat.toDigitsCore] using h
  | succ fuel ih =>
    intro n ds h
    rw [Nat.toDigitsCore]
    by_cases h0 : n / 10 = 0
    · simp [h0]
    · simp only [h0, if_false]
      exact ih _ _ (by simp)

theorem toDigits_ne_nil (n : Nat) : Nat.toDigits 10 n ≠ [] := by
  unfold Nat.toDigits
  rw [Nat.toDigitsCore]
  by_cases h0 : n / 10 = 0
  · simp [h0]
  · simp only [h0, if_false]
    exact toDigitsCore_ne_nil _ _ _ (by simp)

theorem digitsValue_toDigits (n : Nat) : digitsValue (Nat.toDigits 10 n) = n := by
  unfold digitsValue Nat.toDigits
  rw [toDigitsCore_value (n + 1) n [] (by omega)]
  rfl

theorem utunDigits_render (n : Nat) :
    utunDigits ("utun" ++ toString n) = some (Nat.toDigits 10 n) := by
  have hl : ("utun" ++ toString n).toList = 'u' :: 't' :: 'u' :: 'n' :: Nat.toDigits 10 n := by
    show ("utun" ++ toString n).data = _
    rw [String.data_append]
    rfl
  have ht : (Nat.toDigits 10 n).takeWhile Char.isDigit = Nat.toDigits 10 n := by
    rw [List.takeWhile_eq_self_iff]
    exact toDigitsCore_digits _ _ _ (by simp)
  unfold utunDigits
  rw [hl]
  simp only [ht, toDigits_ne_nil, if_false]

theorem isDigit_value (c : Char) (h : c.isDigit = true) : c.toNat - 48 ≤ 9 := by
  unfold Char.isDigit at h
  simp only [Bool.and_eq_true, decide_eq_true_eq] at h
  have h2 : c.val.toNat ≤ 57 := h.2
  show c.val.toNat - 48 ≤ 9
  omega

theorem foldl_digits_lt :
    ∀ (ds : List Char) (acc : Nat), (∀ c ∈ ds, c.isDigit = true) →
      ds.foldl (fun acc c => acc * 10 + (c.toNat - 48)) acc < (acc + 1) * 10 ^ ds.length := by
  intro ds
  induction ds with
  | nil => intro acc _; simp
  | cons d ds ih =>
    intro acc h
    have hd := isDigit_value d (h d (by simp))
    have := ih (acc * 10 + (d.toNat - 48)) (fun c hc => h c (by simp [hc]))
    simp only [List.foldl_cons, List.length_cons]
    calc _ < (acc * 10 + (d.toNat - 48) + 1) * 10 ^ ds.length := this
      _ ≤ ((acc + 1) * 10) * 10 ^ ds.length := Nat.mul_le_mul_right _ (by omega)
      _ = (acc + 1) * 10 ^ (ds.length + 1) := by ring

theorem utunDigits_bound (name : String) (ds : List Char) (h : utunDigits name = some ds)
    (hlen : name.length < 16) : digitsValue ds < 10 ^ 11 := by
  unfold utunDigits at h
  split at h
  · rename_i rest hl
    split at h
    · cases h
    · cases h
      have hlen2 : rest.length < 12 := by
        have : name.length = (name.toList).length := rfl
        rw [hl] at this
        simp at this
        omega
      have h1 := foldl_digits_lt (rest.takeWhile Char.isDigit) 0
        (fun c hc => (List.mem_takeWhile_imp hc))
      have h2 : (rest.takeWhile Char.isDigit).length ≤ 11 := by
        have := List.Sublist.length_le (List.takeWhile_sublist Char.isDigit :
          List.Sublist (rest.takeWhile Char.isDigit) rest)
        omega
      unfold digitsValue
      calc _ < (0 + 1) * 10 ^ (rest.takeWhile Char.isDigit).length := h1
        _ ≤ 10 ^ 11 := by
          rw [Nat.zero_add, Nat.one_mul]
          exact Nat.pow_le_pow_right (by decide) h2
  · cases h

theorem atoi_exact (name : String) (ds : List Char) (h : utunDigits name = some ds)
    (hlen : name.length < 16) : atoi ds = digitsValue ds := by
  have hb := utunDigits_bound name ds h hlen
  unfold atoi maxInt
  rw [if_pos]
  have : (10 : Nat) ^ 11 ≤ 2 ^ 63 - 1 := by norm_num
  omega

theorem largestNumberAsClaimed_cons (name : String) (names : List String) :
    largestNumberAsClaimed (name :: names) =
      match utunDigits name with
      | some ds => max (digitsValue ds) (largestNumberAsClaimed names)
      | none => largestNumberAsClaimed names := by
  unfold largestNumberAsClaimed
  cases h : utunDigits name <;> simp [List.filterMap_cons, h]

theorem maxUtunNo_loop :
    ∀ (names : List String) (m : Nat), interfaceNames names →
      names.foldl (fun m name =>
        match utunDigits name with
        | some ds => if atoi ds > m then atoi ds else m
        | none => m) m = max m (largestNumberAsClaimed names) := by
  intro names
  induction names with
  | nil => intro m _; simp [largestNumberAsClaimed]
  | cons name names ih =>
    intro m h
    have hrest : interfaceNames names := fun x hx => h x (by simp [hx])
    rw [List.foldl_cons, ih _ hrest, largestNumberAsClaimed_cons]
    cases hd : utunDigits name with
    | none => rfl
    | some ds =>
      simp only [atoi_exact name ds hd (h name (by simp))]
      have hstep : (if digitsValue ds > m then digitsValue ds else m) = max m (digitsValue ds) := by
        rw [Nat.max_def]
        split <;> split <;> omega
      rw [hstep, Nat.max_assoc]

theorem largestNumberAsClaimed_bound :
    ∀ names : List String, interfaceNames names → largestNumberAsClaimed names < 10 ^ 11 := by
  intro names
  induction names with
  | nil => intro _; simp [largestNumberAsClaimed]
  | cons name names ih =>
    intro h
    have hrest := ih (fun x hx => h x (by simp [hx]))
    rw [largestNumberAsClaimed_cons]
    cases hd : utunDigits name with
    | none => exact hrest
    | some ds =>
      exact max_lt (utunDigits_bound name ds hd (h name (by simp))) hrest

theorem largestNumberAsClaimed_ge :
    ∀ (names : List String) (name : String) (ds : List Char), name ∈ names →
      utunDigits name = some ds → digitsValue ds ≤ largestNumberAsClaimed names := by
  intro names
  induction names with
  | nil => intro name ds h; cases h
  | cons x names ih =>
    intro name ds hmem hd
    rw [largestNumberAsClaimed_cons]
    rcases List.mem_cons.1 hmem with rfl | hmem
    · rw [hd]
      exact le_max_left _ _
    · have := ih name ds hmem hd
      cases utunDigits x with
      | none => exact this
      | some dx => exact le_trans this (le_max_right _ _)

theorem wrapInt64_small (n : Nat) (h : n < 2 ^ 63) : wrapInt64 (n : Int) = (n : Int) := by
  unfold wrapInt64
  have h2 : ((2 : Int) ^ 63) = 9223372036854775808 := by norm_num
  have h3 : ((2 : Int) ^ 64) = 18446744073709551616 := by norm_num
  have h4 : ((2 : Nat) ^ 63) = 9223372036854775808 := by norm_num
  rw [h2, h3]
  rw [h4] at h
  omega

/-- C20: for the names of the interfaces of a system (at most 15 bytes each),
`getFreeTunInterfaceName` returns "utun" followed by N+1 in decimal, N being the largest number
that the digits behind the prefix "utun" denote among the names (0 when there is none), and the
name returned is none of the given names. -/
theorem getFreeTunInterfaceName_unused (names : List String) (h : interfaceNames names) :
    getFreeTunInterfaceName (.ok names) =
      .ok ("utun" ++ toString (largestNumberAsClaimed names + 1)) ∧
    "utun" ++ toString (largestNumberAsClaimed names + 1) ∉ names := by
  constructor
  · have hmax : maxUtunNo names = largestNumberAsClaimed names := by
      unfold maxUtunNo
      rw [maxUtunNo_loop names 0 h]
      exact Nat.max_eq_right (Nat.zero_le _)
    have hb := largestNumberAsClaimed_bound names h
    have hw : wrapInt64 ((maxUtunNo names : Int) + 1) =
        ((largestNumberAsClaimed names + 1 : Nat) : Int) := by
      rw [hmax]
      have := wrapInt64_small (largestNumberAsClaimed names + 1) (by
        have : (10 : Nat) ^ 11 < 2 ^ 63 := by norm_num
        omega)
      rw [← this]
      congr 1
    unfold getFreeTunInterfaceName
    simp only [hw]
    rfl
  · intro hmem
    have := largestNumberAsClaimed_ge names _ _ hmem
      (utunDigits_render (largestNumberAsClaimed names + 1))
    rw [digitsValue_toDigits] at this
    omega

/-- C20 on an example system: the largest number is 12 and the name returned is "utun13". -/
theorem getFreeTunInterfaceName_unused_witness :
    (getFreeTunInterfaceName (.ok demoInterfaces) =
      .ok ("utun" ++ toString (largestNumberAsClaimed demoInterfaces + 1)) ∧
     "utun" ++ toString (largestNumberAsClaimed demoInterfaces + 1) ∉ demoInterfaces) ∧
    "utun" ++ toString (largestNumberAsClaimed demoInterfaces + 1) = "utun13" :=
  ⟨getFreeTunInterfaceName_unused demoInterfaces (by unfold interfaceNames; decide), by decide⟩

/-! ## Route teardown after a failed `setRoutes` (C8) -/

theorem setRoutesTouched_refl (wg : WireGuard) (t : RouteTable) : setRoutesTouched wg t t :=
  ⟨Or.inl rfl, fun _ h => absurd rfl h⟩

theorem setRoutesTouched_add (wg : WireGuard) (t s : RouteTable) (k0 : Slot) (v : Via)
    (h : setRoutesTouched wg t s) (hk : k0 ≠ defaultSlot) (hempty : s k0 = none)
    (hallowed : (hostIsNotLoopback wg = true ∧ k0 = hostSlot wg) ∨ k0 = scopedSlot wg ∨
      (wg.ipv6HostLocalIP ≠ none ∧ (k0 = v6Slot "::/1" ∨ k0 = v6Slot "8000::/1"))) :
    setRoutesTouched wg t (Function.update s k0 (some v)) := by
  refine ⟨?_, ?_⟩
  · rw [Function.update_noteq (Ne.symm hk)]
    exact h.1
  · intro k hne hkd
    by_cases hkk : k = k0
    · subst hkk
      refine ⟨?_, hallowed⟩
      by_cases hst : s k = t k
      · rw [← hst]; exact hempty
      · exact (h.2 k hst hkd).1
    · rw [Function.update_noteq hkk] at hne
      exact h.2 k hne hkd

theorem setRoutesTouched_default (wg : WireGuard) (t s : RouteTable) (x : Option Via)
    (h : setRoutesTouched wg t s) (hx : x = none ∨ x = some ⟨none, some wg.utunName⟩) :
    setRoutesTouched wg t (Function.update s defaultSlot x) := by
  refine ⟨?_, ?_⟩
  · rw [Function.update_same]
    exact Or.inr hx
  · intro k hne hkd
    rw [Function.update_noteq hkd] at hne
    exact h.2 k hne hkd

theorem setRoutesTouched_step (wg : WireGuard) (t : RouteTable) (bad : Cmd)
    (hhost : wg.hostIP ≠ "default") :
    ∀ c ∈ setRoutesCommands wg, ∀ s, setRoutesTouched wg t s →
      setRoutesTouched wg t (failing bad routeExec s c).1 := by
  intro c hc s hs
  unfold failing
  by_cases hb : c = bad
  · simpa [hb] using hs
  · simp only [hb, if_false]
    have e1 : hostSlot wg ≠ defaultSlot := by simp [hostSlot, defaultSlot, hhost]
    have e2 : scopedSlot wg ≠ defaultSlot := by simp [scopedSlot, defaultSlot]
    have e4 : v6Slot "::/1" ≠ defaultSlot := by simp [v6Slot, defaultSlot]
    have e5 : v6Slot "8000::/1" ≠ defaultSlot := by simp [v6Slot, defaultSlot]
    unfold setRoutesCommands stepsToTunnel stepsAfterTunnel at hc
    simp only [List.mem_append, List.mem_cons, List.mem_singleton, List.mem_nil_iff,
      or_false] at hc
    rcases hc with (hc | hc | hc | hc) | hc
    · cases hl : hostIsNotLoopback wg with
      | false => simp [hl] at hc
      | true =>
        simp only [hl, if_true, List.mem_singleton] at hc
        subst hc
        rw [exec_addHost]
        split
        · exact hs
        · rename_i hn
          exact setRoutesTouched_add wg t s _ _ hs e1 (by simpa using hn) (Or.inl ⟨hl, rfl⟩)
    · subst hc
      rw [exec_addScoped]
      split
      · exact hs
      · rename_i hn
        exact setRoutesTouched_add wg t s _ _ hs e2 (by simpa using hn) (Or.inr (Or.inl rfl))
    · subst hc
      rw [exec_deleteDefault]
      split
      · exact setRoutesTouched_default wg t s none hs (Or.inl rfl)
      · exact hs
    · subst hc
      rw [exec_addTunnel]
      split
      · exact hs
      · exact setRoutesTouched_default wg t s _ hs (Or.inr rfl)
    · cases h6 : wg.ipv6HostLocalIP with
      | none => simp [h6] at hc
      | some ip6 =>
        have h6n : wg.ipv6HostLocalIP ≠ none := by simp [h6]
        simp only [h6, List.mem_cons, List.mem_singleton, List.mem_nil_iff, or_false] at hc
        rcases hc with hc | hc
        · subst hc
          rw [exec_addV6Low]
          split
          · exact hs
          · rename_i hn
            exact setRoutesTouched_add wg t s _ _ hs e4 (by simpa using hn)
              (Or.inr (Or.inr ⟨h6n, Or.inl rfl⟩))
        · subst hc
          rw [exec_addV6High]
          split
          · exact hs
          · rename_i hn
            exact setRoutesTouched_add wg t s _ _ hs e5 (by simpa using hn)
              (Or.inr (Or.inr ⟨h6n, Or.inr rfl⟩))

theorem execUntilFailure_invariant {σ : Type} (sh : Shell σ) (P : σ → Prop) :
    ∀ cmds : List Cmd, (∀ c ∈ cmds, ∀ s, P s → P (sh s c).1) →
      ∀ s, P s → P (execUntilFailure sh cmds s).1 := by
  intro cmds
  induction cmds with
  | nil => intro _ s hs; exact hs
  | cons c cs ih =>
    intro hstep s hs
    rw [execUntilFailure]
    have h1 := hstep c (by simp) s hs
    split
    · exact ih (fun c2 hc2 => hstep c2 (by simp [hc2])) _ h1
    · exact h1

theorem execUntilFailure_failing {σ : Type} (sh : Shell σ) (bad : Cmd) :
    ∀ (cmds : List Cmd) (s : σ), bad ∈ cmds →
      (execUntilFailure (failing bad sh) cmds s).2 = false := by
  intro cmds
  induction cmds with
  | nil => intro s h; cases h
  | cons c cs ih =>
    intro s h
    rw [execUntilFailure]
    by_cases hc : c = bad
    · subst hc
      simp [failing_self]
    · have hmem : bad ∈ cs := by
        rcases List.mem_cons.1 h with h | h
        · exact absurd h.symm hc
        · exact h
      split
      · exact ih _ hmem
      · rfl

theorem setRoutes_touched (wg : WireGuard) (t : RouteTable) (bad : Cmd)
    (hhost : wg.hostIP ≠ "default") :
    setRoutesTouched wg t (setRoutes (failing bad routeExec) wg t).1 := by
  rw [(setRoutes_refines (failing bad routeExec) wg t).1]
  exact execUntilFailure_invariant _ _ _ (setRoutesTouched_step wg t bad hhost) t
    (setRoutesTouched_refl wg t)

theorem update_none_of_not_isSome (t : RouteTable) (k : Slot) (h : ¬ (t k).isSome = true) :
    Function.update t k none = t := by
  have hk : t k = none := by
    cases hv : t k with
    | none => rfl
    | some v => simp [hv] at h
  rw [← hk]
  exact Function.update_eq_self k t

theorem exec_deleteHost_table (wg : WireGuard) (t : RouteTable) :
    (routeExec t (cmdDeleteHost wg)).1 = Function.update t (hostSlot wg) none := by
  rw [exec_deleteHost]
  split
  · rfl
  · rename_i h
    exact (update_none_of_not_isSome t _ h).symm

theorem exec_deleteScoped_table (wg : WireGuard) (t : RouteTable) :
    (routeExec t (cmdDeleteScoped wg)).1 = Function.update t (scopedSlot wg) none := by
  rw [exec_deleteScoped]
  split
  · rfl
  · rename_i h
    exact (update_none_of_not_isSome t _ h).symm

theorem exec_deleteV6Low_table (ip6 : String) (t : RouteTable) :
    (routeExec t (cmdDeleteV6Low ip6)).1 = Function.update t (v6Slot "::/1") none := by
  rw [exec_deleteV6Low]
  split
  · rfl
  · rename_i h
    exact (update_none_of_not_isSome t _ h).symm

theorem exec_deleteV6High_table (ip6 : String) (t : RouteTable) :
    (routeExec t (cmdDeleteV6High ip6)).1 = Function.update t (v6Slot "8000::/1") none := by
  rw [exec_deleteV6High]
  split
  · rfl
  · rename_i h
    exact (update_none_of_not_isSome t _ h).symm

theorem exec_addDefault_table (wg : WireGuard) (t : RouteTable) :
    (routeExec t (cmdAddDefault wg)).1 =
      if (t defaultSlot).isSome then t
      else Function.update t defaultSlot (some ⟨some wg.defGateway, none⟩) := by
  rw [exec_addDefault]
  split <;> rfl

theorem removeRoutes_table (wg : WireGuard) (u : RouteTable) (hhost : wg.hostIP ≠ "default") :
    (removeRoutes routeExec wg u).1 defaultSlot =
      (if (u defaultSlot).isSome then u defaultSlot else some ⟨some wg.defGateway, none⟩) ∧
    (hostIsNotLoopback wg = true → (removeRoutes routeExec wg u).1 (hostSlot wg) = none) ∧
    (removeRoutes routeExec wg u).1 (scopedSlot wg) = none ∧
    (wg.ipv6HostLocalIP ≠ none →
      (removeRoutes routeExec wg u).1 (v6Slot "::/1") = none ∧
      (removeRoutes routeExec wg u).1 (v6Slot "8000::/1") = none) ∧
    (∀ k, k ≠ defaultSlot → (hostIsNotLoopback wg = true → k ≠ hostSlot wg) →
      k ≠ scopedSlot wg →
      (wg.ipv6HostLocalIP ≠ none → k ≠ v6Slot "::/1" ∧ k ≠ v6Slot "8000::/1") →
      (removeRoutes routeExec wg u).1 k = u k) := by
  have e1 : hostSlot wg ≠ defaultSlot := by simp [hostSlot, defaultSlot, hhost]
  have e2 : scopedSlot wg ≠ defaultSlot := by simp [scopedSlot, defaultSlot]
  have e3 : scopedSlot wg ≠ hostSlot wg := by simp [scopedSlot, hostSlot]
  have e4 : v6Slot "::/1" ≠ defaultSlot := by simp [v6Slot, defaultSlot]
  have e5 : v6Slot "8000::/1" ≠ defaultSlot := by simp [v6Slot, defaultSlot]
  have e6 : v6Slot "::/1" ≠ hostSlot wg := by simp [v6Slot, hostSlot]
  have e7 : v6Slot "8000::/1" ≠ hostSlot wg := by simp [v6Slot, hostSlot]
  have e8 : v6Slot "::/1" ≠ scopedSlot wg := by simp [v6Slot, scopedSlot]
  have e9 : v6Slot "8000::/1" ≠ scopedSlot wg := by simp [v6Slot, scopedSlot]
  have e10 : v6Slot "::/1" ≠ v6Slot "8000::/1" := by simp [v6Slot]
  unfold removeRoutes
  simp only [exec_deleteHost_table, exec_deleteScoped_table, exec_addDefault_table,
    exec_deleteV6Low_table, exec_deleteV6High_table]
  cases hl : hostIsNotLoopback wg <;> cases h6 : wg.ipv6HostLocalIP <;>
  simp only [Bool.false_eq_true, if_false, if_true, ne_eq, not_true_eq_false, not_false_eq_true,
    false_implies, true_implies, reduceCtorEq] <;>
  refine ⟨?_, ?_, ?_, ?_, ?_⟩ <;>
  (try intro k hk1 hk2 hk3 hk4) <;>
  (try split_ifs) <;>
  simp_all [Function.update_apply, e1, e2, e3, e4, e5, e6, e7, e8, e9, e10,
    e1.symm, e2.symm, e3.symm, e4.symm, e5.symm, e6.symm, e7.symm, e8.symm, e9.symm, e10.symm]

theorem interfaceDown_cases (ifn : String) (t : RouteTable) (k : Slot) :
    (interfaceDown ifn t k = none ∨ interfaceDown ifn t k = t k) ∧
    (∀ v, interfaceDown ifn t k = some v → v.iface ≠ some ifn) ∧
    (∀ v, t k = some v → v.iface ≠ some ifn → interfaceDown ifn t k = t k) ∧
    (t k = none → interfaceDown ifn t k = none) := by
  unfold interfaceDown
  cases h : t k with
  | none => simp
  | some v =>
    by_cases hv : v.iface = some ifn
    · simp [hv]
    · simp [hv]

theorem tornDown_default (wg : WireGuard) (t : RouteTable) (bad : Cmd)
    (hhost : wg.hostIP ≠ "default")
    (hsnap : t defaultSlot = some ⟨some wg.defGateway, none⟩) :
    tornDown wg bad t defaultSlot = t defaultSlot := by
  have ht := (setRoutes_touched wg t bad hhost).1
  have hd := interfaceDown_cases wg.utunName (setRoutes (failing bad routeExec) wg t).1
    defaultSlot
  unfold tornDown
  rw [(removeRoutes_table wg _ hhost).1, hsnap]
  rcases ht with h | h | h
  · rw [hsnap] at h
    rw [hd.2.2.1 _ h (by simp), h]
    rfl
  · rw [hd.2.2.2 h]
    rfl
  · have : interfaceDown wg.utunName (setRoutes (failing bad routeExec) wg t).1 defaultSlot =
        none := by
      unfold interfaceDown
      simp [h]
    rw [this]
    rfl

/-- C8: in the route-table model (adding to an occupied slot and deleting from an empty slot
fail), for a table whose default route is the one of the snapshot, let `setRoutes` run with the
command `bad` failing, the tunnel interface go down with the stopped process, and `removeRoutes`
run, as in the teardown of `internalConnect`.  Then `setRoutes` has failed when `bad` is one of
its commands; every slot that `setRoutes` changed holds again what it held before, so every
route added is removed; the default route is the one from before; no route goes through the
tunnel interface; and a table that held none of the routes of `setRoutes` and no route through
the tunnel interface is exactly what it was. -/
theorem teardown_after_failure (wg : WireGuard) (t : RouteTable) (bad : Cmd)
    (hhost : wg.hostIP ≠ "default")
    (hsnap : t defaultSlot = some ⟨some wg.defGateway, none⟩) :
    (bad ∈ setRoutesCommands wg → (setRoutes (failing bad routeExec) wg t).2 ≠ none) ∧
    (∀ k, (setRoutes (failing bad routeExec) wg t).1 k ≠ t k → tornDown wg bad t k = t k) ∧
    tornDown wg bad t defaultSlot = t defaultSlot ∧
    ¬ referencesInterface (tornDown wg bad t) wg.utunName ∧
    (pristine wg t → ¬ referencesInterface t wg.utunName → tornDown wg bad t = t) := by
  have htouch := setRoutes_touched wg t bad hhost
  have hdef := tornDown_default wg t bad hhost hsnap
  have hrem := removeRoutes_table wg
    (interfaceDown wg.utunName (setRoutes (failing bad routeExec) wg t).1) hhost
  have hchanged : ∀ k, (setRoutes (failing bad routeExec) wg t).1 k ≠ t k →
      tornDown wg bad t k = t k := by
    intro k hne
    by_cases hk : k = defaultSlot
    · rw [hk]; exact hdef
    · obtain ⟨hnone, hslot⟩ := htouch.2 k hne hk
      rw [hnone]
      unfold tornDown
      rcases hslot with ⟨hl, rfl⟩ | rfl | ⟨h6, rfl | rfl⟩
      · exact hrem.2.1 hl
      · exact hrem.2.2.1
      · exact (hrem.2.2.2.1 h6).1
      · exact (hrem.2.2.2.1 h6).2
  have hslots : ∀ k, k ≠ defaultSlot →
      tornDown wg bad t k = none ∨
      tornDown wg bad t k =
        interfaceDown wg.utunName (setRoutes (failing bad routeExec) wg t).1 k := by
    intro k hk
    unfold tornDown
    by_cases h1 : hostIsNotLoopback wg = true ∧ k = hostSlot wg
    · left; rw [h1.2]; exact hrem.2.1 h1.1
    · by_cases h2 : k = scopedSlot wg
      · left; rw [h2]; exact hrem.2.2.1
      · by_cases h3 : wg.ipv6HostLocalIP ≠ none ∧ (k = v6Slot "::/1" ∨ k = v6Slot "8000::/1")
        · left
          rcases h3 with ⟨h6, rfl | rfl⟩
          · exact (hrem.2.2.2.1 h6).1
          · exact (hrem.2.2.2.1 h6).2
        · right
          exact hrem.2.2.2.2 k hk (fun hl hkh => h1 ⟨hl, hkh⟩) h2
            (fun h6 => ⟨fun hk1 => h3 ⟨h6, Or.inl hk1⟩, fun hk2 => h3 ⟨h6, Or.inr hk2⟩⟩)
  refine ⟨?_, hchanged, hdef, ?_, ?_⟩
  · intro hmem hnil
    have h1 := (setRoutes_refines (failing bad routeExec) wg t).2.1 hnil
    rw [execUntilFailure_failing routeExec bad _ t hmem] at h1
    cases h1
  · rintro ⟨k, v, hkv, hv⟩
    by_cases hk : k = defaultSlot
    · rw [hk, hdef, hsnap] at hkv
      cases hkv
      cases hv
    · rcases hslots k hk with h | h
      · rw [h] at hkv; cases hkv
      · rw [h] at hkv
        exact (interfaceDown_cases wg.utunName _ k).2.1 v hkv hv
  · intro hp hnoref
    funext k
    by_cases hne : (setRoutes (failing bad routeExec) wg t).1 k = t k
    · by_cases hk : k = defaultSlot
      · rw [hk]; exact hdef
      · have hdown : interfaceDown wg.utunName (setRoutes (failing bad routeExec) wg t).1 k =
            t k := by
          cases htk : t k with
          | none =>
            exact (interfaceDown_cases wg.utunName _ k).2.2.2 (by rw [hne, htk])
          | some v =>
            rw [← htk, ← hne]
            exact (interfaceDown_cases wg.utunName _ k).2.2.1 v (by rw [hne, htk])
              (fun hv => hnoref ⟨k, v, htk, hv⟩)
        obtain ⟨-, p2, p3, p4, p5⟩ := hp
        unfold tornDown
        by_cases h1 : hostIsNotLoopback wg = true ∧ k = hostSlot wg
        · rw [h1.2, hrem.2.1 h1.1, p2]
        · by_cases h2 : k = scopedSlot wg
          · rw [h2, hrem.2.2.1, p3]
          · by_cases h3 : wg.ipv6HostLocalIP ≠ none ∧
                (k = v6Slot "::/1" ∨ k = v6Slot "8000::/1")
            · rcases h3 with ⟨h6, rfl | rfl⟩
              · rw [(hrem.2.2.2.1 h6).1, p4 h6]
              · rw [(hrem.2.2.2.1 h6).2, p5 h6]
            · rw [hrem.2.2.2.2 k hk (fun hl hkh => h1 ⟨hl, hkh⟩) h2
                (fun h6 => ⟨fun hk1 => h3 ⟨h6, Or.inl hk1⟩, fun hk2 => h3 ⟨h6, Or.inr hk2⟩⟩)]
              exact hdown
    · exact hchanged k hne

/-- C8 on the demo table, with the first IPv6 command failing: `setRoutes` fails with the
default route through the tunnel in place, and after the teardown the default route of the
snapshot is back and the table is what it was. -/
theorem teardown_after_failure_witness :
    cmdAddV6Low "fd00:4956:504e:ffff::1" ∈ setRoutesCommands demoWg ∧
    (setRoutes (failing (cmdAddV6Low "fd00:4956:504e:ffff::1") routeExec) demoWg demoTable).1
      defaultSlot = some ⟨none, some "utun7"⟩ ∧
    (setRoutes (failing (cmdAddV6Low "fd00:4956:504e:ffff::1") routeExec) demoWg demoTable).2
      ≠ none ∧
    tornDown demoWg (cmdAddV6Low "fd00:4956:504e:ffff::1") demoTable defaultSlot =
      some ⟨some "192.168.1.1", none⟩ ∧
    tornDown demoWg (cmdAddV6Low "fd00:4956:504e:ffff::1") demoTable = demoTable :=
  ⟨by decide, by decide,
   (teardown_after_failure demoWg demoTable (cmdAddV6Low "fd00:4956:504e:ffff::1") (by decide)
      rfl).1 (by decide),
   (teardown_after_failure demoWg demoTable (cmdAddV6Low "fd00:4956:504e:ffff::1") (by decide)
      rfl).2.2.1,
   (teardown_after_failure demoWg demoTable (cmdAddV6Low "fd00:4956:504e:ffff::1") (by decide)
      rfl).2.2.2.2 ⟨rfl, rfl, rfl, fun _ => rfl, fun _ => rfl⟩
      (by
        rintro ⟨k, v, hk, hv⟩
        unfold demoTable at hk
        split at hk
        · cases hk
          cases hv
        · cases hk)⟩

end wireguard
